import Mathlib

/-!
# The `invaderers` example of octet: sprites, collisions and the game loop

A shallow embedding of `src/examples/example_invaderers/invaderers_app.h`.

* C++ `float` values are exact rationals (`ℚ`); the decimal constants of the
  source are kept as written.
* C++ `int` counters are mathematical integers (`Int`); `%` on them is the
  truncating remainder (`Int.tmod`).
* The fixed array `sprite sprites[num_sprites]` is stored in rows of 16 entries,
  together with the proof that the rows have `num_sprites` entries in all; it is read
  with `sprite_at` and written with `set_sprite`, by its index in the array.
* Everything the code reads from outside in one frame (keyboard, random numbers,
  the coordinate file, texture handles) is a field of `frame_input`.
* Rendering and audio calls have no effect on the game state, apart from the
  counter `cur_source`, which is kept.
-/

namespace octet

/-! ## class sprite -/

/-- Modelled from the spec: the matrix class `mat4t` of the framework is not part
of the sources. A sprite only calls `loadIdentity`, `translate (x, y, 0)` and reads
the entries `[3][0]` and `[3][1]` of `modelToWorld`, so the matrix is represented by
the position `(x, y)` it holds, and `translate` adds its offset to the position. -/
structure sprite where
  x : ℚ
  y : ℚ
  halfWidth : ℚ
  halfHeight : ℚ
  texture : Nat
  enabled : Bool
deriving DecidableEq

instance : Inhabited sprite := ⟨⟨0, 0, 0, 0, 0, true⟩⟩

namespace sprite

/-- `void init(int _texture, float x, float y, float w, float h)`. -/
def init (self : sprite) (_texture : Nat) (x y w h : ℚ) : sprite :=
  { self with
    x := x
    y := y
    halfWidth := w * 0.5
    halfHeight := h * 0.5
    texture := _texture
    enabled := true }

/-- `void translate(float x, float y)`. -/
def translate (self : sprite) (x y : ℚ) : sprite :=
  { self with x := self.x + x, y := self.y + y }

/-- `void set_relative(sprite &rhs, float x, float y)`: copy the position of `rhs`,
then translate. -/
def set_relative (self rhs : sprite) (x y : ℚ) : sprite :=
  { self with x := rhs.x + x, y := rhs.y + y }

/-- `bool collides_with(const sprite &rhs) const`, over exact rationals. The same test
with every operation rounded as `float` rounds it is `sprite.collides_with_f32`. -/
def collides_with (self rhs : sprite) : Bool :=
  let dx := rhs.x - self.x
  let dy := rhs.y - self.y
  decide (|dx| < self.halfWidth + rhs.halfWidth) &&
  decide (|dy| < self.halfHeight + rhs.halfHeight)

/-- `bool is_above(const sprite &rhs, float margin) const`. -/
def is_above (self rhs : sprite) (margin : ℚ) : Bool :=
  let dx := rhs.x - self.x
  decide (|dx| < self.halfWidth + margin)

/-- `is_enabled() = b`. -/
def set_enabled (self : sprite) (b : Bool) : sprite :=
  { self with enabled := b }

end sprite

/-! ## The enum of `invaderers_app` -/

abbrev num_sound_sources : Nat := 8
abbrev num_rows : Nat := 7
abbrev num_cols : Nat := 13
abbrev num_missiles : Nat := 2
abbrev num_bombs : Nat := 7
abbrev num_borders : Nat := 4
abbrev num_invaderers : Nat := num_rows * num_cols

abbrev ship_sprite : Nat := 0
abbrev game_over_sprite : Nat := 1
abbrev restart_sprite : Nat := 2
abbrev success_sprite : Nat := 3
abbrev nextWave_sprite : Nat := 4
abbrev holyBanana_sprite : Nat := 5
abbrev first_invaderer_sprite : Nat := 6
abbrev last_invaderer_sprite : Nat := first_invaderer_sprite + num_invaderers - 1
abbrev first_missile_sprite : Nat := last_invaderer_sprite + 1
abbrev last_missile_sprite : Nat := first_missile_sprite + num_missiles - 1
abbrev first_bomb_sprite : Nat := last_missile_sprite + 1
abbrev last_bomb_sprite : Nat := first_bomb_sprite + num_bombs - 1
abbrev first_border_sprite : Nat := last_bomb_sprite + 1
abbrev last_border_sprite : Nat := first_border_sprite + num_borders - 1
abbrev num_sprites : Nat := last_border_sprite + 1

/-! ## The state of `invaderers_app` and the inputs of a frame -/

/-- The lengths of the rows in which the array `sprites` is stored: the
`num_sprites = 110` entries in rows of 16. -/
def row_lengths : List Nat := [16, 16, 16, 16, 16, 16, 14]

/-- The data members of `invaderers_app` that the simulation reads or writes. -/
structure invaderers_app where
  missiles_disabled : Int
  bombs_disabled : Int
  live_invaderers : Int
  num_lives : Int
  game_over : Bool
  loss : Bool
  reWave : Bool
  score : Int
  invader_velocity : ℚ
  cur_source : Nat
  sprites : List (List sprite)
  sprites_size : sprites.map List.length = row_lengths

/-- What one frame reads from outside the class: the keyboard (`is_key_down`,
`is_key_going_down`), the value of `randomizer.get(0, num_invaderers)`, the value
of `rand()`, the ten coordinate pairs of `points.txt` and the texture handles of
`resource_dict::get_texture_handle`. -/
structure frame_input where
  key_left : Bool
  key_right : Bool
  key_up : Bool
  key_down : Bool
  key_Y : Bool
  key_R : Bool
  key_space_going_down : Bool
  randomizer_get : Nat
  rand : Nat
  xypoints : Nat → Nat → ℚ
  get_texture_handle : String → Nat

namespace invaderers_app

/-- Read `sprites[k]`. -/
def sprite_at (s : invaderers_app) (k : Nat) : sprite :=
  (s.sprites.getD (k / 16) []).getD (k % 16) default

/-- Write `sprites[k] = v`. -/
@[irreducible]
def set_sprite (s : invaderers_app) (k : Nat) (v : sprite) : invaderers_app :=
  { s with
    sprites := s.sprites.set (k / 16) ((s.sprites.getD (k / 16) []).set (k % 16) v)
    sprites_size := by
      have key : ∀ (l : List (List sprite)) (i j : Nat),
          (l.set i ((l.getD i []).set j v)).map List.length = l.map List.length := by
        intro l
        induction l with
        | nil => intro i j; rfl
        | cons a l ih =>
          intro i j
          cases i with
          | zero => simp
          | succ i => simpa using ih i j
      rw [key]
      exact s.sprites_size }

/-- Apply a member function of `sprite` to `sprites[k]` in place. -/
@[irreducible]
def update_sprite (s : invaderers_app) (k : Nat) (f : sprite → sprite) : invaderers_app :=
  s.set_sprite k (f (s.sprite_at k))

end invaderers_app

/-- The search loop `for (k = lo; k != lo + n; ++k) if (p k) return k;`: the first
index from `lo` on, among `n` of them, at which `p` holds. -/
def first_index (p : Nat → Bool) (lo : Nat) : Nat → Option Nat
  | 0 => none
  | n + 1 => if p lo then some lo else first_index p (lo + 1) n

/-! ## The member functions of `invaderers_app` -/

/-- `ALuint get_sound_source()`: only the increment of `cur_source` (an `unsigned`)
is visible in the state. -/
def get_sound_source (s : invaderers_app) : invaderers_app :=
  { s with cur_source := (s.cur_source + 1) % 2 ^ 32 }

/-- `void on_hit_invaderer()`. -/
def on_hit_invaderer (s : invaderers_app) : invaderers_app :=
  let s := get_sound_source s
  let s := { s with live_invaderers := s.live_invaderers - 1 }
  let s := { s with score := s.score + 1 }
  if s.live_invaderers = 0 then
    let s := { s with game_over := true }
    let s := s.update_sprite success_sprite (fun t => t.translate (-20) 0)
    s.update_sprite nextWave_sprite (fun t => t.translate (-18.3) (-2.2))
  else s

/-- `void on_hit_ship()`. -/
def on_hit_ship (s : invaderers_app) : invaderers_app :=
  let s := get_sound_source s
  let s := { s with num_lives := s.num_lives - 1 }
  if s.num_lives = 0 then
    let s := { s with game_over := true }
    let s := { s with loss := true }
    let s := s.update_sprite game_over_sprite (fun t => t.translate (-20) 0.2)
    s.update_sprite restart_sprite (fun t => t.translate (-18.3) (-2.2))
  else s

/-- `const float ship_speed = 0.05f;` -/
def ship_speed : ℚ := 0.05

/-- One key of `move_ship`: translate the ship, and translate it back when it then
collides with the border sprite `border`. -/
def move_ship_key (s : invaderers_app) (dx dy : ℚ) (border : Nat) : invaderers_app :=
  let s := s.update_sprite ship_sprite (fun t => t.translate dx dy)
  if (s.sprite_at ship_sprite).collides_with (s.sprite_at border) then
    s.update_sprite ship_sprite (fun t => t.translate (-dx) (-dy))
  else s

/-- `void move_ship()`. -/
def move_ship (inp : frame_input) (s : invaderers_app) : invaderers_app :=
  let s := if inp.key_left then move_ship_key s (-ship_speed) 0 (first_border_sprite + 2) else s
  let s := if inp.key_right then move_ship_key s ship_speed 0 (first_border_sprite + 3) else s
  let s := if inp.key_up then move_ship_key s 0 ship_speed (first_border_sprite + 2) else s
  if inp.key_down then move_ship_key s 0 (-ship_speed) (first_border_sprite + 3) else s

/-- The body of the two loops of `initEnemies` for row `j` and column `i`. -/
def initEnemies_body (invaderer : Nat) (j : Nat) (s : invaderers_app) (i : Nat) :
    invaderers_app :=
  s.update_sprite (first_invaderer_sprite + i + j * 14) (fun t =>
    t.init invaderer (((i : ℚ) - (num_cols : ℚ) * 0.5) * 0.4) (2.75 - (j : ℚ) * 0.37) 0.25 0.25)

/-- `void initEnemies()`. -/
def initEnemies (inp : frame_input) (s : invaderers_app) : invaderers_app :=
  let invaderer := inp.get_texture_handle "assets/invaderers/invaderer.gif"
  if s.reWave = true then
    let s := { s with reWave := false }
    (List.range 6).foldl
      (fun s j => (List.range 14).foldl (initEnemies_body invaderer j) s) s
  else s

/-- `void fire_missiles()`. -/
def fire_missiles (inp : frame_input) (s : invaderers_app) : invaderers_app :=
  if s.missiles_disabled ≠ 0 then
    { s with missiles_disabled := s.missiles_disabled - 1 }
  else if inp.key_space_going_down && decide (Int.tmod s.num_lives 2 ≠ 0) then
    match first_index (fun i => !(s.sprite_at (first_missile_sprite + i)).enabled)
        0 num_missiles with
    | some i =>
      let s := s.update_sprite (first_missile_sprite + i)
        (fun t => t.set_relative (s.sprite_at ship_sprite) 0 0.5)
      let s := s.update_sprite (first_missile_sprite + i) (fun t => t.set_enabled true)
      let s := { s with missiles_disabled := 5 }
      get_sound_source s
    | none => s
  else s

/-- `void fire_bombs()`. -/
def fire_bombs (inp : frame_input) (s : invaderers_app) : invaderers_app :=
  if s.bombs_disabled ≠ 0 then
    { s with bombs_disabled := s.bombs_disabled - 1 }
  else
    let ship := s.sprite_at ship_sprite
    match first_index
        (fun j => (s.sprite_at (first_invaderer_sprite + j)).enabled &&
          (s.sprite_at (first_invaderer_sprite + j)).is_above ship 2.0)
        inp.randomizer_get (num_invaderers - inp.randomizer_get) with
    | some j =>
      let invaderer := s.sprite_at (first_invaderer_sprite + j)
      match first_index (fun i => !(s.sprite_at (first_bomb_sprite + i)).enabled)
          0 num_bombs with
      | some i =>
        let s := s.update_sprite (first_bomb_sprite + i)
          (fun t => t.set_relative invaderer 0 (-0.25))
        let s := s.update_sprite (first_bomb_sprite + i) (fun t => t.set_enabled true)
        let s := { s with bombs_disabled := 0 }
        get_sound_source s
      | none => s
    | none => s

/-- `const float missile_speed = 0.3f;` -/
def missile_speed : ℚ := 0.3

/-- The body of the loop of `move_missiles` for missile `i`. -/
def move_missiles_body (s : invaderers_app) (i : Nat) : invaderers_app :=
  if (s.sprite_at (first_missile_sprite + i)).enabled then
    let s := s.update_sprite (first_missile_sprite + i) (fun t => t.translate 0 missile_speed)
    let missile := s.sprite_at (first_missile_sprite + i)
    match first_index
        (fun j => (s.sprite_at (first_invaderer_sprite + j)).enabled &&
          missile.collides_with (s.sprite_at (first_invaderer_sprite + j)))
        0 num_invaderers with
    | some j =>
      let s := s.update_sprite (first_invaderer_sprite + j) (fun t => t.set_enabled false)
      let s := s.update_sprite (first_invaderer_sprite + j) (fun t => t.translate 20 0)
      let s := s.update_sprite (first_missile_sprite + i) (fun t => t.set_enabled false)
      let s := s.update_sprite (first_missile_sprite + i) (fun t => t.translate 20 0)
      on_hit_invaderer s
    | none =>
      if missile.collides_with (s.sprite_at (first_border_sprite + 1)) then
        let s := s.update_sprite (first_missile_sprite + i) (fun t => t.set_enabled false)
        s.update_sprite (first_missile_sprite + i) (fun t => t.translate 20 0)
      else s
  else s

/-- `void move_missiles()`. -/
def move_missiles (s : invaderers_app) : invaderers_app :=
  (List.range num_missiles).foldl move_missiles_body s

/-- `const float bomb_speed = 0.2f;` -/
def bomb_speed : ℚ := 0.2

/-- The body of the loop of `move_bombs` for bomb `i`. -/
def move_bombs_body (s : invaderers_app) (i : Nat) : invaderers_app :=
  if (s.sprite_at (first_bomb_sprite + i)).enabled then
    let s := s.update_sprite (first_bomb_sprite + i) (fun t => t.translate 0 (-bomb_speed))
    if (s.sprite_at (first_bomb_sprite + i)).collides_with (s.sprite_at ship_sprite) then
      let s := s.update_sprite (first_bomb_sprite + i) (fun t => t.set_enabled false)
      let s := s.update_sprite (first_bomb_sprite + i) (fun t => t.translate 20 0)
      let s := { s with bombs_disabled := 50 }
      on_hit_ship s
    else if (s.sprite_at (first_bomb_sprite + i)).collides_with
        (s.sprite_at (first_border_sprite + 0)) then
      let s := s.update_sprite (first_bomb_sprite + i) (fun t => t.set_enabled false)
      s.update_sprite (first_bomb_sprite + i) (fun t => t.translate 20 0)
    else s
  else s

/-- `void move_bombs()`. -/
def move_bombs (s : invaderers_app) : invaderers_app :=
  (List.range num_bombs).foldl move_bombs_body s

/-- `void gameOverCondition()`. -/
def gameOverCondition (inp : frame_input) (s : invaderers_app) : invaderers_app :=
  let s := initEnemies inp s
  let s := { s with game_over := false }
  let s := { s with reWave := true }
  let s := s.update_sprite game_over_sprite (fun t => t.translate (-40) 0.2)
  let s := s.update_sprite restart_sprite (fun t => t.translate (-48.3) (-2.2))
  let s := s.update_sprite success_sprite (fun t => t.translate (-40) 0)
  s.update_sprite nextWave_sprite (fun t => t.translate (-48.3) (-2.2))

/-- `void initHolyBananas()`. -/
def initHolyBananas (inp : frame_input) (s : invaderers_app) : invaderers_app :=
  if (s.sprite_at ship_sprite).collides_with (s.sprite_at holyBanana_sprite) then
    let holyBanana := inp.get_texture_handle "assets/invaderers/holyBomb.gif"
    let xypoints := inp.xypoints
    let randCount := inp.rand % 10 + 1
    let s :=
      match randCount with
      | 1 => s.update_sprite holyBanana_sprite
          (fun t => t.init holyBanana (xypoints 0 0) (xypoints 0 1) 0.25 0.25)
      | 2 => s.update_sprite holyBanana_sprite
          (fun t => t.init holyBanana (xypoints 1 0) (xypoints 1 1) 0.25 0.25)
      | 3 => s.update_sprite holyBanana_sprite
          (fun t => t.init holyBanana (xypoints 2 0 * (-1)) (xypoints 2 1) 0.25 0.25)
      | 4 => s.update_sprite holyBanana_sprite
          (fun t => t.init holyBanana (xypoints 3 0) (xypoints 3 1) 0.25 0.25)
      | 5 => s.update_sprite holyBanana_sprite
          (fun t => t.init holyBanana (xypoints 4 0 * (-1)) (xypoints 4 1) 0.25 0.25)
      | 6 => s.update_sprite holyBanana_sprite
          (fun t => t.init holyBanana (xypoints 5 0) (xypoints 5 1 * (-1)) 0.25 0.25)
      | 7 => s.update_sprite holyBanana_sprite
          (fun t => t.init holyBanana (xypoints 6 0) (xypoints 6 1 * (-1)) 0.25 0.25)
      | 8 => s.update_sprite holyBanana_sprite
          (fun t => t.init holyBanana (xypoints 7 0 * (-1)) (xypoints 7 1 * (-1)) 0.25 0.25)
      | 9 => s.update_sprite holyBanana_sprite
          (fun t => t.init holyBanana (xypoints 8 0) (xypoints 8 1 * (-1)) 0.25 0.25)
      | 10 => s.update_sprite holyBanana_sprite
          (fun t => t.init holyBanana (xypoints 9 0 * (-1)) (xypoints 9 1 * (-1)) 0.25 0.25)
      | _ => s
    { s with num_lives := s.num_lives + 1 }
  else s

/-- The loop of `app_init` that creates the missiles off-screen. -/
def app_init_missile (missile : Nat) (s : invaderers_app) (i : Nat) : invaderers_app :=
  let s := s.update_sprite (first_missile_sprite + i) (fun t => t.init missile 20 0 0.0625 0.25)
  s.update_sprite (first_missile_sprite + i) (fun t => t.set_enabled false)

/-- The loop of `app_init` that creates the bombs off-screen. -/
def app_init_bomb (bomb : Nat) (s : invaderers_app) (i : Nat) : invaderers_app :=
  let s := s.update_sprite (first_bomb_sprite + i) (fun t => t.init bomb 20 0 0.0625 0.25)
  s.update_sprite (first_bomb_sprite + i) (fun t => t.set_enabled false)

/-- `void app_init()`. -/
def app_init (inp : frame_input) (s : invaderers_app) : invaderers_app :=
  let ship := inp.get_texture_handle "assets/invaderers/ship.gif"
  let s := s.update_sprite ship_sprite (fun t => t.init ship 0 (-2.75) 0.25 0.25)
  let GameOver := inp.get_texture_handle "assets/invaderers/GameOver.gif"
  let s := s.update_sprite game_over_sprite (fun t => t.init GameOver 20 0 3 1.5)
  let Restart := inp.get_texture_handle "assets/invaderers/restart.gif"
  let s := s.update_sprite restart_sprite (fun t => t.init Restart 20 0 3 1.5)
  let Success := inp.get_texture_handle "assets/invaderers/success.gif"
  let s := s.update_sprite success_sprite (fun t => t.init Success 20 0 3 1.5)
  let NextWave := inp.get_texture_handle "assets/invaderers/nextWave.gif"
  let s := s.update_sprite nextWave_sprite (fun t => t.init NextWave 20 0 3 1.5)
  let holyBanana := inp.get_texture_handle "assets/invaderers/holyBomb.gif"
  let s := s.update_sprite holyBanana_sprite (fun t => t.init holyBanana 0.0 0.0 0.25 0.25)
  let white := inp.get_texture_handle "#ef9d97"
  let s := s.update_sprite (first_border_sprite + 0) (fun t => t.init white 0 (-3) 6 0.2)
  let s := s.update_sprite (first_border_sprite + 1) (fun t => t.init white 0 3 6 0.2)
  let s := s.update_sprite (first_border_sprite + 2) (fun t => t.init white (-3) 0 0.2 6)
  let s := s.update_sprite (first_border_sprite + 3) (fun t => t.init white 3 0 0.2 6)
  let missile := inp.get_texture_handle "assets/invaderers/missile.gif"
  let s := (List.range num_missiles).foldl (app_init_missile missile) s
  let bomb := inp.get_texture_handle "assets/invaderers/bomb.gif"
  let s := (List.range num_bombs).foldl (app_init_bomb bomb) s
  { s with
    cur_source := 0
    missiles_disabled := 0
    bombs_disabled := 50
    invader_velocity := 0.03
    live_invaderers := (num_invaderers : Int) - 7
    num_lives := 5
    game_over := false
    loss := false
    reWave := true
    score := 0 }

/-- `void simulate()`. -/
def simulate (inp : frame_input) (s : invaderers_app) : invaderers_app :=
  if s.game_over then
    let s := if inp.key_Y && s.game_over == true then gameOverCondition inp s else s
    let s := if inp.key_R && s.game_over == true then app_init inp s else s
    s
  else
    let s := move_ship inp s
    let s := initEnemies inp s
    let s := fire_missiles inp s
    let s := fire_bombs inp s
    let s := move_missiles s
    let s := move_bombs s
    initHolyBananas inp s

/-- The frames of a play, one `simulate` call per entry of `inputs`, in order. -/
def simulate_frames (inputs : List frame_input) (s : invaderers_app) : invaderers_app :=
  inputs.foldl (fun s inp => simulate inp s) s

/-! ## Auxiliary notions used to state the properties -/

/-- The point `(px, py)` lies in the open rectangle of a sprite: its centre plus or
minus its half-extents, borders excluded. -/
def sprite.in_open_rect (self : sprite) (px py : ℚ) : Prop :=
  self.x - self.halfWidth < px ∧ px < self.x + self.halfWidth ∧
  self.y - self.halfHeight < py ∧ py < self.y + self.halfHeight

/-- Missile `i` of `s` after its upward advance in `move_missiles`. -/
def advanced_missile (s : invaderers_app) (i : Nat) : sprite :=
  (s.sprite_at (first_missile_sprite + i)).translate 0 missile_speed

/-- The test of the inner loop of `move_missiles`: invader `j` is enabled in `s` and
the sprite `m` collides with it. -/
def invaderer_hit (s : invaderers_app) (m : sprite) (j : Nat) : Bool :=
  (s.sprite_at (first_invaderer_sprite + j)).enabled &&
    m.collides_with (s.sprite_at (first_invaderer_sprite + j))

/-- The number of invader slots that are enabled in `s` and disabled in `s'`. -/
def newly_disabled (s s' : invaderers_app) : Nat :=
  (List.range num_invaderers).countP (fun j =>
    (s.sprite_at (first_invaderer_sprite + j)).enabled &&
      !(s'.sprite_at (first_invaderer_sprite + j)).enabled)

/-- Bomb `i` of `s` after its downward advance in `move_bombs`. -/
def advanced_bomb (s : invaderers_app) (i : Nat) : sprite :=
  (s.sprite_at (first_bomb_sprite + i)).translate 0 (-bomb_speed)

/-- Bomb `i` is enabled in `s` and collides with the ship after its advance. -/
def bomb_hits_ship (s : invaderers_app) (i : Nat) : Bool :=
  (s.sprite_at (first_bomb_sprite + i)).enabled &&
    (advanced_bomb s i).collides_with (s.sprite_at ship_sprite)

/-- The sprite that the iteration of `move_bombs` for bomb `i` leaves in slot `i`:
a disabled bomb is kept; an enabled bomb advances, and is disabled and moved
off-screen when it then collides with the ship or else with the bottom border. -/
def bomb_after (s : invaderers_app) (i : Nat) : sprite :=
  if (s.sprite_at (first_bomb_sprite + i)).enabled then
    if (advanced_bomb s i).collides_with (s.sprite_at ship_sprite) then
      ((advanced_bomb s i).set_enabled false).translate 20 0
    else if (advanced_bomb s i).collides_with (s.sprite_at (first_border_sprite + 0)) then
      ((advanced_bomb s i).set_enabled false).translate 20 0
    else advanced_bomb s i
  else s.sprite_at (first_bomb_sprite + i)

/-- The number of enabled sprites among the `num_invaderers` slots of the invader pool. -/
def enabled_invaderers (s : invaderers_app) : Nat :=
  (List.range num_invaderers).countP
    (fun j => (s.sprite_at (first_invaderer_sprite + j)).enabled)

/-- What the constructors leave behind: `sprite::sprite()` sets `texture = 0` and
`enabled = true` in every entry of `sprites` and initialises nothing else. -/
def constructed (s : invaderers_app) : Prop :=
  ∀ k, k < num_sprites → (s.sprite_at k).texture = 0 ∧ (s.sprite_at k).enabled = true

/-- The states the game can be in: `app_init` on a freshly constructed object, followed
by any number of `simulate` frames with any inputs. -/
inductive Reachable : invaderers_app → Prop
  | init (inp : frame_input) (s : invaderers_app) : constructed s → Reachable (app_init inp s)
  | frame (inp : frame_input) (s : invaderers_app) : Reachable s → Reachable (simulate inp s)

/-- The states reached without the continue key: as `Reachable`, with the key `Y` held
in no frame. -/
inductive ReachableNoContinue : invaderers_app → Prop
  | init (inp : frame_input) (s : invaderers_app) :
      constructed s → ReachableNoContinue (app_init inp s)
  | frame (inp : frame_input) (s : invaderers_app) :
      ReachableNoContinue s → inp.key_Y = false → ReachableNoContinue (simulate inp s)

/-! ## A play of the game, frame by frame -/

instance : DecidableEq invaderers_app := fun a b =>
  if h : a.missiles_disabled = b.missiles_disabled ∧ a.bombs_disabled = b.bombs_disabled ∧
      a.live_invaderers = b.live_invaderers ∧ a.num_lives = b.num_lives ∧
      a.game_over = b.game_over ∧ a.loss = b.loss ∧ a.reWave = b.reWave ∧
      a.score = b.score ∧ a.invader_velocity = b.invader_velocity ∧
      a.cur_source = b.cur_source ∧ a.sprites = b.sprites then
    isTrue (by cases a; cases b; simp_all)
  else isFalse (by rintro rfl; simp at h)

/-- A freshly constructed object. The members that the constructors do not initialise
hold arbitrary values; here every sprite lies far away at `(1000, 1000)` with
half-extents 0, and the counters are 0. -/
def constructed_state : invaderers_app :=
  { missiles_disabled := 0, bombs_disabled := 0, live_invaderers := 0, num_lives := 0,
    game_over := false, loss := false, reWave := false, score := 0, invader_velocity := 0,
    cur_source := 0,
    sprites := List.replicate 6 (List.replicate 16 ⟨1000, 1000, 0, 0, 0, true⟩) ++
      [List.replicate 14 ⟨1000, 1000, 0, 0, 0, true⟩],
    sprites_size := by decide }

/-- A frame with no key held. The random start index of `fire_bombs` is the last slot of
the invader pool, every texture handle is 1 and every entry of `points.txt` is 10. -/
def idle : frame_input :=
  { key_left := false, key_right := false, key_up := false, key_down := false,
    key_Y := false, key_R := false, key_space_going_down := false,
    randomizer_get := 90, rand := 0, xypoints := fun _ _ => 10,
    get_texture_handle := fun _ => 1 }

/-- A frame with no key held in which `fire_bombs` starts its scan at invader `j`. -/
def bomber (j : Nat) : frame_input := { idle with randomizer_get := j }

def go_left : frame_input := { idle with key_left := true }

def go_right : frame_input := { idle with key_right := true }

def go_up : frame_input := { idle with key_up := true }

def go_down : frame_input := { idle with key_down := true }

def go_up_left : frame_input := { idle with key_up := true, key_left := true }

def fire : frame_input := { idle with key_space_going_down := true }

def go_left_fire : frame_input :=
  { idle with key_left := true, key_space_going_down := true }

def go_right_fire : frame_input :=
  { idle with key_right := true, key_space_going_down := true }

def press_Y : frame_input := { idle with key_Y := true }

/-- The game at its start. -/
def game_start : invaderers_app := app_init idle constructed_state

/-- 74 frames in which the ship loses its lives: it steps left once and waits; when the
bomb timer has run out, invaders of column 6 drop six bombs (from row 3 in frame 51, row 4
in frames 55 and 57, row 5 in frames 56, 58 and 59), which hit the ship in frames 70 to
74, two of them in frame 74. -/
def lose_inputs : List frame_input :=
  [go_left] ++ List.replicate 49 idle ++
  [bomber 48] ++ List.replicate 3 idle ++
  [bomber 62, bomber 76, bomber 62, bomber 76, bomber 76] ++
  List.replicate 15 idle

/-- 90 frames in which the ship flies to `(-2.75, 1.75)`, below the left end of the two
top rows of invaders. -/
def approach_inputs : List frame_input :=
  List.replicate 54 go_up_left ++ List.replicate 36 go_up

/-- 12 frames that destroy the two invaders of a column above the ship, moving right:
fire, six steps right with a second shot on the sixth, two more steps, three frames
of rest. -/
def column_right : List frame_input :=
  [fire] ++ List.replicate 5 go_right ++ [go_right_fire] ++ List.replicate 2 go_right ++
  List.replicate 3 idle

/-- As `column_right`, moving left. -/
def column_left : List frame_input :=
  [fire] ++ List.replicate 5 go_left ++ [go_left_fire] ++ List.replicate 2 go_left ++
  List.replicate 3 idle

/-- Rows 0 and 1 of the grid, column by column from the left. -/
def level0 : List frame_input :=
  (List.replicate 13 column_right).flatten ++
  [fire] ++ List.replicate 5 go_right ++ [go_right_fire]

/-- Down to the next two rows, then rows 2 and 3, column by column from the right. -/
def level1 : List frame_input :=
  List.replicate 15 go_down ++ (List.replicate 13 column_left).flatten ++
  [fire] ++ List.replicate 5 go_left ++ [go_left_fire]

/-- Down again, then rows 4 and 5 from the left, up to the last invader but one. -/
def level2_but_last : List frame_input :=
  List.replicate 14 go_down ++ (List.replicate 13 column_right).flatten ++
  [fire] ++ List.replicate 5 go_right

/-- A copy of a state, built field by field. -/
def fresh_copy (s : invaderers_app) : invaderers_app :=
  { missiles_disabled := s.missiles_disabled, bombs_disabled := s.bombs_disabled,
    live_invaderers := s.live_invaderers, num_lives := s.num_lives, game_over := s.game_over,
    loss := s.loss, reWave := s.reWave, score := s.score,
    invader_velocity := s.invader_velocity, cur_source := s.cur_source,
    sprites := s.sprites, sprites_size := s.sprites_size }

/-- The frames of `simulate_frames`, written so that each state is evaluated and copied
before the next frame starts; it computes the same state (`run_checked_eq`). -/
def run_checked : List frame_input → invaderers_app → invaderers_app
  | [], s => s
  | inp :: rest, s =>
    if (fresh_copy (simulate inp s)).game_over = (fresh_copy (simulate inp s)).game_over then
      run_checked rest (fresh_copy (simulate inp s))
    else s

/-- The array `sprites` with the entries of `l` written to it, from index 0 on. -/
def with_sprites (s : invaderers_app) (l : List sprite) : invaderers_app :=
  l.enum.foldl (fun s p => s.set_sprite p.1 p.2) s

/-- The state of the play when the first `killed` invaders of the grid are destroyed:
the ship at `(ship_x, ship_y)`, missile 0 where its last hit left it. -/
def play_state (killed : Nat) (ship_x ship_y : ℚ) (md : Int) (missile_x missile_y : ℚ) :
    invaderers_app :=
  { with_sprites constructed_state
      ([⟨ship_x, ship_y, 0.125, 0.125, 1, true⟩, ⟨-40, 0.4, 1.5, 0.75, 1, true⟩,
        ⟨-46.6, -4.4, 1.5, 0.75, 1, true⟩, ⟨-20, 0, 1.5, 0.75, 1, true⟩,
        ⟨-28.3, -2.2, 1.5, 0.75, 1, true⟩, ⟨0, 0, 0.125, 0.125, 1, true⟩] ++
       (List.range 84).map (fun j =>
        if j < killed then
          ⟨((j % 14 : Nat) - 6.5) * 0.4 + 20, 2.75 - (j / 14 : Nat) * 0.37,
            0.125, 0.125, 1, false⟩
        else
          ⟨((j % 14 : Nat) - 6.5) * 0.4, 2.75 - (j / 14 : Nat) * 0.37,
            0.125, 0.125, 1, true⟩) ++
       List.replicate 7 ⟨1000, 1000, 0, 0, 0, true⟩ ++
       [⟨missile_x, missile_y, 0.03125, 0.125, 1, false⟩, ⟨20, 0, 0.03125, 0.125, 1, false⟩,
        ⟨19.8, -2.61, 0.03125, 0.125, 1, false⟩, ⟨19.8, -2.58, 0.03125, 0.125, 1, false⟩,
        ⟨19.8, -2.55, 0.03125, 0.125, 1, false⟩, ⟨19.8, -2.58, 0.03125, 0.125, 1, false⟩,
        ⟨19.8, -2.55, 0.03125, 0.125, 1, false⟩, ⟨19.8, -2.55, 0.03125, 0.125, 1, false⟩,
        ⟨20, 0, 0.03125, 0.125, 1, false⟩,
        ⟨0, -3, 3, 0.1, 1, true⟩, ⟨0, 3, 3, 0.1, 1, true⟩, ⟨-3, 0, 0.1, 3, 1, true⟩,
        ⟨3, 0, 0.1, 3, 1, true⟩]) with
    missiles_disabled := md
    bombs_disabled := 0
    live_invaderers := 84 - killed
    num_lives := -1
    game_over := false
    loss := true
    reWave := false
    score := killed
    invader_velocity := 0.03
    cur_source := 12 + 2 * killed }

/-- The play after the 74 frames of `lose_inputs`: the round is lost. -/
def lost_state : invaderers_app := simulate_frames lose_inputs game_start

/-- The lost round continued with the key `Y`. -/
def continued_state : invaderers_app := simulate press_Y lost_state

/-- The play one shot before the end of the wave: 83 invaders are destroyed and the
ship is six steps left of the last one, in row 5 and column 13. -/
def pre_win_state : invaderers_app := play_state 83 2.7 0.3 0 22.45 1.1

/-- The play when the last invader is destroyed. -/
def won_state : invaderers_app := simulate go_right_fire pre_win_state

/-- The won round continued with the key `Y`. -/
def continued_won_state : invaderers_app := simulate press_Y won_state

/-- The state `s'` has the counters and flags of the round of `s`: the same
`live_invaderers`, `num_lives`, `score`, `game_over` and `loss`. -/
def same_round (s s' : invaderers_app) : Prop :=
  s'.live_invaderers = s.live_invaderers ∧ s'.num_lives = s.num_lives ∧
  s'.score = s.score ∧ s'.game_over = s.game_over ∧ s'.loss = s.loss

/-! ## Concrete sprites and states -/

/-- A box of half-extents 1 centred at `(x, y)`. -/
def unit_box (x y : ℚ) : sprite := ⟨x, y, 1, 1, 0, true⟩

/-- The game after its first frame, which places the invaders, with missile 0 in flight
in column 0, where after its advance it overlaps the invaders 0 (row 0) and 14 (row 1). -/
def double_hit_state : invaderers_app :=
  (simulate idle game_start).set_sprite (first_missile_sprite + 0) ⟨-2.6, 2.265, 0.03125, 0.125, 1, true⟩

/-- The game at its start with bomb 0 falling above the ship, where after its advance it
overlaps both the ship and the bottom border. -/
def ship_and_border_state : invaderers_app :=
  game_start.set_sprite (first_bomb_sprite + 0) ⟨0, -2.7, 0.03125, 0.125, 1, true⟩

/-- The game at its start with one life left. -/
def last_life_state : invaderers_app := { game_start with num_lives := 1 }

/-! ## Notions and concrete states for the spawn functions and the scenarios -/

/-- The test of the outer loop of `fire_bombs` for invader `j`: it is enabled and
`is_above` the ship with margin 2. -/
def above_ship (s : invaderers_app) (j : Nat) : Bool :=
  (s.sprite_at (first_invaderer_sprite + j)).enabled &&
    (s.sprite_at (first_invaderer_sprite + j)).is_above (s.sprite_at ship_sprite) 2.0

/-- The game after its first frame, which places the invaders, with every missile slot
and every bomb slot in use and the bomb timer run out. -/
def full_pools_state : invaderers_app :=
  { (List.range num_bombs).foldl
      (fun s i => s.update_sprite (first_bomb_sprite + i) (fun t => t.set_enabled true))
      ((List.range num_missiles).foldl
        (fun s i => s.update_sprite (first_missile_sprite + i) (fun t => t.set_enabled true))
        (simulate idle game_start)) with
    bombs_disabled := 0 }

/-- The invader of column `i` and row `j` of the grid as the wave starts: enabled, of
size 0.25 x 0.25 (half-extents 0.125), at `((i - 6.5) * 0.4, 2.75 - 0.37 * j)`. -/
def grid_invaderer (invaderer : Nat) (i j : Nat) : sprite :=
  ⟨((i : ℚ) - 6.5) * 0.4, 2.75 - 0.37 * (j : ℚ), 0.125, 0.125, invaderer, true⟩

/-- A frame with the restart key `R` held. -/
def press_R : frame_input := { idle with key_R := true }

/-- The `x` coordinate that `initHolyBananas` gives the pickup for row `k` of the
coordinate table: the entry `xypoints k 0`, negated in the rows 2, 4, 7 and 9 (the
cases 3, 5, 8 and 10 of the `switch`). -/
def pickup_x (xypoints : Nat → Nat → ℚ) (k : Nat) : ℚ :=
  if k = 2 ∨ k = 4 ∨ k = 7 ∨ k = 9 then xypoints k 0 * (-1) else xypoints k 0

/-- The `y` coordinate that `initHolyBananas` gives the pickup for row `k` of the
coordinate table: the entry `xypoints k 1`, negated in the rows 5 to 9 (the cases 6 to
10 of the `switch`). -/
def pickup_y (xypoints : Nat → Nat → ℚ) (k : Nat) : ℚ :=
  if k = 5 ∨ k = 6 ∨ k = 7 ∨ k = 8 ∨ k = 9 then xypoints k 1 * (-1) else xypoints k 1

/-- A frame with no key held in which `rand()` returns 12: `initHolyBananas` uses row 2
of the coordinate table. -/
def pickup_frame : frame_input := { idle with rand := 12 }

/-- The game at its start with the pickup placed on the ship. -/
def pickup_state : invaderers_app :=
  game_start.update_sprite holyBanana_sprite (fun t => t.init 1 0.1 (-2.7) 0.25 0.25)

/-- The state after `n` successive calls of `move_missiles`. -/
def move_missiles_calls : Nat → invaderers_app → invaderers_app
  | 0, s => s
  | n + 1, s => move_missiles (move_missiles_calls n s)

/-- The state after `n` successive calls of `move_bombs`. -/
def move_bombs_calls : Nat → invaderers_app → invaderers_app
  | 0, s => s
  | n + 1, s => move_bombs (move_bombs_calls n s)

/-- The missile scenario, before the shot: the ship at `(0, -2.75)`; a permitted fire
input (no cooldown, a key-down edge of the fire key, an odd `num_lives`); both missile
slots free, slot 0 of the size 0.0625 x 0.25 that `app_init` gives the missiles; invader
`j` enabled, of size 0.25 x 0.25, at `(0, 0.5)`, and no other invader enabled; the top
border at the height 3 with half-height 0.1, where `app_init` puts it. -/
def missile_scenario (inp : frame_input) (s : invaderers_app) (j : Nat) : Prop :=
  (s.sprite_at ship_sprite).x = 0 ∧ (s.sprite_at ship_sprite).y = -2.75 ∧
  s.missiles_disabled = 0 ∧ inp.key_space_going_down = true ∧
  Int.tmod s.num_lives 2 ≠ 0 ∧
  (∀ i, i < num_missiles → (s.sprite_at (first_missile_sprite + i)).enabled = false) ∧
  (s.sprite_at (first_missile_sprite + 0)).halfWidth = 0.03125 ∧
  (s.sprite_at (first_missile_sprite + 0)).halfHeight = 0.125 ∧
  j < num_invaderers ∧
  (s.sprite_at (first_invaderer_sprite + j)).enabled = true ∧
  (s.sprite_at (first_invaderer_sprite + j)).x = 0 ∧
  (s.sprite_at (first_invaderer_sprite + j)).y = 0.5 ∧
  (s.sprite_at (first_invaderer_sprite + j)).halfWidth = 0.125 ∧
  (s.sprite_at (first_invaderer_sprite + j)).halfHeight = 0.125 ∧
  (∀ k, k < num_invaderers → k ≠ j →
    (s.sprite_at (first_invaderer_sprite + k)).enabled = false) ∧
  (s.sprite_at (first_border_sprite + 1)).y = 3 ∧
  (s.sprite_at (first_border_sprite + 1)).halfHeight = 0.1

/-- The missile of the scenario in flight in the state `u`, after `n` advances: missile
0 enabled at `(0, -2.25 + 0.3 * n)`, missile 1 still free, the invaders, the top border
and the counters as in the state `s` before the shot. -/
def missile_flight (s : invaderers_app) (n : Nat) (u : invaderers_app) : Prop :=
  (u.sprite_at (first_missile_sprite + 0)).enabled = true ∧
  (u.sprite_at (first_missile_sprite + 0)).x = 0 ∧
  (u.sprite_at (first_missile_sprite + 0)).y = -2.25 + 0.3 * (n : ℚ) ∧
  (u.sprite_at (first_missile_sprite + 0)).halfWidth = 0.03125 ∧
  (u.sprite_at (first_missile_sprite + 0)).halfHeight = 0.125 ∧
  (u.sprite_at (first_missile_sprite + 1)).enabled = false ∧
  (∀ k, k < num_invaderers →
    u.sprite_at (first_invaderer_sprite + k) = s.sprite_at (first_invaderer_sprite + k)) ∧
  u.sprite_at (first_border_sprite + 1) = s.sprite_at (first_border_sprite + 1) ∧
  u.score = s.score ∧ u.live_invaderers = s.live_invaderers

/-- The bomb scenario: the ship at its starting position `(0, -2.75)` with its size
0.25 x 0.25; bomb `i` enabled at the height 1, of the size 0.0625 x 0.25 that `app_init`
gives the bombs, horizontally overlapping the ship; no other bomb enabled; the bottom
border at the height -3 with half-height 0.1, where `app_init` puts it. -/
def bomb_scenario (s : invaderers_app) (i : Nat) : Prop :=
  (s.sprite_at ship_sprite).x = 0 ∧ (s.sprite_at ship_sprite).y = -2.75 ∧
  (s.sprite_at ship_sprite).halfWidth = 0.125 ∧
  (s.sprite_at ship_sprite).halfHeight = 0.125 ∧
  i < num_bombs ∧
  (s.sprite_at (first_bomb_sprite + i)).enabled = true ∧
  (s.sprite_at (first_bomb_sprite + i)).y = 1.0 ∧
  (s.sprite_at (first_bomb_sprite + i)).halfWidth = 0.03125 ∧
  (s.sprite_at (first_bomb_sprite + i)).halfHeight = 0.125 ∧
  |(s.sprite_at ship_sprite).x - (s.sprite_at (first_bomb_sprite + i)).x| <
    (s.sprite_at (first_bomb_sprite + i)).halfWidth +
      (s.sprite_at ship_sprite).halfWidth ∧
  (∀ k, k < num_bombs → k ≠ i → (s.sprite_at (first_bomb_sprite + k)).enabled = false) ∧
  (s.sprite_at (first_border_sprite + 0)).y = -3 ∧
  (s.sprite_at (first_border_sprite + 0)).halfHeight = 0.1

/-- The bomb of the scenario in flight in the state `u`, after `n` advances: bomb `i`
enabled at the height `1 - 0.2 * n`, no other bomb enabled, the ship, the bottom border
and `num_lives` as in the state `s` at the start. -/
def bomb_flight (s : invaderers_app) (i n : Nat) (u : invaderers_app) : Prop :=
  (u.sprite_at (first_bomb_sprite + i)).enabled = true ∧
  (u.sprite_at (first_bomb_sprite + i)).x = (s.sprite_at (first_bomb_sprite + i)).x ∧
  (u.sprite_at (first_bomb_sprite + i)).y = 1.0 - 0.2 * (n : ℚ) ∧
  (u.sprite_at (first_bomb_sprite + i)).halfWidth = 0.03125 ∧
  (u.sprite_at (first_bomb_sprite + i)).halfHeight = 0.125 ∧
  (∀ k, k < num_bombs → k ≠ i → (u.sprite_at (first_bomb_sprite + k)).enabled = false) ∧
  u.sprite_at ship_sprite = s.sprite_at ship_sprite ∧
  u.sprite_at (first_border_sprite + 0) = s.sprite_at (first_border_sprite + 0) ∧
  u.num_lives = s.num_lives

/-- A state of the missile scenario: the game at its start with every slot of the
invader pool disabled but slot 0, which holds an invader of size 0.25 x 0.25 at
`(0, 0.5)`. -/
def missile_scenario_state : invaderers_app :=
  ((List.range num_invaderers).foldl
    (fun s k => s.update_sprite (first_invaderer_sprite + k) (fun t => t.set_enabled false))
    game_start).update_sprite (first_invaderer_sprite + 0)
      (fun t => t.init 1 0 0.5 0.25 0.25)

/-- A state of the bomb scenario: the game at its start with bomb 0 in flight at
`(0.1, 1.0)`. -/
def bomb_scenario_state : invaderers_app :=
  game_start.set_sprite (first_bomb_sprite + 0) ⟨0.1, 1.0, 0.03125, 0.125, 1, true⟩

/-- The number of enabled sprites among the 84 slots of the grid, the invader indices
0 to 83. -/
def enabled_grid_invaderers (s : invaderers_app) : Nat :=
  (List.range 84).countP (fun j => (s.sprite_at (first_invaderer_sprite + j)).enabled)

/-- The state `u` has the invader pool, the flag `reWave` and the counter
`live_invaderers` of the state `s`. -/
def pool_kept (s u : invaderers_app) : Prop :=
  (∀ k, k < num_invaderers →
    u.sprite_at (first_invaderer_sprite + k) = s.sprite_at (first_invaderer_sprite + k)) ∧
  u.reWave = s.reWave ∧ u.live_invaderers = s.live_invaderers

/-- The states of the first game: `app_init` on a freshly constructed object, followed
by `simulate` frames in none of which the continue key `Y` or the restart key `R` is
held. -/
inductive ReachableFirstGame : invaderers_app → Prop
  | init (inp : frame_input) (s : invaderers_app) :
      constructed s → ReachableFirstGame (app_init inp s)
  | frame (inp : frame_input) (s : invaderers_app) :
      ReachableFirstGame s → inp.key_Y = false → inp.key_R = false →
      ReachableFirstGame (simulate inp s)

/-- The play one idle frame after the won round was continued with the key `Y`: the
next wave is on the screen. -/
def next_wave_state : invaderers_app := simulate idle continued_won_state

/-! ## Notions and concrete states for the frozen round and the borders -/

/-- A frame with the four movement keys held and the fire key pressed, and neither `Y`
nor `R`. -/
def all_keys : frame_input :=
  { idle with
    key_left := true
    key_right := true
    key_up := true
    key_down := true
    key_space_going_down := true }

/-- The ship overlaps none of the four border sprites. -/
def ship_clear_of_borders (s : invaderers_app) : Prop :=
  ∀ b, b < num_borders →
    (s.sprite_at ship_sprite).collides_with (s.sprite_at (first_border_sprite + b)) = false

/-- The ship between the side borders: the left and the right border where `app_init`
puts them (centres `(-3, 0)` and `(3, 0)`, half-extents 0.1 and 3), the ship of its size
0.25 x 0.25, and its centre at least 0.225, the sum of the half-widths, away from the
centre line of either side border. -/
def ship_between_side_borders (s : invaderers_app) : Prop :=
  (s.sprite_at (first_border_sprite + 2)).x = -3 ∧
  (s.sprite_at (first_border_sprite + 2)).y = 0 ∧
  (s.sprite_at (first_border_sprite + 2)).halfWidth = 0.1 ∧
  (s.sprite_at (first_border_sprite + 2)).halfHeight = 3 ∧
  (s.sprite_at (first_border_sprite + 3)).x = 3 ∧
  (s.sprite_at (first_border_sprite + 3)).y = 0 ∧
  (s.sprite_at (first_border_sprite + 3)).halfWidth = 0.1 ∧
  (s.sprite_at (first_border_sprite + 3)).halfHeight = 3 ∧
  (s.sprite_at ship_sprite).halfWidth = 0.125 ∧
  (s.sprite_at ship_sprite).halfHeight = 0.125 ∧
  -2.775 ≤ (s.sprite_at ship_sprite).x ∧ (s.sprite_at ship_sprite).x ≤ 2.775

/-- The ship after one key of `move_ship`: moved by `(dx, dy)`, and moved back when it
then collides with the sprite `border`. -/
def ship_after_key (ship border : sprite) (dx dy : ℚ) : sprite :=
  if (ship.translate dx dy).collides_with border then
    (ship.translate dx dy).translate (-dx) (-dy)
  else ship.translate dx dy

/-- The ship after `move_ship`, from the ship `p`, the left border `l` and the right
border `r` before the call: the keys left, right, up and down in this order, the left
and the up key tested against the left border, the right and the down key against the
right border. -/
def ship_after_keys (inp : frame_input) (p l r : sprite) : sprite :=
  let p := if inp.key_left then ship_after_key p l (-ship_speed) 0 else p
  let p := if inp.key_right then ship_after_key p r ship_speed 0 else p
  let p := if inp.key_up then ship_after_key p l 0 ship_speed else p
  if inp.key_down then ship_after_key p r 0 (-ship_speed) else p

/-- Ten frames from the start of the game with the key `down` held. -/
def sink_inputs : List frame_input := List.replicate 10 go_down

/-- The game after `sink_inputs`: the ship has passed through the bottom border. -/
def sunk_state : invaderers_app := simulate_frames sink_inputs game_start

/-! ## The arithmetic of `float` -/

/-- Rounding of a rational to the nearest integer, a tie going to the even one. -/
def round_half_even (x : ℚ) : ℤ :=
  if x - ⌊x⌋ < 1 / 2 then ⌊x⌋
  else if 1 / 2 < x - ⌊x⌋ then ⌊x⌋ + 1
  else if ⌊x⌋ % 2 = 0 then ⌊x⌋ else ⌊x⌋ + 1

/-- The binary exponent that fixes the spacing of the binary32 values around a
magnitude `x`: `⌊log2 x⌋`, and `-126` throughout the subnormal range. -/
def binade (x : ℚ) : ℤ := max (Int.log 2 x) (-126)

/-- Rounding of a magnitude `0 ≤ x` to binary32: to the nearest multiple of
`2 ^ (binade x - 23)` (24 bits of significand), a tie going to the even multiple. A
result of `2 ^ 128` or more stands for `+infinity`, which is written `2 ^ 128`: the
results are only compared, and `2 ^ 128` is above every finite binary32 value. -/
def round32_abs (x : ℚ) : ℚ :=
  min ((2 : ℚ) ^ (binade x - 23) * round_half_even (x / (2 : ℚ) ^ (binade x - 23))) (2 ^ 128)

/-- The value that a `float` variable holds for the exact result `q` of an operation on
`float` operands: IEEE 754 binary32, rounding to nearest, ties to even, symmetric in the
sign. -/
def round32 (q : ℚ) : ℚ := if q < 0 then -round32_abs (-q) else round32_abs q

/-- `bool collides_with(const sprite &rhs) const` with the arithmetic of `float`: the
differences `dx` and `dy` and the two sums of half-extents are rounded to binary32
before they are compared; `fabsf` is exact. -/
def sprite.collides_with_f32 (self rhs : sprite) : Bool :=
  let dx := round32 (rhs.x - self.x)
  let dy := round32 (rhs.y - self.y)
  decide (|dx| < round32 (self.halfWidth + rhs.halfWidth)) &&
  decide (|dy| < round32 (self.halfHeight + rhs.halfHeight))

/-- The sprite `init(0, 0, 0, 2, 2)`: centre `(0, 0)`, half-extents 1. -/
def rounding_box : sprite := (default : sprite).init 0 0 0 2 2

/-- The sprite `init(0, 1, 0, 2^-24, 2)`: centre `(1, 0)`, half-width `2^-25`,
half-height 1. -/
def rounding_sliver : sprite := (default : sprite).init 0 1 0 (1 / 2 ^ 24) 2

/-! ## Notions and concrete states for the top border and the won round -/

/-- The state of a frame of play when `move_missiles` has returned. -/
def after_missiles (inp : frame_input) (s : invaderers_app) : invaderers_app :=
  move_missiles (fire_bombs inp (fire_missiles inp (initEnemies inp (move_ship inp s))))

/-- The last shot of a round that was never lost: the missile scenario with the wave
on the screen (`reWave` false), one invader counted, and missile 0 in flight at
`(0, 0.15)`, one advance below the invader at `(0, 0.5)`. -/
def last_shot_state : invaderers_app :=
  { missile_scenario_state.set_sprite (first_missile_sprite + 0)
      ⟨0, 0.15, 0.03125, 0.125, 1, true⟩ with
    live_invaderers := 1
    reWave := false }

/-- The last shot of a round with one life left and a bomb above the ship: as
`last_shot_state`, with `num_lives = 1` and bomb 0 in flight at `(0, -2.4)`, one advance
above the ship at `(0, -2.75)`. -/
def last_shot_last_life_state : invaderers_app :=
  { (missile_scenario_state.set_sprite (first_missile_sprite + 0)
      ⟨0, 0.15, 0.03125, 0.125, 1, true⟩).set_sprite (first_bomb_sprite + 0)
      ⟨0, -2.4, 0.03125, 0.125, 1, true⟩ with
    live_invaderers := 1
    num_lives := 1
    reWave := false }

/-! ## Basic facts about the sprite array -/

theorem getD_map_length {α : Type} (l : List (List α)) (i : Nat) :
    (l.getD i []).length = (l.map List.length).getD i 0 := by
  induction l generalizing i with
  | nil => rfl
  | cons a l ih =>
    cases i with
    | zero => rfl
    | succ i => simpa using ih i

theorem rows_getD_set_self {α : Type} (l : List (List α)) (i : Nat) (x : List α)
    (hi : i < l.length) : (l.set i x).getD i [] = x := by
  rw [List.getD_eq_getElem?_getD, List.getElem?_set_self hi]
  rfl

theorem rows_getD_set_ne {α : Type} (l : List (List α)) (i i' : Nat) (x : List α)
    (hi : i ≠ i') : (l.set i x).getD i' [] = l.getD i' [] := by
  rw [List.getD_eq_getElem?_getD, List.getElem?_set_ne hi, ← List.getD_eq_getElem?_getD]

theorem rows_get_set_self {α : Type} [Inhabited α] (l : List (List α)) (i j : Nat) (v : α)
    (hi : i < l.length) (hj : j < (l.getD i []).length) :
    ((l.set i ((l.getD i []).set j v)).getD i []).getD j default = v := by
  rw [rows_getD_set_self l i _ hi, List.getD_eq_getElem?_getD, List.getElem?_set_self hj]
  rfl

theorem rows_get_set_ne {α : Type} [Inhabited α] (l : List (List α)) (i j i' j' : Nat) (v : α)
    (h : i ≠ i' ∨ j ≠ j') :
    ((l.set i ((l.getD i []).set j v)).getD i' []).getD j' default =
      (l.getD i' []).getD j' default := by
  by_cases hi : i = i'
  · subst hi
    have hj : j ≠ j' := by
      rcases h with h | h
      · exact absurd rfl h
      · exact h
    by_cases hlt : i < l.length
    · rw [rows_getD_set_self l i _ hlt, List.getD_eq_getElem?_getD, List.getElem?_set_ne hj,
        ← List.getD_eq_getElem?_getD]
    · rw [List.set_eq_of_length_le (by omega)]
  · rw [rows_getD_set_ne l i i' _ hi]

namespace invaderers_app

theorem sprite_at_set_sprite_self (s : invaderers_app) (k : Nat) (v : sprite)
    (h : k < num_sprites) : (s.set_sprite k v).sprite_at k = v := by
  have hk : k < 110 := h
  have hlen : s.sprites.length = 7 := by
    have := congrArg List.length s.sprites_size
    simpa [row_lengths] using this
  have hrow : (s.sprites.getD (k / 16) []).length = row_lengths.getD (k / 16) 0 := by
    rw [getD_map_length, s.sprites_size]
  have hj : k % 16 < (s.sprites.getD (k / 16) []).length := by
    rw [hrow]
    have h6 : k / 16 ≤ 6 := by omega
    interval_cases hq : k / 16 <;> simp [row_lengths] <;> omega
  unfold sprite_at set_sprite
  exact rows_get_set_self _ _ _ _ (by omega) hj

theorem sprite_at_set_sprite_ne (s : invaderers_app) (k k' : Nat) (v : sprite)
    (h : k ≠ k') : (s.set_sprite k v).sprite_at k' = s.sprite_at k' := by
  unfold sprite_at set_sprite
  exact rows_get_set_ne _ _ _ _ _ _ (by omega)

theorem sprite_at_update_sprite_self (s : invaderers_app) (k : Nat) (f : sprite → sprite)
    (h : k < num_sprites) : (s.update_sprite k f).sprite_at k = f (s.sprite_at k) := by
  unfold update_sprite; exact sprite_at_set_sprite_self s k _ h

theorem sprite_at_update_sprite_ne (s : invaderers_app) (k k' : Nat) (f : sprite → sprite)
    (h : k ≠ k') : (s.update_sprite k f).sprite_at k' = s.sprite_at k' := by
  unfold update_sprite; exact sprite_at_set_sprite_ne s k k' _ h

@[simp] theorem set_sprite_missiles_disabled (s : invaderers_app) (k : Nat) (v : sprite) :
    (s.set_sprite k v).missiles_disabled = s.missiles_disabled := by
  unfold set_sprite; rfl

@[simp] theorem update_sprite_missiles_disabled (s : invaderers_app) (k : Nat) (f : sprite → sprite) :
    (s.update_sprite k f).missiles_disabled = s.missiles_disabled := by
  unfold update_sprite; exact set_sprite_missiles_disabled s k _

@[simp] theorem set_sprite_bombs_disabled (s : invaderers_app) (k : Nat) (v : sprite) :
    (s.set_sprite k v).bombs_disabled = s.bombs_disabled := by
  unfold set_sprite; rfl

@[simp] theorem update_sprite_bombs_disabled (s : invaderers_app) (k : Nat) (f : sprite → sprite) :
    (s.update_sprite k f).bombs_disabled = s.bombs_disabled := by
  unfold update_sprite; exact set_sprite_bombs_disabled s k _

@[simp] theorem set_sprite_live_invaderers (s : invaderers_app) (k : Nat) (v : sprite) :
    (s.set_sprite k v).live_invaderers = s.live_invaderers := by
  unfold set_sprite; rfl

@[simp] theorem update_sprite_live_invaderers (s : invaderers_app) (k : Nat) (f : sprite → sprite) :
    (s.update_sprite k f).live_invaderers = s.live_invaderers := by
  unfold update_sprite; exact set_sprite_live_invaderers s k _

@[simp] theorem set_sprite_num_lives (s : invaderers_app) (k : Nat) (v : sprite) :
    (s.set_sprite k v).num_lives = s.num_lives := by
  unfold set_sprite; rfl

@[simp] theorem update_sprite_num_lives (s : invaderers_app) (k : Nat) (f : sprite → sprite) :
    (s.update_sprite k f).num_lives = s.num_lives := by
  unfold update_sprite; exact set_sprite_num_lives s k _

@[simp] theorem set_sprite_game_over (s : invaderers_app) (k : Nat) (v : sprite) :
    (s.set_sprite k v).game_over = s.game_over := by
  unfold set_sprite; rfl

@[simp] theorem update_sprite_game_over (s : invaderers_app) (k : Nat) (f : sprite → sprite) :
    (s.update_sprite k f).game_over = s.game_over := by
  unfold update_sprite; exact set_sprite_game_over s k _

@[simp] theorem set_sprite_loss (s : invaderers_app) (k : Nat) (v : sprite) :
    (s.set_sprite k v).loss = s.loss := by
  unfold set_sprite; rfl

@[simp] theorem update_sprite_loss (s : invaderers_app) (k : Nat) (f : sprite → sprite) :
    (s.update_sprite k f).loss = s.loss := by
  unfold update_sprite; exact set_sprite_loss s k _

@[simp] theorem set_sprite_reWave (s : invaderers_app) (k : Nat) (v : sprite) :
    (s.set_sprite k v).reWave = s.reWave := by
  unfold set_sprite; rfl

@[simp] theorem update_sprite_reWave (s : invaderers_app) (k : Nat) (f : sprite → sprite) :
    (s.update_sprite k f).reWave = s.reWave := by
  unfold update_sprite; exact set_sprite_reWave s k _

@[simp] theorem set_sprite_score (s : invaderers_app) (k : Nat) (v : sprite) :
    (s.set_sprite k v).score = s.score := by
  unfold set_sprite; rfl

@[simp] theorem update_sprite_score (s : invaderers_app) (k : Nat) (f : sprite → sprite) :
    (s.update_sprite k f).score = s.score := by
  unfold update_sprite; exact set_sprite_score s k _

@[simp] theorem set_sprite_invader_velocity (s : invaderers_app) (k : Nat) (v : sprite) :
    (s.set_sprite k v).invader_velocity = s.invader_velocity := by
  unfold set_sprite; rfl

@[simp] theorem update_sprite_invader_velocity (s : invaderers_app) (k : Nat) (f : sprite → sprite) :
    (s.update_sprite k f).invader_velocity = s.invader_velocity := by
  unfold update_sprite; exact set_sprite_invader_velocity s k _

@[simp] theorem set_sprite_cur_source (s : invaderers_app) (k : Nat) (v : sprite) :
    (s.set_sprite k v).cur_source = s.cur_source := by
  unfold set_sprite; rfl

@[simp] theorem update_sprite_cur_source (s : invaderers_app) (k : Nat) (f : sprite → sprite) :
    (s.update_sprite k f).cur_source = s.cur_source := by
  unfold update_sprite; exact set_sprite_cur_source s k _

end invaderers_app

/-! ## Collision test -/

/-- C1: `collides_with` is symmetric: for every pair of sprites `a` and `b`, whatever
their positions and half-extents, `a.collides_with b = b.collides_with a`. -/
theorem collides_with_symm (a b : sprite) : a.collides_with b = b.collides_with a := by
  unfold sprite.collides_with
  simp only [abs_sub_comm b.x a.x, abs_sub_comm b.y a.y, add_comm a.halfWidth b.halfWidth,
    add_comm a.halfHeight b.halfHeight]

theorem collides_with_iff (a b : sprite) :
    a.collides_with b = true ↔
      |b.x - a.x| < a.halfWidth + b.halfWidth ∧ |b.y - a.y| < a.halfHeight + b.halfHeight := by
  simp [sprite.collides_with]

theorem open_interval_overlap (c d r t : ℚ) (hr : 0 < r) (ht : 0 < t) :
    |d - c| < r + t ↔ ∃ p, c - r < p ∧ p < c + r ∧ d - t < p ∧ p < d + t := by
  constructor
  · intro h
    obtain ⟨h1, h2⟩ := abs_lt.mp h
    refine ⟨(max (c - r) (d - t) + min (c + r) (d + t)) / 2, ?_, ?_, ?_, ?_⟩
    all_goals
      rcases max_cases (c - r) (d - t) with ⟨e1, _⟩ | ⟨e1, _⟩ <;>
      rcases min_cases (c + r) (d + t) with ⟨e2, _⟩ | ⟨e2, _⟩ <;>
      rw [e1, e2] <;> linarith
  · rintro ⟨p, h1, h2, h3, h4⟩
    exact abs_lt.mpr ⟨by linarith, by linarith⟩

/-- The test over exact rationals, without the rounding of `float`. For two sprites
with positive half-extents `collides_with` is true exactly when
`|dx| < halfWidth(self) + halfWidth(other)` and `|dy| < halfHeight(self) + halfHeight(other)`,
which holds exactly when the two open rectangles (centre plus or minus half-extents)
share a point; rectangles that only touch along an edge do not collide. -/
theorem collides_with_open_overlap (a b : sprite)
    (haw : 0 < a.halfWidth) (hah : 0 < a.halfHeight)
    (hbw : 0 < b.halfWidth) (hbh : 0 < b.halfHeight) :
    (a.collides_with b = true ↔
      |b.x - a.x| < a.halfWidth + b.halfWidth ∧ |b.y - a.y| < a.halfHeight + b.halfHeight) ∧
    (a.collides_with b = true ↔ ∃ px py, a.in_open_rect px py ∧ b.in_open_rect px py) ∧
    (|b.x - a.x| = a.halfWidth + b.halfWidth → a.collides_with b = false) ∧
    (|b.y - a.y| = a.halfHeight + b.halfHeight → a.collides_with b = false) := by
  refine ⟨collides_with_iff a b, ?_, ?_, ?_⟩
  · rw [collides_with_iff, open_interval_overlap a.x b.x _ _ haw hbw,
      open_interval_overlap a.y b.y _ _ hah hbh]
    constructor
    · rintro ⟨⟨px, h1, h2, h3, h4⟩, ⟨py, h5, h6, h7, h8⟩⟩
      exact ⟨px, py, ⟨h1, h2, h5, h6⟩, ⟨h3, h4, h7, h8⟩⟩
    · rintro ⟨px, py, ⟨h1, h2, h5, h6⟩, ⟨h3, h4, h7, h8⟩⟩
      exact ⟨⟨px, h1, h2, h3, h4⟩, ⟨py, h5, h6, h7, h8⟩⟩
  · intro h
    have : ¬ a.collides_with b = true := by
      rw [collides_with_iff]; rintro ⟨h1, _⟩; exact absurd h (ne_of_lt h1)
    simpa using this
  · intro h
    have : ¬ a.collides_with b = true := by
      rw [collides_with_iff]; rintro ⟨_, h1⟩; exact absurd h (ne_of_lt h1)
    simpa using this

/-! ## The search loop -/

theorem first_index_eq_none (p : Nat → Bool) (lo n : Nat) :
    first_index p lo n = none ↔ ∀ k, lo ≤ k → k < lo + n → p k = false := by
  induction n generalizing lo with
  | zero => simp [first_index]; intro k h1 h2; omega
  | succ n ih =>
    unfold first_index
    by_cases hp : p lo = true
    · rw [if_pos hp]
      constructor
      · intro h; cases h
      · intro h; have := h lo (le_refl _) (by omega); simp [hp] at this
    · rw [if_neg hp, ih]
      constructor
      · intro h k h1 h2
        rcases Nat.eq_or_lt_of_le h1 with e | e
        · subst e; simpa using hp
        · exact h k e (by omega)
      · intro h k h1 h2
        exact h k (by omega) (by omega)

theorem first_index_eq_some (p : Nat → Bool) (lo n j : Nat) :
    first_index p lo n = some j ↔
      lo ≤ j ∧ j < lo + n ∧ p j = true ∧ ∀ k, lo ≤ k → k < j → p k = false := by
  induction n generalizing lo with
  | zero => simp [first_index]; intro h1 h2; omega
  | succ n ih =>
    unfold first_index
    by_cases hp : p lo = true
    · rw [if_pos hp, Option.some.injEq]
      constructor
      · intro h; subst h
        exact ⟨le_refl _, by omega, hp, fun k h1 h2 => by omega⟩
      · rintro ⟨h1, _, _, h4⟩
        rcases Nat.eq_or_lt_of_le h1 with e | e
        · exact e
        · have := h4 lo (le_refl _) e; simp [hp] at this
    · rw [if_neg hp, ih]
      constructor
      · rintro ⟨h1, h2, h3, h4⟩
        refine ⟨by omega, by omega, h3, fun k hk1 hk2 => ?_⟩
        rcases Nat.eq_or_lt_of_le hk1 with e | e
        · subst e; simpa using hp
        · exact h4 k e hk2
      · rintro ⟨h1, h2, h3, h4⟩
        have hne : lo ≠ j := by rintro rfl; exact hp h3
        exact ⟨by omega, by omega, h3, fun k hk1 hk2 => h4 k (by omega) hk2⟩

theorem first_index_congr (p q : Nat → Bool) (lo n : Nat)
    (h : ∀ k, lo ≤ k → k < lo + n → p k = q k) : first_index p lo n = first_index q lo n := by
  induction n generalizing lo with
  | zero => rfl
  | succ n ih =>
    unfold first_index
    rw [h lo (le_refl _) (by omega), ih (lo + 1) (fun k h1 h2 => h k (by omega) (by omega))]

/-! ## Effects of the hit handlers -/

theorem on_hit_invaderer_sprite_at (s : invaderers_app) (k : Nat)
    (h3 : k ≠ success_sprite) (h4 : k ≠ nextWave_sprite) :
    (on_hit_invaderer s).sprite_at k = s.sprite_at k := by
  unfold on_hit_invaderer
  simp only [get_sound_source]
  split
  · rw [invaderers_app.sprite_at_update_sprite_ne _ _ _ _ (Ne.symm h4),
      invaderers_app.sprite_at_update_sprite_ne _ _ _ _ (Ne.symm h3)]
    rfl
  · rfl

theorem on_hit_invaderer_score (s : invaderers_app) :
    (on_hit_invaderer s).score = s.score + 1 := by
  unfold on_hit_invaderer
  simp only [get_sound_source]
  split
  · simp only [invaderers_app.update_sprite_score]
  · rfl

theorem on_hit_invaderer_live_invaderers (s : invaderers_app) :
    (on_hit_invaderer s).live_invaderers = s.live_invaderers - 1 := by
  unfold on_hit_invaderer
  simp only [get_sound_source]
  split
  · simp only [invaderers_app.update_sprite_live_invaderers]
  · rfl

theorem on_hit_invaderer_loss (s : invaderers_app) :
    (on_hit_invaderer s).loss = s.loss := by
  unfold on_hit_invaderer
  simp only [get_sound_source]
  split
  · simp only [invaderers_app.update_sprite_loss]
  · rfl

theorem on_hit_invaderer_num_lives (s : invaderers_app) :
    (on_hit_invaderer s).num_lives = s.num_lives := by
  unfold on_hit_invaderer
  simp only [get_sound_source]
  split
  · simp only [invaderers_app.update_sprite_num_lives]
  · rfl

theorem on_hit_invaderer_game_over (s : invaderers_app) :
    (on_hit_invaderer s).game_over =
      if s.live_invaderers - 1 = 0 then true else s.game_over := by
  by_cases h : s.live_invaderers - 1 = 0
  · rw [if_pos h]
    unfold on_hit_invaderer
    simp only [get_sound_source]
    rw [if_pos h, invaderers_app.update_sprite_game_over,
      invaderers_app.update_sprite_game_over]
  · rw [if_neg h]
    unfold on_hit_invaderer
    simp only [get_sound_source]
    rw [if_neg h]

theorem missile_index_lt (i : Nat) (hi : i < num_missiles) :
    first_missile_sprite + i < num_sprites := by
  simp only [num_missiles] at hi
  show 97 + i < 110
  omega

theorem missile_index_ne_invaderer (i j : Nat) (hj : j < num_invaderers) :
    first_missile_sprite + i ≠ first_invaderer_sprite + j := by
  have : j < 91 := hj
  show 97 + i ≠ 6 + j
  omega

theorem invaderer_index_lt (j : Nat) (hj : j < num_invaderers) :
    first_invaderer_sprite + j < num_sprites := by
  have : j < 91 := hj
  show 6 + j < 110
  omega

/-- The inner loop of `move_missiles` tests the invaders of the state in which the
missile has advanced; they are the invaders of the state before the advance. -/
theorem move_missiles_scan (s : invaderers_app) (i : Nat) (hi : i < num_missiles) :
    first_index
        (fun j =>
          ((s.update_sprite (first_missile_sprite + i)
              (fun t => t.translate 0 missile_speed)).sprite_at
            (first_invaderer_sprite + j)).enabled &&
          ((s.update_sprite (first_missile_sprite + i)
              (fun t => t.translate 0 missile_speed)).sprite_at
            (first_missile_sprite + i)).collides_with
            ((s.update_sprite (first_missile_sprite + i)
              (fun t => t.translate 0 missile_speed)).sprite_at
              (first_invaderer_sprite + j)))
        0 num_invaderers =
      first_index (invaderer_hit s (advanced_missile s i)) 0 num_invaderers := by
  apply first_index_congr
  intro k _ hk
  have hk' : k < num_invaderers := by omega
  simp only [invaderer_hit, advanced_missile]
  rw [invaderers_app.sprite_at_update_sprite_ne _ _ _ _ (missile_index_ne_invaderer i k hk'),
    invaderers_app.sprite_at_update_sprite_self _ _ _ (missile_index_lt i hi)]

theorem move_missiles_body_disabled (s : invaderers_app) (i : Nat)
    (he : (s.sprite_at (first_missile_sprite + i)).enabled = false) :
    move_missiles_body s i = s := by
  unfold move_missiles_body
  simp [he]

theorem move_missiles_body_hit (s : invaderers_app) (i j : Nat) (hi : i < num_missiles)
    (he : (s.sprite_at (first_missile_sprite + i)).enabled = true)
    (hj : first_index (invaderer_hit s (advanced_missile s i)) 0 num_invaderers = some j) :
    move_missiles_body s i =
      on_hit_invaderer
        (((((s.update_sprite (first_missile_sprite + i) (fun t => t.translate 0 missile_speed)
          ).update_sprite (first_invaderer_sprite + j) (fun t => t.set_enabled false)
          ).update_sprite (first_invaderer_sprite + j) (fun t => t.translate 20 0)
          ).update_sprite (first_missile_sprite + i) (fun t => t.set_enabled false)
          ).update_sprite (first_missile_sprite + i) (fun t => t.translate 20 0)) := by
  unfold move_missiles_body
  rw [if_pos he]
  simp only []
  rw [move_missiles_scan s i hi, hj]

theorem move_missiles_body_miss (s : invaderers_app) (i : Nat) (hi : i < num_missiles)
    (he : (s.sprite_at (first_missile_sprite + i)).enabled = true)
    (hj : first_index (invaderer_hit s (advanced_missile s i)) 0 num_invaderers = none) :
    move_missiles_body s i =
      if (advanced_missile s i).collides_with (s.sprite_at (first_border_sprite + 1)) then
        ((s.update_sprite (first_missile_sprite + i) (fun t => t.translate 0 missile_speed)
          ).update_sprite (first_missile_sprite + i) (fun t => t.set_enabled false)
          ).update_sprite (first_missile_sprite + i) (fun t => t.translate 20 0)
      else s.update_sprite (first_missile_sprite + i) (fun t => t.translate 0 missile_speed) := by
  unfold move_missiles_body
  rw [if_pos he]
  simp only []
  rw [move_missiles_scan s i hi, hj]
  simp only []
  rw [invaderers_app.sprite_at_update_sprite_self _ _ _ (missile_index_lt i hi),
    invaderers_app.sprite_at_update_sprite_ne _ _ _ _ (by
      show 97 + i ≠ 107
      have : i < 2 := hi
      omega)]
  rfl

theorem invaderer_index_ne_messages (j : Nat) :
    first_invaderer_sprite + j ≠ success_sprite ∧ first_invaderer_sprite + j ≠ nextWave_sprite := by
  constructor
  · show 6 + j ≠ 3
    omega
  · show 6 + j ≠ 4
    omega

theorem missile_index_ne_messages (i : Nat) :
    first_missile_sprite + i ≠ success_sprite ∧ first_missile_sprite + i ≠ nextWave_sprite := by
  constructor
  · show 97 + i ≠ 3
    omega
  · show 97 + i ≠ 4
    omega

/-- After a hit of missile `i` on invader `j`: the invader slots. -/
theorem move_missiles_body_hit_invaderer (s : invaderers_app) (i j k : Nat)
    (hi : i < num_missiles) (hk : k < num_invaderers)
    (he : (s.sprite_at (first_missile_sprite + i)).enabled = true)
    (hj : first_index (invaderer_hit s (advanced_missile s i)) 0 num_invaderers = some j) :
    (move_missiles_body s i).sprite_at (first_invaderer_sprite + k) =
      if k = j then
        ((s.sprite_at (first_invaderer_sprite + j)).set_enabled false).translate 20 0
      else s.sprite_at (first_invaderer_sprite + k) := by
  have hj' : j < num_invaderers := by
    have := (first_index_eq_some _ _ _ _).mp hj
    omega
  rw [move_missiles_body_hit s i j hi he hj,
    on_hit_invaderer_sprite_at _ _ (invaderer_index_ne_messages k).1
      (invaderer_index_ne_messages k).2,
    invaderers_app.sprite_at_update_sprite_ne _ _ _ _ (missile_index_ne_invaderer i k hk),
    invaderers_app.sprite_at_update_sprite_ne _ _ _ _ (missile_index_ne_invaderer i k hk)]
  by_cases hkj : k = j
  · subst hkj
    rw [if_pos rfl, invaderers_app.sprite_at_update_sprite_self _ _ _ (invaderer_index_lt k hk),
      invaderers_app.sprite_at_update_sprite_self _ _ _ (invaderer_index_lt k hk),
      invaderers_app.sprite_at_update_sprite_ne _ _ _ _ (missile_index_ne_invaderer i k hk)]
  · have hne : first_invaderer_sprite + j ≠ first_invaderer_sprite + k := by omega
    rw [if_neg hkj, invaderers_app.sprite_at_update_sprite_ne _ _ _ _ hne,
      invaderers_app.sprite_at_update_sprite_ne _ _ _ _ hne,
      invaderers_app.sprite_at_update_sprite_ne _ _ _ _ (missile_index_ne_invaderer i k hk)]

/-- After a hit of missile `i`: the missile slots. -/
theorem move_missiles_body_hit_missile (s : invaderers_app) (i j i' : Nat)
    (hi : i < num_missiles)
    (he : (s.sprite_at (first_missile_sprite + i)).enabled = true)
    (hj : first_index (invaderer_hit s (advanced_missile s i)) 0 num_invaderers = some j) :
    (move_missiles_body s i).sprite_at (first_missile_sprite + i') =
      if i' = i then ((advanced_missile s i).set_enabled false).translate 20 0
      else s.sprite_at (first_missile_sprite + i') := by
  have hj' : j < num_invaderers := by
    have := (first_index_eq_some _ _ _ _).mp hj
    omega
  rw [move_missiles_body_hit s i j hi he hj,
    on_hit_invaderer_sprite_at _ _ (missile_index_ne_messages i').1
      (missile_index_ne_messages i').2]
  by_cases h : i' = i
  · subst h
    have hne : first_invaderer_sprite + j ≠ first_missile_sprite + i' :=
      Ne.symm (missile_index_ne_invaderer i' j hj')
    rw [if_pos rfl, invaderers_app.sprite_at_update_sprite_self _ _ _ (missile_index_lt i' hi),
      invaderers_app.sprite_at_update_sprite_self _ _ _ (missile_index_lt i' hi),
      invaderers_app.sprite_at_update_sprite_ne _ _ _ _ hne,
      invaderers_app.sprite_at_update_sprite_ne _ _ _ _ hne,
      invaderers_app.sprite_at_update_sprite_self _ _ _ (missile_index_lt i' hi)]
    rfl
  · have hne : first_missile_sprite + i ≠ first_missile_sprite + i' := by omega
    have hne' : first_invaderer_sprite + j ≠ first_missile_sprite + i' :=
      Ne.symm (missile_index_ne_invaderer i' j hj')
    rw [if_neg h, invaderers_app.sprite_at_update_sprite_ne _ _ _ _ hne,
      invaderers_app.sprite_at_update_sprite_ne _ _ _ _ hne,
      invaderers_app.sprite_at_update_sprite_ne _ _ _ _ hne',
      invaderers_app.sprite_at_update_sprite_ne _ _ _ _ hne',
      invaderers_app.sprite_at_update_sprite_ne _ _ _ _ hne]

/-- Without a hit: every sprite but missile `i` is unchanged. -/
theorem move_missiles_body_miss_sprite_at (s : invaderers_app) (i k : Nat)
    (hi : i < num_missiles) (hk : k ≠ first_missile_sprite + i)
    (he : (s.sprite_at (first_missile_sprite + i)).enabled = true)
    (hj : first_index (invaderer_hit s (advanced_missile s i)) 0 num_invaderers = none) :
    (move_missiles_body s i).sprite_at k = s.sprite_at k := by
  rw [move_missiles_body_miss s i hi he hj]
  split
  · rw [invaderers_app.sprite_at_update_sprite_ne _ _ _ _ (Ne.symm hk),
      invaderers_app.sprite_at_update_sprite_ne _ _ _ _ (Ne.symm hk),
      invaderers_app.sprite_at_update_sprite_ne _ _ _ _ (Ne.symm hk)]
  · rw [invaderers_app.sprite_at_update_sprite_ne _ _ _ _ (Ne.symm hk)]

/-- Without a hit: missile `i` is disabled exactly when it collides with the top border. -/
theorem move_missiles_body_miss_missile (s : invaderers_app) (i : Nat)
    (hi : i < num_missiles)
    (he : (s.sprite_at (first_missile_sprite + i)).enabled = true)
    (hj : first_index (invaderer_hit s (advanced_missile s i)) 0 num_invaderers = none) :
    (move_missiles_body s i).sprite_at (first_missile_sprite + i) =
      if (advanced_missile s i).collides_with (s.sprite_at (first_border_sprite + 1)) then
        ((advanced_missile s i).set_enabled false).translate 20 0
      else advanced_missile s i := by
  rw [move_missiles_body_miss s i hi he hj]
  split
  · rw [invaderers_app.sprite_at_update_sprite_self _ _ _ (missile_index_lt i hi),
      invaderers_app.sprite_at_update_sprite_self _ _ _ (missile_index_lt i hi),
      invaderers_app.sprite_at_update_sprite_self _ _ _ (missile_index_lt i hi)]
    rfl
  · rw [invaderers_app.sprite_at_update_sprite_self _ _ _ (missile_index_lt i hi)]
    rfl

/-- Without a hit the counters and flags are unchanged. -/
theorem move_missiles_body_miss_counters (s : invaderers_app) (i : Nat)
    (hi : i < num_missiles)
    (he : (s.sprite_at (first_missile_sprite + i)).enabled = true)
    (hj : first_index (invaderer_hit s (advanced_missile s i)) 0 num_invaderers = none) :
    (move_missiles_body s i).score = s.score ∧
    (move_missiles_body s i).live_invaderers = s.live_invaderers ∧
    (move_missiles_body s i).game_over = s.game_over ∧
    (move_missiles_body s i).loss = s.loss ∧
    (move_missiles_body s i).num_lives = s.num_lives := by
  have h := move_missiles_body_miss s i hi he hj
  refine ⟨?_, ?_, ?_, ?_, ?_⟩ <;> rw [h] <;> split <;>
    simp only [invaderers_app.update_sprite_score, invaderers_app.update_sprite_live_invaderers,
      invaderers_app.update_sprite_game_over, invaderers_app.update_sprite_loss,
      invaderers_app.update_sprite_num_lives]

/-- With a hit the score goes up by one and the count of live invaders down by one. -/
theorem move_missiles_body_hit_counters (s : invaderers_app) (i j : Nat)
    (hi : i < num_missiles)
    (he : (s.sprite_at (first_missile_sprite + i)).enabled = true)
    (hj : first_index (invaderer_hit s (advanced_missile s i)) 0 num_invaderers = some j) :
    (move_missiles_body s i).score = s.score + 1 ∧
    (move_missiles_body s i).live_invaderers = s.live_invaderers - 1 ∧
    (move_missiles_body s i).game_over =
      (if s.live_invaderers - 1 = 0 then true else s.game_over) ∧
    (move_missiles_body s i).loss = s.loss ∧
    (move_missiles_body s i).num_lives = s.num_lives := by
  have h := move_missiles_body_hit s i j hi he hj
  refine ⟨?_, ?_, ?_, ?_, ?_⟩ <;> rw [h]
  · rw [on_hit_invaderer_score]; simp only [invaderers_app.update_sprite_score]
  · rw [on_hit_invaderer_live_invaderers]
    simp only [invaderers_app.update_sprite_live_invaderers]
  · rw [on_hit_invaderer_game_over]
    simp only [invaderers_app.update_sprite_game_over,
      invaderers_app.update_sprite_live_invaderers]
  · rw [on_hit_invaderer_loss]; simp only [invaderers_app.update_sprite_loss]
  · rw [on_hit_invaderer_num_lives]; simp only [invaderers_app.update_sprite_num_lives]

theorem move_missiles_eq (s : invaderers_app) :
    move_missiles s = move_missiles_body (move_missiles_body s 0) 1 := rfl

theorem countP_range_eq_zero (p : Nat → Bool) (n : Nat) (h : ∀ k, k < n → p k = false) :
    (List.range n).countP p = 0 := by
  rw [List.countP_eq_zero]
  intro a ha
  simp [h a (List.mem_range.mp ha)]

theorem countP_range_eq_one (p : Nat → Bool) (n j : Nat) (hj : j < n)
    (h : ∀ k, k < n → (p k = true ↔ k = j)) : (List.range n).countP p = 1 := by
  have hc : (List.range n).countP p = (List.range n).countP (fun k => k == j) := by
    apply List.countP_congr
    intro a ha
    simp [h a (List.mem_range.mp ha)]
  rw [hc]
  exact List.count_eq_one_of_mem (List.nodup_range n) (List.mem_range.mpr hj)

theorem countP_range_add (p q r : Nat → Bool) (n : Nat)
    (h : ∀ k, k < n → r k = (p k || q k) ∧ (p k && q k) = false) :
    (List.range n).countP r = (List.range n).countP p + (List.range n).countP q := by
  induction n with
  | zero => rfl
  | succ n ih =>
    rw [List.range_succ, List.countP_append, List.countP_append, List.countP_append,
      ih (fun k hk => h k (by omega))]
    obtain ⟨h1, h2⟩ := h n (by omega)
    rw [List.countP_singleton, List.countP_singleton, List.countP_singleton, h1]
    revert h2
    cases p n <;> cases q n <;> intro h2
    · rfl
    · simp only [Bool.false_or, if_true, Bool.false_eq_true, if_false]; omega
    · simp only [Bool.true_or, if_true, Bool.false_eq_true, if_false]; omega
    · simp at h2

/-- One iteration of `move_missiles`: the score gained and the live invaders lost both
equal the number of invaders the iteration disables, which is at most one, and no
invader becomes enabled. -/
theorem move_missiles_body_accounting (s : invaderers_app) (i : Nat) (hi : i < num_missiles) :
    (move_missiles_body s i).score = s.score + newly_disabled s (move_missiles_body s i) ∧
    (move_missiles_body s i).live_invaderers =
      s.live_invaderers - newly_disabled s (move_missiles_body s i) ∧
    newly_disabled s (move_missiles_body s i) ≤ 1 ∧
    ∀ k, k < num_invaderers →
      ((move_missiles_body s i).sprite_at (first_invaderer_sprite + k)).enabled = true →
      (s.sprite_at (first_invaderer_sprite + k)).enabled = true := by
  cases he : (s.sprite_at (first_missile_sprite + i)).enabled with
  | false =>
    rw [move_missiles_body_disabled s i he]
    have h0 : newly_disabled s s = 0 := by
      apply countP_range_eq_zero
      intro k _
      cases (s.sprite_at (first_invaderer_sprite + k)).enabled <;> rfl
    rw [h0]
    simp
  | true =>
    cases hj : first_index (invaderer_hit s (advanced_missile s i)) 0 num_invaderers with
    | none =>
      have hinv : ∀ k, k < num_invaderers →
          (move_missiles_body s i).sprite_at (first_invaderer_sprite + k) =
            s.sprite_at (first_invaderer_sprite + k) := fun k hk =>
        move_missiles_body_miss_sprite_at s i _ hi
          (Ne.symm (missile_index_ne_invaderer i k hk)) he hj
      have h0 : newly_disabled s (move_missiles_body s i) = 0 := by
        apply countP_range_eq_zero
        intro k hk
        rw [hinv k hk]
        cases (s.sprite_at (first_invaderer_sprite + k)).enabled <;> rfl
      obtain ⟨h1, h2, _⟩ := move_missiles_body_miss_counters s i hi he hj
      rw [h0, h1, h2]
      refine ⟨by simp, by simp, by simp, fun k hk h => ?_⟩
      rw [hinv k hk] at h
      exact h
    | some j =>
      obtain ⟨_, hjn, hjhit, _⟩ := (first_index_eq_some _ _ _ _).mp hj
      have hjn' : j < num_invaderers := by omega
      have hjen : (s.sprite_at (first_invaderer_sprite + j)).enabled = true := by
        simp only [invaderer_hit, Bool.and_eq_true] at hjhit
        exact hjhit.1
      have hinv := fun k hk => move_missiles_body_hit_invaderer s i j k hi hk he hj
      have h1 : newly_disabled s (move_missiles_body s i) = 1 := by
        apply countP_range_eq_one _ _ j hjn'
        intro k hk
        rw [hinv k hk]
        by_cases hkj : k = j
        · subst hkj
          simp [hjen, sprite.translate, sprite.set_enabled]
        · simp [hkj]
      obtain ⟨h2, h3, _⟩ := move_missiles_body_hit_counters s i j hi he hj
      rw [h1, h2, h3]
      refine ⟨by simp, by simp, le_refl _, fun k hk h => ?_⟩
      rw [hinv k hk] at h
      by_cases hkj : k = j
      · subst hkj; exact hjen
      · rw [if_neg hkj] at h; exact h

theorem newly_disabled_trans (s s1 s2 : invaderers_app)
    (h1 : ∀ k, k < num_invaderers →
      (s1.sprite_at (first_invaderer_sprite + k)).enabled = true →
      (s.sprite_at (first_invaderer_sprite + k)).enabled = true)
    (h2 : ∀ k, k < num_invaderers →
      (s2.sprite_at (first_invaderer_sprite + k)).enabled = true →
      (s1.sprite_at (first_invaderer_sprite + k)).enabled = true) :
    newly_disabled s s2 = newly_disabled s s1 + newly_disabled s1 s2 := by
  apply countP_range_add
  intro k hk
  have a := h1 k hk
  have b := h2 k hk
  revert a b
  cases (s.sprite_at (first_invaderer_sprite + k)).enabled <;>
    cases (s1.sprite_at (first_invaderer_sprite + k)).enabled <;>
    cases (s2.sprite_at (first_invaderer_sprite + k)).enabled <;> simp

/-! ## Missiles: what an iteration leaves alone -/

/-- An iteration of `move_missiles` changes no sprite other than its missile, the
invaders and the two messages of a won round. -/
theorem move_missiles_body_sprite_at_other (s : invaderers_app) (i k : Nat)
    (hi : i < num_missiles) (hk : k ≠ first_missile_sprite + i)
    (hinv : ∀ j, j < num_invaderers → k ≠ first_invaderer_sprite + j)
    (h3 : k ≠ success_sprite) (h4 : k ≠ nextWave_sprite) :
    (move_missiles_body s i).sprite_at k = s.sprite_at k := by
  cases he : (s.sprite_at (first_missile_sprite + i)).enabled with
  | false => rw [move_missiles_body_disabled s i he]
  | true =>
    cases hj : first_index (invaderer_hit s (advanced_missile s i)) 0 num_invaderers with
    | none => exact move_missiles_body_miss_sprite_at s i k hi hk he hj
    | some j =>
      obtain ⟨_, hjn, _, _⟩ := (first_index_eq_some _ _ _ _).mp hj
      have hjn' : j < num_invaderers := by omega
      rw [move_missiles_body_hit s i j hi he hj, on_hit_invaderer_sprite_at _ _ h3 h4,
        invaderers_app.sprite_at_update_sprite_ne _ _ _ _ (Ne.symm hk),
        invaderers_app.sprite_at_update_sprite_ne _ _ _ _ (Ne.symm hk),
        invaderers_app.sprite_at_update_sprite_ne _ _ _ _ (Ne.symm (hinv j hjn')),
        invaderers_app.sprite_at_update_sprite_ne _ _ _ _ (Ne.symm (hinv j hjn')),
        invaderers_app.sprite_at_update_sprite_ne _ _ _ _ (Ne.symm hk)]

/-- An iteration of `move_missiles` leaves the other missile alone. -/
theorem move_missiles_body_other_missile (s : invaderers_app) (i i' : Nat)
    (hi : i < num_missiles) (hne : i' ≠ i) :
    (move_missiles_body s i).sprite_at (first_missile_sprite + i') =
      s.sprite_at (first_missile_sprite + i') := by
  apply move_missiles_body_sprite_at_other s i _ hi
  · omega
  · intro j hj
    exact missile_index_ne_invaderer i' j hj
  · exact (missile_index_ne_messages i').1
  · exact (missile_index_ne_messages i').2

/-- An invader that is enabled after an iteration of `move_missiles` was not touched. -/
theorem move_missiles_body_invaderer_enabled (s : invaderers_app) (i k : Nat)
    (hi : i < num_missiles) (hk : k < num_invaderers)
    (h : ((move_missiles_body s i).sprite_at (first_invaderer_sprite + k)).enabled = true) :
    (move_missiles_body s i).sprite_at (first_invaderer_sprite + k) =
      s.sprite_at (first_invaderer_sprite + k) := by
  cases he : (s.sprite_at (first_missile_sprite + i)).enabled with
  | false => rw [move_missiles_body_disabled s i he]
  | true =>
    cases hj : first_index (invaderer_hit s (advanced_missile s i)) 0 num_invaderers with
    | none =>
      exact move_missiles_body_miss_sprite_at s i _ hi
        (Ne.symm (missile_index_ne_invaderer i k hk)) he hj
    | some j =>
      rw [move_missiles_body_hit_invaderer s i j k hi hk he hj] at h ⊢
      by_cases hkj : k = j
      · rw [if_pos hkj] at h
        simp [sprite.translate, sprite.set_enabled] at h
      · rw [if_neg hkj]

/-- The invaders that a sprite `m` hits in the state after an iteration of
`move_missiles` are among those it hits in the state before. -/
theorem invaderer_hit_after_body (s : invaderers_app) (i j : Nat) (m : sprite)
    (hi : i < num_missiles) (hj : j < num_invaderers)
    (h : invaderer_hit (move_missiles_body s i) m j = true) : invaderer_hit s m j = true := by
  unfold invaderer_hit at h ⊢
  rw [Bool.and_eq_true] at h
  rw [move_missiles_body_invaderer_enabled s i j hi hj h.1] at h
  rw [Bool.and_eq_true]
  exact h

/-- C5: first match wins in `move_missiles`. The call processes missile 0 and then
missile 1, and neither iteration touches the other missile. For the state `t` in which
missile `i` is processed: a disabled missile leaves the state unchanged (it is not
moved and disables nothing); an enabled missile that, after advancing, overlaps enabled
invaders disables exactly the one of lowest index `j`, moves it off-screen, is itself
disabled and leaves every other invader as it was; an enabled missile that overlaps no
enabled invader changes no invader. Hence one call disables at most
`num_missiles = 2` invaders. -/
theorem move_missiles_first_match (s : invaderers_app) (i : Nat) (hi : i < num_missiles) :
    move_missiles s = move_missiles_body (move_missiles_body s 0) 1 ∧
    (move_missiles_body s 0).sprite_at (first_missile_sprite + 1) =
      s.sprite_at (first_missile_sprite + 1) ∧
    (move_missiles s).sprite_at (first_missile_sprite + 0) =
      (move_missiles_body s 0).sprite_at (first_missile_sprite + 0) ∧
    (∀ t : invaderers_app, (t.sprite_at (first_missile_sprite + i)).enabled = false →
      move_missiles_body t i = t) ∧
    (∀ (t : invaderers_app) (j : Nat),
      (t.sprite_at (first_missile_sprite + i)).enabled = true →
      j < num_invaderers →
      invaderer_hit t (advanced_missile t i) j = true →
      (∀ k, k < j → invaderer_hit t (advanced_missile t i) k = false) →
      (move_missiles_body t i).sprite_at (first_invaderer_sprite + j) =
        ((t.sprite_at (first_invaderer_sprite + j)).set_enabled false).translate 20 0 ∧
      ((move_missiles_body t i).sprite_at (first_invaderer_sprite + j)).enabled = false ∧
      (move_missiles_body t i).sprite_at (first_missile_sprite + i) =
        ((advanced_missile t i).set_enabled false).translate 20 0 ∧
      ((move_missiles_body t i).sprite_at (first_missile_sprite + i)).enabled = false ∧
      ∀ k, k < num_invaderers → k ≠ j →
        (move_missiles_body t i).sprite_at (first_invaderer_sprite + k) =
          t.sprite_at (first_invaderer_sprite + k)) ∧
    (∀ t : invaderers_app,
      (t.sprite_at (first_missile_sprite + i)).enabled = true →
      (∀ k, k < num_invaderers → invaderer_hit t (advanced_missile t i) k = false) →
      ∀ k, k < num_invaderers →
        (move_missiles_body t i).sprite_at (first_invaderer_sprite + k) =
          t.sprite_at (first_invaderer_sprite + k)) ∧
    newly_disabled s (move_missiles s) ≤ num_missiles := by
  refine ⟨move_missiles_eq s, move_missiles_body_other_missile s 0 1 (by decide) (by decide),
    ?_, fun t ht => move_missiles_body_disabled t i ht, ?_, ?_, ?_⟩
  · rw [move_missiles_eq]
    exact move_missiles_body_other_missile _ 1 0 (by decide) (by decide)
  · intro t j te hj hhit hlow
    have hfi : first_index (invaderer_hit t (advanced_missile t i)) 0 num_invaderers = some j :=
      (first_index_eq_some _ _ _ _).mpr ⟨Nat.zero_le _, by omega, hhit, fun k _ hk => hlow k hk⟩
    have e1 := move_missiles_body_hit_invaderer t i j j hi hj te hfi
    rw [if_pos rfl] at e1
    have e2 := move_missiles_body_hit_missile t i j i hi te hfi
    rw [if_pos rfl] at e2
    refine ⟨e1, ?_, e2, ?_, fun k hk hkj => ?_⟩
    · rw [e1]; rfl
    · rw [e2]; rfl
    · have e3 := move_missiles_body_hit_invaderer t i j k hi hk te hfi
      rw [if_neg hkj] at e3
      exact e3
  · intro t te hno k hk
    have hfi : first_index (invaderer_hit t (advanced_missile t i)) 0 num_invaderers = none :=
      (first_index_eq_none _ _ _).mpr (fun k _ hk => hno k (by omega))
    exact move_missiles_body_miss_sprite_at t i _ hi
      (Ne.symm (missile_index_ne_invaderer i k hk)) te hfi
  · obtain ⟨_, _, a3, a4⟩ := move_missiles_body_accounting s 0 (by decide)
    obtain ⟨_, _, b3, b4⟩ :=
      move_missiles_body_accounting (move_missiles_body s 0) 1 (by decide)
    have ht := newly_disabled_trans s _ _ a4 b4
    rw [move_missiles_eq, ht]
    show _ ≤ 2
    omega

/-- When no enabled missile overlaps an enabled invader after advancing, a call of
`move_missiles` leaves `score` and `live_invaderers` unchanged. -/
theorem move_missiles_no_collision (s : invaderers_app)
    (h : ∀ i, i < num_missiles → (s.sprite_at (first_missile_sprite + i)).enabled = true →
      ∀ j, j < num_invaderers → invaderer_hit s (advanced_missile s i) j = false) :
    (move_missiles s).score = s.score ∧
    (move_missiles s).live_invaderers = s.live_invaderers := by
  have key : ∀ (t : invaderers_app) (i : Nat), i < num_missiles →
      ((t.sprite_at (first_missile_sprite + i)).enabled = true →
        ∀ j, j < num_invaderers → invaderer_hit t (advanced_missile t i) j = false) →
      (move_missiles_body t i).score = t.score ∧
      (move_missiles_body t i).live_invaderers = t.live_invaderers := by
    intro t i hi ht
    cases he : (t.sprite_at (first_missile_sprite + i)).enabled with
    | false => rw [move_missiles_body_disabled t i he]; exact ⟨rfl, rfl⟩
    | true =>
      have hfi : first_index (invaderer_hit t (advanced_missile t i)) 0 num_invaderers = none :=
        (first_index_eq_none _ _ _).mpr (fun k _ hk => ht he k (by omega))
      obtain ⟨h1, h2, _⟩ := move_missiles_body_miss_counters t i hi he hfi
      exact ⟨h1, h2⟩
  obtain ⟨a1, a2⟩ := key s 0 (by decide) (h 0 (by decide))
  have hm : (move_missiles_body s 0).sprite_at (first_missile_sprite + 1) =
      s.sprite_at (first_missile_sprite + 1) :=
    move_missiles_body_other_missile s 0 1 (by decide) (by decide)
  obtain ⟨b1, b2⟩ := key (move_missiles_body s 0) 1 (by decide) (by
    intro he j hj
    rw [hm] at he
    have hadv : advanced_missile (move_missiles_body s 0) 1 = advanced_missile s 1 := by
      simp only [advanced_missile, hm]
    rw [hadv]
    cases hh : invaderer_hit (move_missiles_body s 0) (advanced_missile s 1) j with
    | false => rfl
    | true =>
      have := invaderer_hit_after_body s 0 j _ (by decide) hj hh
      rw [h 1 (by decide) he j hj] at this
      exact absurd this (by decide))
  rw [move_missiles_eq, b1, b2]
  exact ⟨a1, a2⟩

/-- C4: hit accounting of `move_missiles`. For every game state, after one call the
increase of `score` equals the decrease of `live_invaderers`, and both equal the number
of invader sprites that went from enabled to disabled during the call. Hence both
counters are unchanged when no enabled missile overlaps an enabled invader (or, what
the count says, when no invader was disabled), and `score` goes up by one and
`live_invaderers` down by one when exactly one hit was registered. -/
theorem move_missiles_hit_accounting (s : invaderers_app) :
    (move_missiles s).score - s.score = newly_disabled s (move_missiles s) ∧
    s.live_invaderers - (move_missiles s).live_invaderers = newly_disabled s (move_missiles s) ∧
    ((∀ i, i < num_missiles → (s.sprite_at (first_missile_sprite + i)).enabled = true →
        ∀ j, j < num_invaderers → invaderer_hit s (advanced_missile s i) j = false) →
      (move_missiles s).score = s.score ∧
      (move_missiles s).live_invaderers = s.live_invaderers) ∧
    (newly_disabled s (move_missiles s) = 0 →
      (move_missiles s).score = s.score ∧
      (move_missiles s).live_invaderers = s.live_invaderers) ∧
    (newly_disabled s (move_missiles s) = 1 →
      (move_missiles s).score = s.score + 1 ∧
      (move_missiles s).live_invaderers = s.live_invaderers - 1) := by
  obtain ⟨a1, a2, _, a4⟩ := move_missiles_body_accounting s 0 (by decide)
  obtain ⟨b1, b2, _, b4⟩ :=
    move_missiles_body_accounting (move_missiles_body s 0) 1 (by decide)
  have ht := newly_disabled_trans s _ _ a4 b4
  rw [← move_missiles_eq] at b1 b2 ht
  have e1 : (move_missiles s).score - s.score = newly_disabled s (move_missiles s) := by
    rw [b1, a1, ht]; push_cast; ring
  have e2 : s.live_invaderers - (move_missiles s).live_invaderers =
      newly_disabled s (move_missiles s) := by
    rw [b2, a2, ht]; push_cast; ring
  refine ⟨e1, e2, move_missiles_no_collision s, fun h => ?_, fun h => ?_⟩
  · rw [h] at e1 e2
    constructor
    · linarith
    · linarith
  · rw [h] at e1 e2
    constructor
    · linarith
    · linarith

/-! ## Effects of `on_hit_ship` -/

theorem on_hit_ship_sprite_at (s : invaderers_app) (k : Nat)
    (h1 : k ≠ game_over_sprite) (h2 : k ≠ restart_sprite) :
    (on_hit_ship s).sprite_at k = s.sprite_at k := by
  unfold on_hit_ship
  simp only [get_sound_source]
  split
  · rw [invaderers_app.sprite_at_update_sprite_ne _ _ _ _ (Ne.symm h2),
      invaderers_app.sprite_at_update_sprite_ne _ _ _ _ (Ne.symm h1)]
    rfl
  · rfl

theorem on_hit_ship_num_lives (s : invaderers_app) :
    (on_hit_ship s).num_lives = s.num_lives - 1 := by
  unfold on_hit_ship
  simp only [get_sound_source]
  split
  · simp only [invaderers_app.update_sprite_num_lives]
  · rfl

theorem on_hit_ship_game_over (s : invaderers_app) :
    (on_hit_ship s).game_over = if s.num_lives - 1 = 0 then true else s.game_over := by
  by_cases h : s.num_lives - 1 = 0
  · rw [if_pos h]
    unfold on_hit_ship
    simp only [get_sound_source]
    rw [if_pos h, invaderers_app.update_sprite_game_over,
      invaderers_app.update_sprite_game_over]
  · rw [if_neg h]
    unfold on_hit_ship
    simp only [get_sound_source]
    rw [if_neg h]

theorem on_hit_ship_loss (s : invaderers_app) :
    (on_hit_ship s).loss = if s.num_lives - 1 = 0 then true else s.loss := by
  by_cases h : s.num_lives - 1 = 0
  · rw [if_pos h]
    unfold on_hit_ship
    simp only [get_sound_source]
    rw [if_pos h, invaderers_app.update_sprite_loss, invaderers_app.update_sprite_loss]
  · rw [if_neg h]
    unfold on_hit_ship
    simp only [get_sound_source]
    rw [if_neg h]

/-! ## Bombs: one iteration of `move_bombs` -/

theorem bomb_index_lt (i : Nat) (hi : i < num_bombs) : first_bomb_sprite + i < num_sprites := by
  have : i < 7 := hi
  show 99 + i < 110
  omega

theorem bomb_index_ne (i : Nat) (hi : i < num_bombs) :
    first_bomb_sprite + i ≠ ship_sprite ∧ first_bomb_sprite + i ≠ game_over_sprite ∧
    first_bomb_sprite + i ≠ restart_sprite ∧
    first_bomb_sprite + i ≠ first_border_sprite + 0 := by
  have : i < 7 := hi
  refine ⟨?_, ?_, ?_, ?_⟩
  · show 99 + i ≠ 0
    omega
  · show 99 + i ≠ 1
    omega
  · show 99 + i ≠ 2
    omega
  · show 99 + i ≠ 106 + 0
    omega

theorem move_bombs_body_disabled (s : invaderers_app) (i : Nat)
    (he : (s.sprite_at (first_bomb_sprite + i)).enabled = false) :
    move_bombs_body s i = s := by
  unfold move_bombs_body
  rw [if_neg (by rw [he]; decide)]

theorem move_bombs_body_ship (s : invaderers_app) (i : Nat) (hi : i < num_bombs)
    (he : (s.sprite_at (first_bomb_sprite + i)).enabled = true)
    (hs : (advanced_bomb s i).collides_with (s.sprite_at ship_sprite) = true) :
    move_bombs_body s i =
      on_hit_ship
        { ((s.update_sprite (first_bomb_sprite + i) (fun t => t.translate 0 (-bomb_speed))
            ).update_sprite (first_bomb_sprite + i) (fun t => t.set_enabled false)
            ).update_sprite (first_bomb_sprite + i) (fun t => t.translate 20 0) with
          bombs_disabled := 50 } := by
  unfold move_bombs_body
  rw [if_pos he]
  simp only []
  rw [invaderers_app.sprite_at_update_sprite_self _ _ _ (bomb_index_lt i hi),
    invaderers_app.sprite_at_update_sprite_ne _ _ _ _ (bomb_index_ne i hi).1]
  have hs' : ((s.sprite_at (first_bomb_sprite + i)).translate 0 (-bomb_speed)).collides_with
      (s.sprite_at ship_sprite) = true := hs
  rw [if_pos hs']

theorem move_bombs_body_no_ship (s : invaderers_app) (i : Nat) (hi : i < num_bombs)
    (he : (s.sprite_at (first_bomb_sprite + i)).enabled = true)
    (hs : (advanced_bomb s i).collides_with (s.sprite_at ship_sprite) = false) :
    move_bombs_body s i =
      if (advanced_bomb s i).collides_with (s.sprite_at (first_border_sprite + 0)) then
        ((s.update_sprite (first_bomb_sprite + i) (fun t => t.translate 0 (-bomb_speed))
          ).update_sprite (first_bomb_sprite + i) (fun t => t.set_enabled false)
          ).update_sprite (first_bomb_sprite + i) (fun t => t.translate 20 0)
      else s.update_sprite (first_bomb_sprite + i) (fun t => t.translate 0 (-bomb_speed)) := by
  unfold move_bombs_body
  rw [if_pos he]
  simp only []
  rw [invaderers_app.sprite_at_update_sprite_self _ _ _ (bomb_index_lt i hi),
    invaderers_app.sprite_at_update_sprite_ne _ _ _ _ (bomb_index_ne i hi).1,
    invaderers_app.sprite_at_update_sprite_ne _ _ _ _ (bomb_index_ne i hi).2.2.2]
  have hs' : ¬ ((s.sprite_at (first_bomb_sprite + i)).translate 0 (-bomb_speed)).collides_with
      (s.sprite_at ship_sprite) = true := by
    have e : ((s.sprite_at (first_bomb_sprite + i)).translate 0 (-bomb_speed)).collides_with
      (s.sprite_at ship_sprite) = false := hs
    rw [e]; decide
  rw [if_neg hs']
  rfl

/-- An iteration of `move_bombs` changes no sprite other than its bomb and the two
messages of a lost round. -/
theorem move_bombs_body_sprite_at_other (s : invaderers_app) (i k : Nat) (hi : i < num_bombs)
    (hk : k ≠ first_bomb_sprite + i) (h1 : k ≠ game_over_sprite) (h2 : k ≠ restart_sprite) :
    (move_bombs_body s i).sprite_at k = s.sprite_at k := by
  cases he : (s.sprite_at (first_bomb_sprite + i)).enabled with
  | false => rw [move_bombs_body_disabled s i he]
  | true =>
    cases hs : (advanced_bomb s i).collides_with (s.sprite_at ship_sprite) with
    | true =>
      rw [move_bombs_body_ship s i hi he hs, on_hit_ship_sprite_at _ _ h1 h2]
      show (((s.update_sprite (first_bomb_sprite + i) _).update_sprite (first_bomb_sprite + i)
        _).update_sprite (first_bomb_sprite + i) _).sprite_at k = _
      rw [invaderers_app.sprite_at_update_sprite_ne _ _ _ _ (Ne.symm hk),
        invaderers_app.sprite_at_update_sprite_ne _ _ _ _ (Ne.symm hk),
        invaderers_app.sprite_at_update_sprite_ne _ _ _ _ (Ne.symm hk)]
    | false =>
      rw [move_bombs_body_no_ship s i hi he hs]
      split
      · rw [invaderers_app.sprite_at_update_sprite_ne _ _ _ _ (Ne.symm hk),
          invaderers_app.sprite_at_update_sprite_ne _ _ _ _ (Ne.symm hk),
          invaderers_app.sprite_at_update_sprite_ne _ _ _ _ (Ne.symm hk)]
      · rw [invaderers_app.sprite_at_update_sprite_ne _ _ _ _ (Ne.symm hk)]

/-- The bomb of an iteration of `move_bombs` afterwards. -/
theorem move_bombs_body_bomb (s : invaderers_app) (i : Nat) (hi : i < num_bombs) :
    (move_bombs_body s i).sprite_at (first_bomb_sprite + i) = bomb_after s i := by
  unfold bomb_after
  cases he : (s.sprite_at (first_bomb_sprite + i)).enabled with
  | false =>
    rw [move_bombs_body_disabled s i he, if_neg (by decide)]
  | true =>
    rw [if_pos rfl]
    cases hs : (advanced_bomb s i).collides_with (s.sprite_at ship_sprite) with
    | true =>
      rw [move_bombs_body_ship s i hi he hs, if_pos rfl,
        on_hit_ship_sprite_at _ _ (bomb_index_ne i hi).2.1 (bomb_index_ne i hi).2.2.1]
      show (((s.update_sprite (first_bomb_sprite + i) _).update_sprite (first_bomb_sprite + i)
        _).update_sprite (first_bomb_sprite + i) _).sprite_at (first_bomb_sprite + i) = _
      rw [invaderers_app.sprite_at_update_sprite_self _ _ _ (bomb_index_lt i hi),
        invaderers_app.sprite_at_update_sprite_self _ _ _ (bomb_index_lt i hi),
        invaderers_app.sprite_at_update_sprite_self _ _ _ (bomb_index_lt i hi)]
      rfl
    | false =>
      rw [move_bombs_body_no_ship s i hi he hs]
      simp only [Bool.false_eq_true, if_false]
      by_cases hb : (advanced_bomb s i).collides_with (s.sprite_at (first_border_sprite + 0)) = true
      · rw [if_pos hb, if_pos hb,
          invaderers_app.sprite_at_update_sprite_self _ _ _ (bomb_index_lt i hi),
          invaderers_app.sprite_at_update_sprite_self _ _ _ (bomb_index_lt i hi),
          invaderers_app.sprite_at_update_sprite_self _ _ _ (bomb_index_lt i hi)]
        rfl
      · rw [if_neg hb, if_neg hb,
          invaderers_app.sprite_at_update_sprite_self _ _ _ (bomb_index_lt i hi)]
        rfl

/-- The lives after an iteration of `move_bombs`: one fewer exactly when the bomb is
enabled and collides with the ship after its advance. -/
theorem move_bombs_body_num_lives (s : invaderers_app) (i : Nat) (hi : i < num_bombs) :
    (move_bombs_body s i).num_lives =
      s.num_lives - (if bomb_hits_ship s i = true then 1 else 0) := by
  unfold bomb_hits_ship
  cases he : (s.sprite_at (first_bomb_sprite + i)).enabled with
  | false =>
    rw [move_bombs_body_disabled s i he]
    simp
  | true =>
    cases hs : (advanced_bomb s i).collides_with (s.sprite_at ship_sprite) with
    | true =>
      rw [move_bombs_body_ship s i hi he hs, on_hit_ship_num_lives]
      show (((s.update_sprite (first_bomb_sprite + i) _).update_sprite (first_bomb_sprite + i)
        _).update_sprite (first_bomb_sprite + i) _).num_lives - 1 = _
      simp only [invaderers_app.update_sprite_num_lives]
      simp
    | false =>
      rw [move_bombs_body_no_ship s i hi he hs]
      split <;> simp only [invaderers_app.update_sprite_num_lives] <;> simp

/-- A bomb that does not hit the ship leaves `num_lives`, `game_over` and `loss` alone. -/
theorem move_bombs_body_no_ship_flags (s : invaderers_app) (i : Nat) (hi : i < num_bombs)
    (he : (s.sprite_at (first_bomb_sprite + i)).enabled = true)
    (hs : (advanced_bomb s i).collides_with (s.sprite_at ship_sprite) = false) :
    (move_bombs_body s i).num_lives = s.num_lives ∧
    (move_bombs_body s i).game_over = s.game_over ∧
    (move_bombs_body s i).loss = s.loss := by
  have h := move_bombs_body_no_ship s i hi he hs
  refine ⟨?_, ?_, ?_⟩ <;> rw [h] <;> split <;>
    simp only [invaderers_app.update_sprite_num_lives, invaderers_app.update_sprite_game_over,
      invaderers_app.update_sprite_loss]

/-- The iterations of `move_bombs` for the bombs of a list without repetition. -/
theorem move_bombs_fold (l : List Nat) :
    ∀ s : invaderers_app, (∀ i ∈ l, i < num_bombs) → l.Nodup →
      (l.foldl move_bombs_body s).sprite_at ship_sprite = s.sprite_at ship_sprite ∧
      (l.foldl move_bombs_body s).sprite_at (first_border_sprite + 0) =
        s.sprite_at (first_border_sprite + 0) ∧
      (∀ i, i < num_bombs → i ∉ l →
        (l.foldl move_bombs_body s).sprite_at (first_bomb_sprite + i) =
          s.sprite_at (first_bomb_sprite + i)) ∧
      (∀ i, i ∈ l →
        (l.foldl move_bombs_body s).sprite_at (first_bomb_sprite + i) = bomb_after s i) ∧
      (l.foldl move_bombs_body s).num_lives = s.num_lives - l.countP (bomb_hits_ship s) := by
  induction l with
  | nil =>
    intro s _ _
    refine ⟨rfl, rfl, fun _ _ _ => rfl, fun i hi => absurd hi (List.not_mem_nil i), ?_⟩
    simp
  | cons a l ih =>
    intro s hlt hnd
    have ha : a < num_bombs := hlt a (List.mem_cons_self a l)
    obtain ⟨hal, hnd'⟩ := List.nodup_cons.mp hnd
    obtain ⟨e1, e2, e3, e4, e5⟩ :=
      ih (move_bombs_body s a) (fun i hi => hlt i (List.mem_cons_of_mem a hi)) hnd'
    have hship : (move_bombs_body s a).sprite_at ship_sprite = s.sprite_at ship_sprite :=
      move_bombs_body_sprite_at_other s a _ ha (Ne.symm (bomb_index_ne a ha).1)
        (by decide) (by decide)
    have hborder : (move_bombs_body s a).sprite_at (first_border_sprite + 0) =
        s.sprite_at (first_border_sprite + 0) :=
      move_bombs_body_sprite_at_other s a _ ha (Ne.symm (bomb_index_ne a ha).2.2.2)
        (by decide) (by decide)
    have hbomb : ∀ i, i < num_bombs → i ≠ a →
        (move_bombs_body s a).sprite_at (first_bomb_sprite + i) =
          s.sprite_at (first_bomb_sprite + i) := fun i hi hia =>
      move_bombs_body_sprite_at_other s a _ ha (by omega)
        (bomb_index_ne i hi).2.1 (bomb_index_ne i hi).2.2.1
    have hadv : ∀ i, i < num_bombs → i ≠ a →
        advanced_bomb (move_bombs_body s a) i = advanced_bomb s i := fun i hi hia => by
      simp only [advanced_bomb, hbomb i hi hia]
    have hhit : ∀ i, i ∈ l → bomb_hits_ship (move_bombs_body s a) i = bomb_hits_ship s i := by
      intro i hi
      have hia : i ≠ a := fun h => hal (h ▸ hi)
      have hi' := hlt i (List.mem_cons_of_mem a hi)
      simp only [bomb_hits_ship, hadv i hi' hia, hbomb i hi' hia, hship]
    have haft : ∀ i, i ∈ l → bomb_after (move_bombs_body s a) i = bomb_after s i := by
      intro i hi
      have hia : i ≠ a := fun h => hal (h ▸ hi)
      have hi' := hlt i (List.mem_cons_of_mem a hi)
      simp only [bomb_after, hadv i hi' hia, hbomb i hi' hia, hship, hborder]
    rw [List.foldl_cons]
    refine ⟨e1.trans hship, e2.trans hborder, ?_, ?_, ?_⟩
    · intro i hi hil
      have hia : i ≠ a := fun h => hil (h ▸ List.mem_cons_self a l)
      have hil' : i ∉ l := fun h => hil (List.mem_cons_of_mem a h)
      rw [e3 i hi hil', hbomb i hi hia]
    · intro i hi
      rcases List.mem_cons.mp hi with h | h
      · subst h
        rw [e3 i ha hal, move_bombs_body_bomb s i ha]
      · rw [e4 i h, haft i h]
    · rw [e5, move_bombs_body_num_lives s a ha, List.countP_cons,
        List.countP_congr (fun i hi => by rw [hhit i hi])]
      split <;> push_cast <;> ring

theorem move_bombs_eq (s : invaderers_app) :
    move_bombs s = (List.range num_bombs).foldl move_bombs_body s := rfl

/-- C6: bomb resolution in `move_bombs`. For every game state and every bomb slot `i`:
a disabled bomb is not moved; an enabled bomb advances by `bomb_speed` downwards and then,
if it collides with the ship, it is disabled and moved off-screen once (the bottom border
plays no part, also when the bomb overlaps it too) and its iteration takes exactly one
life; otherwise, if it collides with the bottom border, it is disabled and moved
off-screen and its iteration leaves `num_lives`, `game_over` and `loss` unchanged;
otherwise it stays enabled at its advanced position. Consequently `num_lives` goes down
by exactly the number of enabled bombs that collide with the ship after advancing. -/
theorem move_bombs_resolution (s : invaderers_app) (i : Nat) (hi : i < num_bombs) :
    ((s.sprite_at (first_bomb_sprite + i)).enabled = false →
      (move_bombs s).sprite_at (first_bomb_sprite + i) = s.sprite_at (first_bomb_sprite + i)) ∧
    ((s.sprite_at (first_bomb_sprite + i)).enabled = true →
      (advanced_bomb s i).collides_with (s.sprite_at ship_sprite) = true →
      (move_bombs s).sprite_at (first_bomb_sprite + i) =
        ((advanced_bomb s i).set_enabled false).translate 20 0 ∧
      ((move_bombs s).sprite_at (first_bomb_sprite + i)).enabled = false) ∧
    ((s.sprite_at (first_bomb_sprite + i)).enabled = true →
      (advanced_bomb s i).collides_with (s.sprite_at ship_sprite) = false →
      (advanced_bomb s i).collides_with (s.sprite_at (first_border_sprite + 0)) = true →
      (move_bombs s).sprite_at (first_bomb_sprite + i) =
        ((advanced_bomb s i).set_enabled false).translate 20 0 ∧
      ((move_bombs s).sprite_at (first_bomb_sprite + i)).enabled = false) ∧
    ((s.sprite_at (first_bomb_sprite + i)).enabled = true →
      (advanced_bomb s i).collides_with (s.sprite_at ship_sprite) = false →
      (advanced_bomb s i).collides_with (s.sprite_at (first_border_sprite + 0)) = false →
      (move_bombs s).sprite_at (first_bomb_sprite + i) = advanced_bomb s i ∧
      ((move_bombs s).sprite_at (first_bomb_sprite + i)).enabled = true) ∧
    (∀ t : invaderers_app, (t.sprite_at (first_bomb_sprite + i)).enabled = false →
      move_bombs_body t i = t) ∧
    (∀ t : invaderers_app, (t.sprite_at (first_bomb_sprite + i)).enabled = true →
      (advanced_bomb t i).collides_with (t.sprite_at ship_sprite) = true →
      (move_bombs_body t i).num_lives = t.num_lives - 1) ∧
    (∀ t : invaderers_app, (t.sprite_at (first_bomb_sprite + i)).enabled = true →
      (advanced_bomb t i).collides_with (t.sprite_at ship_sprite) = false →
      (move_bombs_body t i).num_lives = t.num_lives ∧
      (move_bombs_body t i).game_over = t.game_over ∧
      (move_bombs_body t i).loss = t.loss) ∧
    (move_bombs s).num_lives =
      s.num_lives - (List.range num_bombs).countP (bomb_hits_ship s) := by
  obtain ⟨_, _, _, h4, h5⟩ := move_bombs_fold (List.range num_bombs) s
    (fun i hi => List.mem_range.mp hi) (List.nodup_range _)
  have hb : (move_bombs s).sprite_at (first_bomb_sprite + i) = bomb_after s i :=
    h4 i (List.mem_range.mpr hi)
  refine ⟨?_, ?_, ?_, ?_, fun t ht => move_bombs_body_disabled t i ht, ?_,
    fun t te ts => move_bombs_body_no_ship_flags t i hi te ts, h5⟩
  · intro he
    rw [hb, bomb_after, if_neg (by rw [he]; decide)]
  · intro he hs
    have e : (move_bombs s).sprite_at (first_bomb_sprite + i) =
        ((advanced_bomb s i).set_enabled false).translate 20 0 := by
      rw [hb, bomb_after, if_pos he, if_pos hs]
    exact ⟨e, by rw [e]; rfl⟩
  · intro he hs hbd
    have e : (move_bombs s).sprite_at (first_bomb_sprite + i) =
        ((advanced_bomb s i).set_enabled false).translate 20 0 := by
      rw [hb, bomb_after, if_pos he, if_neg (by rw [hs]; decide), if_pos hbd]
    exact ⟨e, by rw [e]; rfl⟩
  · intro he hs hbd
    have e : (move_bombs s).sprite_at (first_bomb_sprite + i) = advanced_bomb s i := by
      rw [hb, bomb_after, if_pos he, if_neg (by rw [hs]; decide), if_neg (by rw [hbd]; decide)]
    exact ⟨e, by rw [e]; exact he⟩
  · intro t te ts
    rw [move_bombs_body_num_lives t i hi]
    have : bomb_hits_ship t i = true := by
      unfold bomb_hits_ship
      rw [te, ts]; rfl
    rw [if_pos this]

/-! ## The play, checked frame by frame -/

theorem fresh_copy_eq (s : invaderers_app) : fresh_copy s = s := by
  cases s; rfl

theorem run_checked_eq (inputs : List frame_input) (s : invaderers_app) :
    run_checked inputs s = simulate_frames inputs s := by
  induction inputs generalizing s with
  | nil => rfl
  | cons inp rest ih =>
    unfold run_checked
    rw [if_pos rfl, fresh_copy_eq, ih]
    rfl

theorem simulate_frames_append (l₁ l₂ : List frame_input) (s : invaderers_app) :
    simulate_frames (l₁ ++ l₂) s = simulate_frames l₂ (simulate_frames l₁ s) := by
  unfold simulate_frames
  rw [List.foldl_append]

theorem play_opening_checked :
    (run_checked lose_inputs game_start).game_over = true ∧
    (run_checked lose_inputs game_start).loss = true ∧
    (run_checked lose_inputs game_start).num_lives = -1 ∧
    (run_checked lose_inputs game_start).live_invaderers = 84 ∧
    (run_checked [press_Y] (run_checked lose_inputs game_start)).game_over = false ∧
    run_checked approach_inputs (run_checked [press_Y] (run_checked lose_inputs game_start)) =
      play_state 0 (-2.75) 1.75 0 20 0 := by
  decide!

theorem play_level0_checked :
    run_checked level0 (play_state 0 (-2.75) 1.75 0 20 0) =
      play_state 28 2.75 1.75 5 22.75 2.55 := by
  decide!

theorem play_level1_checked :
    run_checked level1 (play_state 28 2.75 1.75 5 22.75 2.55) =
      play_state 56 (-2.75) 1 5 17.25 1.8 := by
  decide!

theorem play_level2_checked :
    run_checked level2_but_last (play_state 56 (-2.75) 1 5 17.25 1.8) =
      play_state 83 2.7 0.3 0 22.45 1.1 := by
  decide!

theorem play_end_checked :
    pre_win_state.game_over = false ∧ pre_win_state.live_invaderers = 1 ∧
    pre_win_state.loss = true ∧
    won_state.game_over = true ∧ won_state.live_invaderers = 0 ∧ won_state.loss = true ∧
    continued_won_state.game_over = false ∧ continued_won_state.live_invaderers = 0 ∧
    continued_won_state.num_lives = -1 ∧
    enabled_invaderers (initEnemies idle (move_ship idle continued_won_state)) = 91 ∧
    (initEnemies idle (move_ship idle continued_won_state)).live_invaderers = 0 := by
  decide!

theorem simulate_frames_singleton (inp : frame_input) (s : invaderers_app) :
    simulate_frames [inp] s = simulate inp s := rfl

/-- The lost round of the play. -/
theorem play_lost :
    lost_state.game_over = true ∧ lost_state.loss = true ∧ lost_state.num_lives = -1 ∧
    lost_state.live_invaderers = 84 ∧ continued_state.game_over = false := by
  have h := play_opening_checked
  simp only [run_checked_eq, simulate_frames_singleton] at h
  unfold continued_state lost_state
  exact ⟨h.1, h.2.1, h.2.2.1, h.2.2.2.1, h.2.2.2.2.1⟩

/-- The play from the lost round to the last shot. -/
theorem play_to_pre_win :
    simulate_frames (approach_inputs ++ level0 ++ level1 ++ level2_but_last) continued_state =
      pre_win_state := by
  have h0 := play_opening_checked.2.2.2.2.2
  have h1 := play_level0_checked
  have h2 := play_level1_checked
  have h3 := play_level2_checked
  simp only [run_checked_eq, simulate_frames_singleton] at h0 h1 h2 h3
  unfold continued_state lost_state pre_win_state
  simp only [simulate_frames_append]
  rw [h0, h1, h2, h3]

/-! ## Reachable states of the play -/

theorem reachable_simulate_frames (inputs : List frame_input) (s : invaderers_app)
    (h : Reachable s) : Reachable (simulate_frames inputs s) := by
  induction inputs generalizing s with
  | nil => exact h
  | cons inp rest ih => exact ih _ (Reachable.frame inp s h)

theorem constructed_constructed_state : constructed constructed_state := by
  unfold constructed
  decide!

theorem reachable_game_start : Reachable game_start :=
  Reachable.init idle constructed_state constructed_constructed_state

theorem reachable_lost_state : Reachable lost_state :=
  reachable_simulate_frames _ _ reachable_game_start

theorem reachable_continued_state : Reachable continued_state :=
  Reachable.frame _ _ reachable_lost_state

theorem reachable_pre_win_state : Reachable pre_win_state := by
  rw [← play_to_pre_win]
  exact reachable_simulate_frames _ _ reachable_continued_state

theorem reachable_won_state : Reachable won_state :=
  Reachable.frame _ _ reachable_pre_win_state

theorem reachable_continued_won_state : Reachable continued_won_state :=
  Reachable.frame _ _ reachable_won_state

theorem double_hit_checked :
    (double_hit_state.sprite_at (first_missile_sprite + 0)).enabled = true ∧
    invaderer_hit double_hit_state (advanced_missile double_hit_state 0) 0 = true ∧
    invaderer_hit double_hit_state (advanced_missile double_hit_state 0) 14 = true ∧
    (double_hit_state.sprite_at (first_invaderer_sprite + 14)).enabled = true := by
  decide!

/-- C5, the theorem at a missile that overlaps two invaders after its advance, number 0
and number 14: invader 0 is disabled and invader 14 is left as it was, enabled. -/
theorem move_missiles_first_match_witness :
    0 < num_missiles ∧
    invaderer_hit double_hit_state (advanced_missile double_hit_state 0) 0 = true ∧
    invaderer_hit double_hit_state (advanced_missile double_hit_state 0) 14 = true ∧
    ((move_missiles_body double_hit_state 0).sprite_at
      (first_invaderer_sprite + 0)).enabled = false ∧
    ((move_missiles_body double_hit_state 0).sprite_at
      (first_invaderer_sprite + 14)).enabled = true ∧
    ((move_missiles_body double_hit_state 0).sprite_at
      (first_missile_sprite + 0)).enabled = false := by
  have h := (move_missiles_first_match double_hit_state 0 (by decide)).2.2.2.2.1
    double_hit_state 0 double_hit_checked.1 (by decide) double_hit_checked.2.1
    (fun k hk => absurd hk (Nat.not_lt_zero k))
  refine ⟨by decide, double_hit_checked.2.1, double_hit_checked.2.2.1, h.2.1, ?_, h.2.2.2.1⟩
  rw [h.2.2.2.2 14 (by decide) (by decide)]
  exact double_hit_checked.2.2.2

theorem ship_and_border_checked :
    (ship_and_border_state.sprite_at (first_bomb_sprite + 0)).enabled = true ∧
    (advanced_bomb ship_and_border_state 0).collides_with
      (ship_and_border_state.sprite_at ship_sprite) = true ∧
    (advanced_bomb ship_and_border_state 0).collides_with
      (ship_and_border_state.sprite_at (first_border_sprite + 0)) = true ∧
    ship_and_border_state.num_lives = 5 := by
  decide!

/-- C6, the theorem at a bomb that overlaps both the ship and the bottom border after
its advance: the bomb is disabled and its iteration takes one life of the five. -/
theorem move_bombs_resolution_witness :
    0 < num_bombs ∧
    (advanced_bomb ship_and_border_state 0).collides_with
      (ship_and_border_state.sprite_at ship_sprite) = true ∧
    (advanced_bomb ship_and_border_state 0).collides_with
      (ship_and_border_state.sprite_at (first_border_sprite + 0)) = true ∧
    ((move_bombs ship_and_border_state).sprite_at (first_bomb_sprite + 0)).enabled = false ∧
    (move_bombs_body ship_and_border_state 0).num_lives = 4 := by
  have h := move_bombs_resolution ship_and_border_state 0 (by decide)
  refine ⟨by decide, ship_and_border_checked.2.1, ship_and_border_checked.2.2.1,
    (h.2.1 ship_and_border_checked.1 ship_and_border_checked.2.1).2, ?_⟩
  rw [h.2.2.2.2.2.1 ship_and_border_state ship_and_border_checked.1
    ship_and_border_checked.2.1, ship_and_border_checked.2.2.2]
  rfl

theorem same_round_refl (s : invaderers_app) : same_round s s :=
  ⟨rfl, rfl, rfl, rfl, rfl⟩

theorem same_round_trans {s s' s'' : invaderers_app} (h : same_round s s')
    (h' : same_round s' s'') : same_round s s'' :=
  ⟨h'.1.trans h.1, h'.2.1.trans h.2.1, h'.2.2.1.trans h.2.2.1, h'.2.2.2.1.trans h.2.2.2.1,
    h'.2.2.2.2.trans h.2.2.2.2⟩

theorem same_round_update_sprite (s : invaderers_app) (k : Nat) (f : sprite → sprite) :
    same_round s (s.update_sprite k f) :=
  ⟨invaderers_app.update_sprite_live_invaderers s k f,
    invaderers_app.update_sprite_num_lives s k f, invaderers_app.update_sprite_score s k f,
    invaderers_app.update_sprite_game_over s k f, invaderers_app.update_sprite_loss s k f⟩

theorem same_round_foldl {α : Type} (body : invaderers_app → α → invaderers_app)
    (h : ∀ s a, same_round s (body s a)) (l : List α) (s : invaderers_app) :
    same_round s (l.foldl body s) := by
  induction l generalizing s with
  | nil => exact same_round_refl s
  | cons a l ih => exact same_round_trans (h s a) (ih (body s a))

theorem same_round_move_ship_key (s : invaderers_app) (dx dy : ℚ) (border : Nat) :
    same_round s (move_ship_key s dx dy border) := by
  unfold move_ship_key
  simp only []
  split
  · exact same_round_trans (same_round_update_sprite _ _ _) (same_round_update_sprite _ _ _)
  · exact same_round_update_sprite _ _ _

theorem same_round_move_ship (inp : frame_input) (s : invaderers_app) :
    same_round s (move_ship inp s) := by
  have key : ∀ (b : Bool) (t : invaderers_app) (dx dy : ℚ) (border : Nat),
      same_round t (if b = true then move_ship_key t dx dy border else t) := by
    intro b t dx dy border
    split
    · exact same_round_move_ship_key _ _ _ _
    · exact same_round_refl _
  unfold move_ship
  exact same_round_trans (key _ _ _ _ _) (same_round_trans (key _ _ _ _ _)
    (same_round_trans (key _ _ _ _ _) (key _ _ _ _ _)))

theorem same_round_initEnemies (inp : frame_input) (s : invaderers_app) :
    same_round s (initEnemies inp s) := by
  unfold initEnemies
  simp only []
  split
  · have h0 : same_round s { s with reWave := false } := ⟨rfl, rfl, rfl, rfl, rfl⟩
    refine same_round_trans h0 ?_
    apply same_round_foldl
    intro t j
    apply same_round_foldl
    intro u i
    exact same_round_update_sprite _ _ _
  · exact same_round_refl s

theorem same_round_fire_missiles (inp : frame_input) (s : invaderers_app) :
    same_round s (fire_missiles inp s) := by
  unfold fire_missiles
  split
  · exact same_round_refl s
  · split
    · split
      · simp only [get_sound_source]
        exact same_round_trans (same_round_update_sprite _ _ _)
          (same_round_update_sprite _ _ _)
      · exact same_round_refl s
    · exact same_round_refl s

theorem same_round_fire_bombs (inp : frame_input) (s : invaderers_app) :
    same_round s (fire_bombs inp s) := by
  unfold fire_bombs
  split
  · exact same_round_refl s
  · simp only []
    split
    · split
      · simp only [get_sound_source]
        exact same_round_trans (same_round_update_sprite _ _ _)
          (same_round_update_sprite _ _ _)
      · exact same_round_refl s
    · exact same_round_refl s

/-- `initHolyBananas` changes `num_lives` only, by one when the ship collides with the
pickup, and none of the other counters and flags of the round. -/
theorem initHolyBananas_round (inp : frame_input) (s : invaderers_app) :
    (initHolyBananas inp s).live_invaderers = s.live_invaderers ∧
    (initHolyBananas inp s).score = s.score ∧
    (initHolyBananas inp s).game_over = s.game_over ∧
    (initHolyBananas inp s).loss = s.loss ∧
    (initHolyBananas inp s).num_lives =
      s.num_lives +
        (if (s.sprite_at ship_sprite).collides_with (s.sprite_at holyBanana_sprite) = true
          then 1 else 0) := by
  unfold initHolyBananas
  split
  · next h =>
    simp only []
    have key : ∀ t : invaderers_app, same_round s t →
        ({ t with num_lives := t.num_lives + 1 } : invaderers_app).live_invaderers =
          s.live_invaderers ∧
        ({ t with num_lives := t.num_lives + 1 } : invaderers_app).score = s.score ∧
        ({ t with num_lives := t.num_lives + 1 } : invaderers_app).game_over = s.game_over ∧
        ({ t with num_lives := t.num_lives + 1 } : invaderers_app).loss = s.loss ∧
        ({ t with num_lives := t.num_lives + 1 } : invaderers_app).num_lives =
          s.num_lives + 1 := by
      intro t ht
      refine ⟨ht.1, ht.2.2.1, ht.2.2.2.1, ht.2.2.2.2, ?_⟩
      show t.num_lives + 1 = s.num_lives + 1
      rw [ht.2.1]
    split <;> first
      | exact key _ (same_round_update_sprite _ _ _)
      | exact key _ (same_round_refl _)
  · next h =>
    refine ⟨rfl, rfl, rfl, rfl, ?_⟩
    simp

/-- `gameOverCondition` clears `game_over` and keeps the other counters and flags of
the round: it resets neither `num_lives`, nor `live_invaderers`, nor `loss`. -/
theorem gameOverCondition_round (inp : frame_input) (s : invaderers_app) :
    (gameOverCondition inp s).game_over = false ∧
    (gameOverCondition inp s).live_invaderers = s.live_invaderers ∧
    (gameOverCondition inp s).num_lives = s.num_lives ∧
    (gameOverCondition inp s).score = s.score ∧
    (gameOverCondition inp s).loss = s.loss := by
  have h := same_round_initEnemies inp s
  unfold gameOverCondition
  simp only [invaderers_app.update_sprite_game_over, invaderers_app.update_sprite_live_invaderers,
    invaderers_app.update_sprite_num_lives, invaderers_app.update_sprite_score,
    invaderers_app.update_sprite_loss]
  exact ⟨trivial, h.1, h.2.1, h.2.2.1, h.2.2.2.2⟩

/-- The counters and flags that `app_init` sets. -/
theorem app_init_round (inp : frame_input) (s : invaderers_app) :
    (app_init inp s).game_over = false ∧ (app_init inp s).loss = false ∧
    (app_init inp s).num_lives = 5 ∧ (app_init inp s).live_invaderers = 84 ∧
    (app_init inp s).score = 0 ∧ (app_init inp s).reWave = true ∧
    (app_init inp s).missiles_disabled = 0 ∧ (app_init inp s).bombs_disabled = 50 := by
  unfold app_init
  exact ⟨rfl, rfl, rfl, rfl, rfl, rfl, rfl, rfl⟩

/-- One iteration of `move_missiles` leaves `num_lives` and `loss` alone; it sets
`game_over` exactly when its hit brings `live_invaderers` to 0. -/
theorem move_missiles_body_round (s : invaderers_app) (i : Nat) (hi : i < num_missiles) :
    (move_missiles_body s i).num_lives = s.num_lives ∧
    (move_missiles_body s i).loss = s.loss ∧
    ((move_missiles_body s i).live_invaderers = s.live_invaderers ∧
        (move_missiles_body s i).game_over = s.game_over ∨
      (move_missiles_body s i).live_invaderers = s.live_invaderers - 1 ∧
        (move_missiles_body s i).game_over =
          if s.live_invaderers - 1 = 0 then true else s.game_over) := by
  cases he : (s.sprite_at (first_missile_sprite + i)).enabled with
  | false =>
    rw [move_missiles_body_disabled s i he]
    exact ⟨rfl, rfl, Or.inl ⟨rfl, rfl⟩⟩
  | true =>
    cases hj : first_index (invaderer_hit s (advanced_missile s i)) 0 num_invaderers with
    | none =>
      obtain ⟨_, h2, h3, h4, h5⟩ := move_missiles_body_miss_counters s i hi he hj
      exact ⟨h5, h4, Or.inl ⟨h2, h3⟩⟩
    | some j =>
      obtain ⟨_, h2, h3, h4, h5⟩ := move_missiles_body_hit_counters s i j hi he hj
      exact ⟨h5, h4, Or.inr ⟨h2, h3⟩⟩

/-- One iteration of `move_bombs` leaves `live_invaderers` and `score` alone; a bomb
that hits the ship takes one life and sets `game_over` and `loss` exactly when that
brings `num_lives` to 0. -/
theorem move_bombs_body_round (s : invaderers_app) (i : Nat) (hi : i < num_bombs) :
    (move_bombs_body s i).live_invaderers = s.live_invaderers ∧
    (move_bombs_body s i).score = s.score ∧
    ((move_bombs_body s i).num_lives = s.num_lives ∧
        (move_bombs_body s i).game_over = s.game_over ∧
        (move_bombs_body s i).loss = s.loss ∨
      (move_bombs_body s i).num_lives = s.num_lives - 1 ∧
        ((move_bombs_body s i).game_over = if s.num_lives - 1 = 0 then true else s.game_over) ∧
        ((move_bombs_body s i).loss = if s.num_lives - 1 = 0 then true else s.loss)) := by
  cases he : (s.sprite_at (first_bomb_sprite + i)).enabled with
  | false =>
    rw [move_bombs_body_disabled s i he]
    exact ⟨rfl, rfl, Or.inl ⟨rfl, rfl, rfl⟩⟩
  | true =>
    cases hs : (advanced_bomb s i).collides_with (s.sprite_at ship_sprite) with
    | true =>
      have h := move_bombs_body_ship s i hi he hs
      have hr : same_round s ((((s.update_sprite (first_bomb_sprite + i)
          (fun t => t.translate 0 (-bomb_speed))).update_sprite (first_bomb_sprite + i)
          (fun t => t.set_enabled false)).update_sprite (first_bomb_sprite + i)
          (fun t => t.translate 20 0))) :=
        same_round_trans (same_round_update_sprite _ _ _)
          (same_round_trans (same_round_update_sprite _ _ _) (same_round_update_sprite _ _ _))
      refine ⟨?_, ?_, Or.inr ⟨?_, ?_, ?_⟩⟩
      · rw [h]
        unfold on_hit_ship
        simp only [get_sound_source]
        split
        · simp only [invaderers_app.update_sprite_live_invaderers]
        · exact hr.1
      · rw [h]
        unfold on_hit_ship
        simp only [get_sound_source]
        split
        · simp only [invaderers_app.update_sprite_score]
        · exact hr.2.2.1
      · rw [h, on_hit_ship_num_lives]
        show _ - 1 = _
        rw [hr.2.1]
      · rw [h, on_hit_ship_game_over]
        show (if _ - 1 = 0 then true else _) = _
        rw [hr.2.1, hr.2.2.2.1]
      · rw [h, on_hit_ship_loss]
        show (if _ - 1 = 0 then true else _) = _
        rw [hr.2.1, hr.2.2.2.2]
    | false =>
      obtain ⟨h1, h2, h3⟩ := move_bombs_body_no_ship_flags s i hi he hs
      have h := move_bombs_body_no_ship s i hi he hs
      refine ⟨?_, ?_, Or.inl ⟨h1, h2, h3⟩⟩
      · rw [h]; split <;> simp only [invaderers_app.update_sprite_live_invaderers]
      · rw [h]; split <;> simp only [invaderers_app.update_sprite_score]

/-! ## The counters and flags of the round through a frame -/

theorem move_missiles_loss (s : invaderers_app) :
    (move_missiles s).loss = s.loss ∧ (move_missiles s).num_lives = s.num_lives := by
  obtain ⟨a1, a2, _⟩ := move_missiles_body_round s 0 (by decide)
  obtain ⟨b1, b2, _⟩ := move_missiles_body_round (move_missiles_body s 0) 1 (by decide)
  rw [move_missiles_eq]
  exact ⟨b2.trans a2, b1.trans a1⟩

/-- A property of states that every iteration of `move_bombs` keeps is kept by
`move_bombs`. -/
theorem move_bombs_invariant (P : invaderers_app → Prop)
    (h : ∀ s i, i < num_bombs → P s → P (move_bombs_body s i)) (s : invaderers_app)
    (hs : P s) : P (move_bombs s) := by
  have key : ∀ (l : List Nat) (t : invaderers_app), (∀ i ∈ l, i < num_bombs) → P t →
      P (l.foldl move_bombs_body t) := by
    intro l
    induction l with
    | nil => intro t _ ht; exact ht
    | cons a l ih =>
      intro t hl ht
      exact ih _ (fun i hi => hl i (List.mem_cons_of_mem a hi))
        (h t a (hl a (List.mem_cons_self a l)) ht)
  exact key _ s (fun i hi => List.mem_range.mp hi) hs

theorem move_bombs_loss (s : invaderers_app) (h : s.loss = true) :
    (move_bombs s).loss = true := by
  apply move_bombs_invariant (fun t => t.loss = true) _ s h
  intro t i hi ht
  obtain ⟨_, _, h3⟩ := move_bombs_body_round t i hi
  rcases h3 with ⟨_, _, e⟩ | ⟨_, _, e⟩
  · rw [e]; exact ht
  · rw [e, ht]; simp

theorem move_bombs_game_over (s : invaderers_app) (h : s.game_over = true) :
    (move_bombs s).game_over = true := by
  apply move_bombs_invariant (fun t => t.game_over = true) _ s h
  intro t i hi ht
  obtain ⟨_, _, h3⟩ := move_bombs_body_round t i hi
  rcases h3 with ⟨_, e, _⟩ | ⟨_, e, _⟩
  · rw [e]; exact ht
  · rw [e, ht]; simp

theorem move_bombs_live_invaderers (s : invaderers_app) :
    (move_bombs s).live_invaderers = s.live_invaderers := by
  apply move_bombs_invariant (fun t => t.live_invaderers = s.live_invaderers) _ s rfl
  intro t i hi ht
  rw [(move_bombs_body_round t i hi).1]
  exact ht

/-- The state in which `move_missiles` runs in a frame of play. -/
theorem same_round_before_missiles (inp : frame_input) (s : invaderers_app) :
    same_round s (fire_bombs inp (fire_missiles inp (initEnemies inp (move_ship inp s)))) :=
  same_round_trans (same_round_move_ship inp s)
    (same_round_trans (same_round_initEnemies inp _)
      (same_round_trans (same_round_fire_missiles inp _) (same_round_fire_bombs inp _)))

theorem simulate_playing (inp : frame_input) (s : invaderers_app) (h : s.game_over = false) :
    simulate inp s =
      initHolyBananas inp (move_bombs (move_missiles
        (fire_bombs inp (fire_missiles inp (initEnemies inp (move_ship inp s)))))) := by
  unfold simulate
  rw [if_neg (by rw [h]; decide)]

theorem simulate_frozen (inp : frame_input) (s : invaderers_app) (h : s.game_over = true)
    (hY : inp.key_Y = false) (hR : inp.key_R = false) : simulate inp s = s := by
  unfold simulate
  rw [if_pos h]
  simp [hY, hR]

theorem simulate_continue (inp : frame_input) (s : invaderers_app) (h : s.game_over = true)
    (hY : inp.key_Y = true) : simulate inp s = gameOverCondition inp s := by
  unfold simulate
  rw [if_pos h]
  simp [hY, h, (gameOverCondition_round inp s).1]

theorem simulate_restart (inp : frame_input) (s : invaderers_app) (h : s.game_over = true)
    (hY : inp.key_Y = false) (hR : inp.key_R = true) : simulate inp s = app_init inp s := by
  unfold simulate
  rw [if_pos h]
  simp [hY, hR, h]

theorem simulate_loss (inp : frame_input) (s : invaderers_app) (h : s.loss = true)
    (hR : inp.key_R = false) : (simulate inp s).loss = true := by
  cases hgo : s.game_over with
  | true =>
    cases hY : inp.key_Y with
    | true =>
      rw [simulate_continue inp s hgo hY, (gameOverCondition_round inp s).2.2.2.2]
      exact h
    | false =>
      rw [simulate_frozen inp s hgo hY hR]
      exact h
  | false =>
    rw [simulate_playing inp s hgo, (initHolyBananas_round inp _).2.2.2.1]
    apply move_bombs_loss
    rw [(move_missiles_loss _).1, (same_round_before_missiles inp s).2.2.2.2]
    exact h

/-- C7 (as the code has it): a ship hit that brings `num_lives` from 1 to 0 sets
`game_over` and `loss`. A state with `game_over` and `loss` set is frozen: `simulate`
returns it unchanged, so both stay true, through every sequence of frames in which
neither the continue key (Y) nor the restart key (R) is held. A frame with Y held takes
the game out of that state: it clears `game_over`, and keeps `loss`. In every sequence
of frames in which R is not held, `loss` stays true. -/
theorem loss_sticky_until_continue_or_restart (p s : invaderers_app)
    (inputs : List frame_input) (hp : p.num_lives = 1)
    (hgo : s.game_over = true) (hl : s.loss = true) :
    ((on_hit_ship p).num_lives = 0 ∧ (on_hit_ship p).game_over = true ∧
      (on_hit_ship p).loss = true) ∧
    ((∀ inp ∈ inputs, inp.key_Y = false ∧ inp.key_R = false) →
      simulate_frames inputs s = s) ∧
    (∀ inp : frame_input, inp.key_Y = true →
      (simulate inp s).game_over = false ∧ (simulate inp s).loss = true) ∧
    ((∀ inp ∈ inputs, inp.key_R = false) → (simulate_frames inputs s).loss = true) := by
  refine ⟨?_, ?_, ?_, ?_⟩
  · rw [on_hit_ship_num_lives, on_hit_ship_game_over, on_hit_ship_loss, hp]
    simp
  · intro hin
    induction inputs with
    | nil => rfl
    | cons inp rest ih =>
      show simulate_frames rest (simulate inp s) = s
      rw [simulate_frozen inp s hgo (hin inp (List.mem_cons_self inp rest)).1
        (hin inp (List.mem_cons_self inp rest)).2]
      exact ih (fun i hi => hin i (List.mem_cons_of_mem inp hi))
  · intro inp hY
    rw [simulate_continue inp s hgo hY]
    exact ⟨(gameOverCondition_round inp s).1,
      (gameOverCondition_round inp s).2.2.2.2.trans hl⟩
  · intro hin
    clear hgo
    induction inputs generalizing s with
    | nil => exact hl
    | cons inp rest ih =>
      show (simulate_frames rest (simulate inp s)).loss = true
      exact ih _ (simulate_loss inp s hl (hin inp (List.mem_cons_self inp rest)))
        (fun i hi => hin i (List.mem_cons_of_mem inp hi))

/-- C7, the theorem at the start of the game with one life left, for the hit, and at
the lost round of the play, for the frames that follow: two frames without Y and R leave
the lost state as it is. -/
theorem loss_sticky_until_continue_or_restart_witness :
    last_life_state.num_lives = 1 ∧ lost_state.game_over = true ∧
    lost_state.loss = true ∧
    (on_hit_ship last_life_state).num_lives = 0 ∧
    (on_hit_ship last_life_state).game_over = true ∧
    (on_hit_ship last_life_state).loss = true ∧
    simulate_frames [idle, go_left] lost_state = lost_state :=
  ⟨rfl, play_lost.1, play_lost.2.1,
    (loss_sticky_until_continue_or_restart last_life_state lost_state [idle, go_left]
      rfl play_lost.1 play_lost.2.1).1.1,
    (loss_sticky_until_continue_or_restart last_life_state lost_state [idle, go_left]
      rfl play_lost.1 play_lost.2.1).1.2.1,
    (loss_sticky_until_continue_or_restart last_life_state lost_state [idle, go_left]
      rfl play_lost.1 play_lost.2.1).1.2.2,
    (loss_sticky_until_continue_or_restart last_life_state lost_state [idle, go_left]
      rfl play_lost.1 play_lost.2.1).2.1 (by
        intro inp h
        simp only [List.mem_cons, List.mem_singleton, List.not_mem_nil, or_false] at h
        rcases h with rfl | rfl <;> exact ⟨rfl, rfl⟩)⟩

/-- C7, counterexample: the play loses its round in frame 74, where two bombs hit the
ship with one life left: the first takes `num_lives` to 0 and sets `game_over` and
`loss`. The lost state is reachable. One frame with the continue key (Y) held and the
restart key (R) not held takes the game out of it: `game_over` is false again. -/
theorem loss_not_sticky_counterexample :
    Reachable lost_state ∧ lost_state.game_over = true ∧ lost_state.loss = true ∧
    press_Y.key_Y = true ∧ press_Y.key_R = false ∧
    (simulate press_Y lost_state).game_over = false :=
  ⟨reachable_lost_state, play_lost.1, play_lost.2.1, rfl, rfl, play_lost.2.2.2.2⟩

theorem move_missiles_win (s : invaderers_app) (hl : s.live_invaderers ≠ 0)
    (h0 : (move_missiles s).live_invaderers = 0) : (move_missiles s).game_over = true := by
  obtain ⟨_, _, a⟩ := move_missiles_body_round s 0 (by decide)
  obtain ⟨_, _, b⟩ := move_missiles_body_round (move_missiles_body s 0) 1 (by decide)
  rw [move_missiles_eq] at h0 ⊢
  rcases b with ⟨b1, b2⟩ | ⟨b1, b2⟩
  · rcases a with ⟨a1, _⟩ | ⟨a1, a2⟩
    · exact absurd (h0.symm.trans (b1.trans a1)).symm hl
    · rw [b2, a2, if_pos (a1.symm.trans (b1.symm.trans h0))]
  · rw [b2, if_pos (b1.symm.trans h0)]

/-- The flag `loss` after `move_bombs`: it is set when it was set before, or when the
hits of the call bring `num_lives` from a positive value to 0 or below. -/
theorem move_bombs_loss_iff (s : invaderers_app) :
    (move_bombs s).loss = true ↔
      s.loss = true ∨ (1 ≤ s.num_lives ∧ (move_bombs s).num_lives ≤ 0) := by
  have key := move_bombs_invariant
    (fun t => (t.loss = true ↔ s.loss = true ∨ (1 ≤ s.num_lives ∧ t.num_lives ≤ 0)) ∧
      t.num_lives ≤ s.num_lives) ?_ s ⟨?_, le_refl _⟩
  · exact key.1
  · intro t i hi ⟨h1, h2⟩
    obtain ⟨_, _, h3⟩ := move_bombs_body_round t i hi
    rcases h3 with ⟨e1, _, e3⟩ | ⟨e1, _, e3⟩
    · rw [e1, e3]
      exact ⟨h1, h2⟩
    · rw [e1, e3]
      refine ⟨?_, by omega⟩
      by_cases hz : t.num_lives - 1 = 0
      · rw [if_pos hz]
        constructor
        · intro _
          right
          constructor <;> omega
        · intro _
          rfl
      · rw [if_neg hz, h1]
        constructor
        · rintro (h | ⟨h, h'⟩)
          · exact Or.inl h
          · exact Or.inr ⟨h, by omega⟩
        · rintro (h | ⟨h, h'⟩)
          · exact Or.inl h
          · exact Or.inr ⟨h, by omega⟩
  · constructor
    · intro h
      exact Or.inl h
    · rintro (h | ⟨h, h'⟩)
      · exact h
      · omega

/-- The lives after `move_bombs`: one fewer for each enabled bomb that collides with the
ship after its advance. -/
theorem move_bombs_num_lives (s : invaderers_app) :
    (move_bombs s).num_lives =
      s.num_lives - (List.range num_bombs).countP (bomb_hits_ship s) :=
  (move_bombs_fold (List.range num_bombs) s
    (fun _ hi => List.mem_range.mp hi) (List.nodup_range _)).2.2.2.2

/-- A frame keeps the rule that `loss` is set only in a finished round, as long as the
continue key is not held. -/
theorem simulate_loss_game_over (inp : frame_input) (s : invaderers_app)
    (hY : inp.key_Y = false) (h : s.loss = true → s.game_over = true) :
    (simulate inp s).loss = true → (simulate inp s).game_over = true := by
  cases hgo : s.game_over with
  | true =>
    cases hR : inp.key_R with
    | true =>
      rw [simulate_restart inp s hgo hY hR, (app_init_round inp s).2.1]
      intro e
      exact absurd e (by decide)
    | false =>
      rw [simulate_frozen inp s hgo hY hR]
      intro _
      exact hgo
  | false =>
    have hl : s.loss = false := by
      cases hs : s.loss with
      | false => rfl
      | true => exact absurd (h hs) (by rw [hgo]; decide)
    have hpre := same_round_before_missiles inp s
    rw [simulate_playing inp s hgo, (initHolyBananas_round inp _).2.2.1,
      (initHolyBananas_round inp _).2.2.2.1]
    apply move_bombs_invariant (fun t => t.loss = true → t.game_over = true)
    · intro t i hi ht
      obtain ⟨_, _, h3⟩ := move_bombs_body_round t i hi
      rcases h3 with ⟨_, e2, e3⟩ | ⟨_, e2, e3⟩
      · rw [e2, e3]
        exact ht
      · rw [e2, e3]
        split
        · intro _
          rfl
        · exact ht
    · rw [(move_missiles_loss _).1, hpre.2.2.2.2, hl]
      intro e
      exact absurd e (by decide)

/-- Without the continue key `loss` is set only in a finished round: a game in play has
`loss = false`. -/
theorem loss_false_in_play (s : invaderers_app) (h : ReachableNoContinue s) :
    s.game_over = false → s.loss = false := by
  have key : s.loss = true → s.game_over = true := by
    induction h with
    | init inp s _ =>
      rw [(app_init_round inp s).2.1]
      intro e
      exact absurd e (by decide)
    | frame inp s _ hY ih => exact simulate_loss_game_over inp s hY ih
  intro hgo
  cases hs : s.loss with
  | false => rfl
  | true => exact absurd (key hs) (by rw [hgo]; decide)

/-- C8: the win transition. In a frame of play (`game_over` false at its start) in
which `live_invaderers` goes from a non-zero value to 0: when `move_missiles` returns,
`live_invaderers` is 0, `game_over` is true and `loss` is as it was at the start of the
frame; `game_over` is true at the end of the frame. If `loss` was false at the start of
the frame, which it is in every state reached without the continue key (Y), then `loss`
is false when `move_missiles` returns, and at the end of the frame it is true exactly
when the bombs of that frame bring `num_lives` from a positive value to 0 or below (at
least `num_lives` enabled bombs collide with the ship after advancing), so it is false
when no bomb takes the last life. If `loss` was true at the start of the frame it is
true at its end: the hit does not write `loss` (`on_hit_invaderer` and `move_missiles`
leave it as it was). -/
theorem win_transition (inp : frame_input) (s : invaderers_app)
    (hgo : s.game_over = false) (hl : s.live_invaderers ≠ 0)
    (h0 : (simulate inp s).live_invaderers = 0) :
    ((after_missiles inp s).live_invaderers = 0 ∧
      (after_missiles inp s).game_over = true ∧
      (after_missiles inp s).loss = s.loss) ∧
    (simulate inp s).game_over = true ∧
    (ReachableNoContinue s → s.loss = false) ∧
    (s.loss = false →
      (after_missiles inp s).loss = false ∧
      ((simulate inp s).loss = true ↔
        1 ≤ s.num_lives ∧
        s.num_lives ≤
          ((List.range num_bombs).countP (bomb_hits_ship (after_missiles inp s)) : Int)) ∧
      (((List.range num_bombs).countP (bomb_hits_ship (after_missiles inp s)) : Int) <
          s.num_lives → (simulate inp s).loss = false)) ∧
    (s.loss = true → (simulate inp s).loss = true) ∧
    (∀ t : invaderers_app,
      (on_hit_invaderer t).loss = t.loss ∧ (move_missiles t).loss = t.loss) := by
  have hpre := same_round_before_missiles inp s
  have hsim : simulate inp s = initHolyBananas inp (move_bombs (after_missiles inp s)) :=
    simulate_playing inp s hgo
  have hm0 : (after_missiles inp s).live_invaderers = 0 := by
    rw [hsim, (initHolyBananas_round inp _).1, move_bombs_live_invaderers] at h0
    exact h0
  have hmgo : (after_missiles inp s).game_over = true :=
    move_missiles_win _ (by rw [hpre.1]; exact hl) hm0
  have hmloss : (after_missiles inp s).loss = s.loss := by
    unfold after_missiles
    rw [(move_missiles_loss _).1, hpre.2.2.2.2]
  have hmlives : (after_missiles inp s).num_lives = s.num_lives := by
    unfold after_missiles
    rw [(move_missiles_loss _).2, hpre.2.1]
  have hiff : s.loss = false → ((simulate inp s).loss = true ↔
      1 ≤ s.num_lives ∧
      s.num_lives ≤
        ((List.range num_bombs).countP (bomb_hits_ship (after_missiles inp s)) : Int)) := by
    intro hs
    rw [hsim, (initHolyBananas_round inp _).2.2.2.1, move_bombs_loss_iff,
      move_bombs_num_lives, hmloss, hmlives, hs]
    constructor
    · rintro (h | ⟨h, h'⟩)
      · exact absurd h (by decide)
      · exact ⟨h, by omega⟩
    · rintro ⟨h, h'⟩
      exact Or.inr ⟨h, by omega⟩
  refine ⟨⟨hm0, hmgo, hmloss⟩, ?_, fun hr => loss_false_in_play s hr hgo, ?_, ?_,
    fun t => ⟨on_hit_invaderer_loss t, (move_missiles_loss t).1⟩⟩
  · rw [hsim, (initHolyBananas_round inp _).2.2.1]
    exact move_bombs_game_over _ hmgo
  · intro hs
    refine ⟨hmloss.trans hs, hiff hs, fun hlt => ?_⟩
    cases hf : (simulate inp s).loss with
    | false => rfl
    | true =>
      have := ((hiff hs).mp hf).2
      omega
  · intro h
    rw [hsim, (initHolyBananas_round inp _).2.2.2.1]
    apply move_bombs_loss
    rw [hmloss]
    exact h

/-- The frame of the last shot, evaluated. -/
theorem last_shot_checked :
    last_shot_state.game_over = false ∧ last_shot_state.live_invaderers = 1 ∧
    last_shot_state.loss = false ∧ last_shot_state.num_lives = 5 ∧
    (simulate idle last_shot_state).live_invaderers = 0 ∧
    (List.range num_bombs).countP (bomb_hits_ship (after_missiles idle last_shot_state)) = 0 := by
  decide!

/-- The frame of the last shot with one life left, evaluated. -/
theorem last_shot_last_life_checked :
    last_shot_last_life_state.game_over = false ∧
    last_shot_last_life_state.live_invaderers = 1 ∧
    last_shot_last_life_state.loss = false ∧ last_shot_last_life_state.num_lives = 1 ∧
    (simulate idle last_shot_last_life_state).live_invaderers = 0 ∧
    (List.range num_bombs).countP
      (bomb_hits_ship (after_missiles idle last_shot_last_life_state)) = 1 := by
  decide!

/-- C8, the theorem at two last shots. In a round that was never lost the missile at
`(0, 0.15)` advances into the last invader at `(0, 0.5)`, no bomb is in flight, and the
frame ends with `live_invaderers = 0`, `game_over = true` and `loss = false`. In the
same frame with one life left and a bomb one advance above the ship, the bomb takes the
last life after the missile has hit, and the frame ends with `live_invaderers = 0`,
`game_over = true` and `loss = true`. -/
theorem win_transition_witness :
    (last_shot_state.game_over = false ∧ last_shot_state.live_invaderers ≠ 0 ∧
      last_shot_state.loss = false ∧
      (simulate idle last_shot_state).live_invaderers = 0 ∧
      (simulate idle last_shot_state).game_over = true ∧
      (simulate idle last_shot_state).loss = false) ∧
    (last_shot_last_life_state.game_over = false ∧
      last_shot_last_life_state.live_invaderers ≠ 0 ∧
      last_shot_last_life_state.loss = false ∧
      (simulate idle last_shot_last_life_state).live_invaderers = 0 ∧
      (after_missiles idle last_shot_last_life_state).game_over = true ∧
      (after_missiles idle last_shot_last_life_state).loss = false ∧
      (simulate idle last_shot_last_life_state).game_over = true ∧
      (simulate idle last_shot_last_life_state).loss = true) :=
  ⟨⟨last_shot_checked.1, by rw [last_shot_checked.2.1]; decide, last_shot_checked.2.2.1,
    last_shot_checked.2.2.2.2.1,
    (win_transition idle last_shot_state last_shot_checked.1
      (by rw [last_shot_checked.2.1]; decide) last_shot_checked.2.2.2.2.1).2.1,
    ((win_transition idle last_shot_state last_shot_checked.1
      (by rw [last_shot_checked.2.1]; decide) last_shot_checked.2.2.2.2.1).2.2.2.1
        last_shot_checked.2.2.1).2.2
      (by rw [last_shot_checked.2.2.2.2.2, last_shot_checked.2.2.2.1]; decide)⟩,
   ⟨last_shot_last_life_checked.1, by rw [last_shot_last_life_checked.2.1]; decide,
    last_shot_last_life_checked.2.2.1, last_shot_last_life_checked.2.2.2.2.1,
    (win_transition idle last_shot_last_life_state last_shot_last_life_checked.1
      (by rw [last_shot_last_life_checked.2.1]; decide)
      last_shot_last_life_checked.2.2.2.2.1).1.2.1,
    ((win_transition idle last_shot_last_life_state last_shot_last_life_checked.1
      (by rw [last_shot_last_life_checked.2.1]; decide)
      last_shot_last_life_checked.2.2.2.2.1).2.2.2.1 last_shot_last_life_checked.2.2.1).1,
    (win_transition idle last_shot_last_life_state last_shot_last_life_checked.1
      (by rw [last_shot_last_life_checked.2.1]; decide)
      last_shot_last_life_checked.2.2.2.2.1).2.1,
    (((win_transition idle last_shot_last_life_state last_shot_last_life_checked.1
      (by rw [last_shot_last_life_checked.2.1]; decide)
      last_shot_last_life_checked.2.2.2.2.1).2.2.2.1
        last_shot_last_life_checked.2.2.1).2.1).mpr
      (by rw [last_shot_last_life_checked.2.2.2.2.2, last_shot_last_life_checked.2.2.2.1]
          decide)⟩⟩

/-- C8, counterexample: the play loses a round, continues with Y (which leaves `loss`
true) and then shoots all 84 invaders. The state before the last shot is reachable and in
play with one invader left; the frame of the last shot brings `live_invaderers` to 0 and
ends with `game_over = true` and `loss = true`, not `loss = false`. -/
theorem win_with_loss_counterexample :
    Reachable pre_win_state ∧ pre_win_state.game_over = false ∧
    pre_win_state.live_invaderers = 1 ∧
    (simulate go_right_fire pre_win_state).live_invaderers = 0 ∧
    (simulate go_right_fire pre_win_state).game_over = true ∧
    (simulate go_right_fire pre_win_state).loss = true :=
  ⟨reachable_pre_win_state, play_end_checked.1, play_end_checked.2.1,
    play_end_checked.2.2.2.2.1, play_end_checked.2.2.2.1, play_end_checked.2.2.2.2.2.1⟩

/-- C9: the code after a won round. The play reaches a state with `game_over` true and
`live_invaderers` 0; after the frame with the continue key (Y) and the `initEnemies` of
the following frame, all 91 sprites of the invader pool are enabled, not 84: the slots
84 to 90, which `initEnemies` never writes, are still enabled as the constructor left
them. The counter `live_invaderers` is still 0. -/
theorem continue_after_win_enables_91 :
    Reachable won_state ∧ won_state.game_over = true ∧ won_state.live_invaderers = 0 ∧
    enabled_invaderers
      (initEnemies idle (move_ship idle (simulate press_Y won_state))) = 91 ∧
    (initEnemies idle (move_ship idle (simulate press_Y won_state))).live_invaderers = 0 :=
  ⟨reachable_won_state, play_end_checked.2.2.2.1, play_end_checked.2.2.2.2.1,
    play_end_checked.2.2.2.2.2.2.2.2.2.1, play_end_checked.2.2.2.2.2.2.2.2.2.2⟩

/-! ## The invariant of `game_over` -/

theorem move_missiles_playing (s : invaderers_app)
    (h : s.game_over = false → 1 ≤ s.num_lives ∧ 1 ≤ s.live_invaderers) :
    (move_missiles s).game_over = false →
      1 ≤ (move_missiles s).num_lives ∧ 1 ≤ (move_missiles s).live_invaderers := by
  have step : ∀ (t : invaderers_app) (i : Nat), i < num_missiles →
      (t.game_over = false → 1 ≤ t.num_lives ∧ 1 ≤ t.live_invaderers) →
      (move_missiles_body t i).game_over = false →
        1 ≤ (move_missiles_body t i).num_lives ∧
        1 ≤ (move_missiles_body t i).live_invaderers := by
    intro t i hi ht hgo
    obtain ⟨a1, _, a3⟩ := move_missiles_body_round t i hi
    rcases a3 with ⟨e1, e2⟩ | ⟨e1, e2⟩
    · rw [a1, e1]
      exact ht (e2.symm.trans hgo)
    · rw [e2] at hgo
      by_cases hz : t.live_invaderers - 1 = 0
      · rw [if_pos hz] at hgo
        exact absurd hgo (by decide)
      · rw [if_neg hz] at hgo
        rw [a1, e1]
        have := ht hgo
        exact ⟨this.1, by omega⟩
  rw [move_missiles_eq]
  exact step _ 1 (by decide) (step s 0 (by decide) h)

theorem move_bombs_playing (s : invaderers_app)
    (h : s.game_over = false → 1 ≤ s.num_lives ∧ 1 ≤ s.live_invaderers) :
    (move_bombs s).game_over = false →
      1 ≤ (move_bombs s).num_lives ∧ 1 ≤ (move_bombs s).live_invaderers := by
  apply move_bombs_invariant
    (fun t => t.game_over = false → 1 ≤ t.num_lives ∧ 1 ≤ t.live_invaderers) _ s h
  intro t i hi ht hgo
  obtain ⟨a1, _, a3⟩ := move_bombs_body_round t i hi
  rcases a3 with ⟨e1, e2, _⟩ | ⟨e1, e2, _⟩
  · rw [a1, e1]
    exact ht (e2.symm.trans hgo)
  · rw [e2] at hgo
    by_cases hz : t.num_lives - 1 = 0
    · rw [if_pos hz] at hgo
      exact absurd hgo (by decide)
    · rw [if_neg hz] at hgo
      rw [a1, e1]
      have := ht hgo
      exact ⟨by omega, this.2⟩

theorem simulate_playing_invariant (inp : frame_input) (s : invaderers_app)
    (hY : inp.key_Y = false)
    (h : s.game_over = false → 1 ≤ s.num_lives ∧ 1 ≤ s.live_invaderers) :
    (simulate inp s).game_over = false →
      1 ≤ (simulate inp s).num_lives ∧ 1 ≤ (simulate inp s).live_invaderers := by
  cases hgo : s.game_over with
  | true =>
    cases hR : inp.key_R with
    | true =>
      rw [simulate_restart inp s hgo hY hR]
      intro _
      rw [(app_init_round inp s).2.2.1, (app_init_round inp s).2.2.2.1]
      decide
    | false =>
      rw [simulate_frozen inp s hgo hY hR, hgo]
      intro e
      exact absurd e (by decide)
  | false =>
    have hpre := same_round_before_missiles inp s
    rw [simulate_playing inp s hgo]
    intro e
    obtain ⟨b1, _, b3, _, b5⟩ := initHolyBananas_round inp (move_bombs (move_missiles
      (fire_bombs inp (fire_missiles inp (initEnemies inp (move_ship inp s))))))
    rw [b3] at e
    have := move_bombs_playing _ (move_missiles_playing _ (by
      intro _
      rw [hpre.2.1, hpre.1]
      exact h hgo)) e
    rw [b1, b5]
    refine ⟨?_, this.2⟩
    split <;> omega

/-- What the code keeps of the invariant of `game_over`: in every state reached from
`app_init` by `simulate` frames in none of which the continue key (Y) is held, a game
that is not over has at least one life and at least one live invader; so
`num_lives = 0` or `live_invaderers = 0` implies `game_over`. -/
theorem game_over_invariant (s : invaderers_app) (h : ReachableNoContinue s) :
    (s.game_over = false → 1 ≤ s.num_lives ∧ 1 ≤ s.live_invaderers) ∧
    (s.num_lives = 0 ∨ s.live_invaderers = 0 → s.game_over = true) := by
  have key : s.game_over = false → 1 ≤ s.num_lives ∧ 1 ≤ s.live_invaderers := by
    induction h with
    | init inp s _ =>
      intro _
      rw [(app_init_round inp s).2.2.1, (app_init_round inp s).2.2.2.1]
      decide
    | frame inp s _ hY ih => exact simulate_playing_invariant inp s hY ih
  refine ⟨key, fun h0 => ?_⟩
  cases hgo : s.game_over with
  | true => rfl
  | false =>
    have := key hgo
    omega

/-- C10: the code against the invariant `game_over` if and only if `num_lives == 0` or
`live_invaderers == 0`. `gameOverCondition` clears `game_over` and leaves `num_lives`
and `live_invaderers` as they are, and `on_hit_ship` takes a life whatever `num_lives`
is and sets `game_over` only when the new value is exactly 0. The state after the won
round of the play was continued with Y is reachable and has `live_invaderers = 0` while
`game_over` is false. The state at the end of the lost round is reachable and has
`game_over` true while `num_lives = -1` (two bombs hit the ship in its last frame) and
`live_invaderers = 84`, neither of them 0. -/
theorem game_over_iff_violated :
    (∀ (inp : frame_input) (t : invaderers_app),
      (gameOverCondition inp t).game_over = false ∧
      (gameOverCondition inp t).num_lives = t.num_lives ∧
      (gameOverCondition inp t).live_invaderers = t.live_invaderers) ∧
    (∀ t : invaderers_app,
      (on_hit_ship t).num_lives = t.num_lives - 1 ∧
      (on_hit_ship t).game_over = if t.num_lives - 1 = 0 then true else t.game_over) ∧
    (Reachable continued_won_state ∧ continued_won_state.game_over = false ∧
      continued_won_state.live_invaderers = 0) ∧
    (Reachable lost_state ∧ lost_state.game_over = true ∧
      lost_state.num_lives = -1 ∧ lost_state.live_invaderers = 84) :=
  ⟨fun inp t => ⟨(gameOverCondition_round inp t).1, (gameOverCondition_round inp t).2.2.1,
      (gameOverCondition_round inp t).2.1⟩,
    fun t => ⟨on_hit_ship_num_lives t, on_hit_ship_game_over t⟩,
    ⟨reachable_continued_won_state, play_end_checked.2.2.2.2.2.2.1,
      play_end_checked.2.2.2.2.2.2.2.1⟩,
    ⟨reachable_lost_state, play_lost.1, play_lost.2.2.1, play_lost.2.2.2.1⟩⟩

/-! ## Spawning missiles and bombs -/

theorem missile_index_ne_ship (i : Nat) : first_missile_sprite + i ≠ ship_sprite := by
  show 97 + i ≠ 0
  omega

theorem get_sound_source_sprite_at (s : invaderers_app) (k : Nat) :
    (get_sound_source s).sprite_at k = s.sprite_at k := rfl

/-- The cooldown of `fire_missiles`: while `missiles_disabled` is not 0 the call only
decrements it. -/
theorem fire_missiles_cooldown (inp : frame_input) (s : invaderers_app)
    (h : s.missiles_disabled ≠ 0) :
    fire_missiles inp s = { s with missiles_disabled := s.missiles_disabled - 1 } := by
  unfold fire_missiles
  rw [if_pos h]

/-- Without a key-down edge of the fire key, or with an even `num_lives`, a call of
`fire_missiles` with no cooldown changes nothing. -/
theorem fire_missiles_not_permitted (inp : frame_input) (s : invaderers_app)
    (h0 : s.missiles_disabled = 0)
    (h : inp.key_space_going_down = false ∨ Int.tmod s.num_lives 2 = 0) :
    fire_missiles inp s = s := by
  unfold fire_missiles
  rw [if_neg (not_not.mpr h0)]
  rcases h with h | h
  · simp [h]
  · simp [h]

/-- No free slot: `fire_missiles` changes nothing. -/
theorem fire_missiles_no_slot (inp : frame_input) (s : invaderers_app)
    (h0 : s.missiles_disabled = 0)
    (hfull : ∀ i, i < num_missiles → (s.sprite_at (first_missile_sprite + i)).enabled = true) :
    fire_missiles inp s = s := by
  have hn : first_index (fun i => !(s.sprite_at (first_missile_sprite + i)).enabled)
      0 num_missiles = none := by
    rw [first_index_eq_none]
    intro k _ hk
    rw [hfull k (by omega)]
    rfl
  unfold fire_missiles
  rw [if_neg (not_not.mpr h0), hn]
  simp

/-- The spawn of `fire_missiles`, as a state. -/
theorem fire_missiles_spawn (inp : frame_input) (s : invaderers_app) (i : Nat)
    (h0 : s.missiles_disabled = 0) (hk : inp.key_space_going_down = true)
    (hodd : Int.tmod s.num_lives 2 ≠ 0) (hi : i < num_missiles)
    (hd : (s.sprite_at (first_missile_sprite + i)).enabled = false)
    (hfirst : ∀ k, k < i → (s.sprite_at (first_missile_sprite + k)).enabled = true) :
    fire_missiles inp s =
      get_sound_source
        { (s.update_sprite (first_missile_sprite + i)
            (fun t => t.set_relative (s.sprite_at ship_sprite) 0 0.5)).update_sprite
            (first_missile_sprite + i) (fun t => t.set_enabled true) with
          missiles_disabled := 5 } := by
  have hn : first_index (fun i => !(s.sprite_at (first_missile_sprite + i)).enabled)
      0 num_missiles = some i := by
    rw [first_index_eq_some]
    refine ⟨Nat.zero_le _, by omega, by rw [hd]; rfl, fun k _ hk => ?_⟩
    rw [hfirst k hk]
    rfl
  unfold fire_missiles
  rw [if_neg (not_not.mpr h0), hn]
  simp [hk, hodd]

/-- What the spawn of `fire_missiles` leaves in the state. -/
theorem fire_missiles_spawn_effect (inp : frame_input) (s : invaderers_app) (i : Nat)
    (h0 : s.missiles_disabled = 0) (hk : inp.key_space_going_down = true)
    (hodd : Int.tmod s.num_lives 2 ≠ 0) (hi : i < num_missiles)
    (hd : (s.sprite_at (first_missile_sprite + i)).enabled = false)
    (hfirst : ∀ k, k < i → (s.sprite_at (first_missile_sprite + k)).enabled = true) :
    (fire_missiles inp s).sprite_at (first_missile_sprite + i) =
      { s.sprite_at (first_missile_sprite + i) with
        x := (s.sprite_at ship_sprite).x + 0
        y := (s.sprite_at ship_sprite).y + 0.5
        enabled := true } ∧
    (fire_missiles inp s).missiles_disabled = 5 ∧
    (∀ k, k ≠ first_missile_sprite + i →
      (fire_missiles inp s).sprite_at k = s.sprite_at k) ∧
    (fire_missiles inp s).num_lives = s.num_lives ∧
    (fire_missiles inp s).score = s.score ∧
    (fire_missiles inp s).live_invaderers = s.live_invaderers ∧
    (fire_missiles inp s).bombs_disabled = s.bombs_disabled ∧
    (fire_missiles inp s).game_over = s.game_over ∧
    (fire_missiles inp s).loss = s.loss ∧
    (fire_missiles inp s).reWave = s.reWave := by
  rw [fire_missiles_spawn inp s i h0 hk hodd hi hd hfirst]
  have hlt : first_missile_sprite + i < num_sprites := missile_index_lt i hi
  refine ⟨?_, rfl, ?_, ?_, ?_, ?_, ?_, ?_, ?_, ?_⟩
  · rw [get_sound_source_sprite_at]
    show ((s.update_sprite (first_missile_sprite + i) _).update_sprite
      (first_missile_sprite + i) _).sprite_at (first_missile_sprite + i) = _
    rw [invaderers_app.sprite_at_update_sprite_self _ _ _ hlt,
      invaderers_app.sprite_at_update_sprite_self _ _ _ hlt]
    rfl
  · intro k hk
    rw [get_sound_source_sprite_at]
    show ((s.update_sprite (first_missile_sprite + i) _).update_sprite
      (first_missile_sprite + i) _).sprite_at k = _
    rw [invaderers_app.sprite_at_update_sprite_ne _ _ _ _ (Ne.symm hk),
      invaderers_app.sprite_at_update_sprite_ne _ _ _ _ (Ne.symm hk)]
  all_goals
    simp only [get_sound_source, invaderers_app.update_sprite_num_lives,
      invaderers_app.update_sprite_score, invaderers_app.update_sprite_live_invaderers,
      invaderers_app.update_sprite_bombs_disabled, invaderers_app.update_sprite_game_over,
      invaderers_app.update_sprite_loss, invaderers_app.update_sprite_reWave]

/-- C11: the spawn gate of `fire_missiles`. While `missiles_disabled` is not 0 (in
particular while it is positive) the call only decrements it. A sprite is changed only
if `missiles_disabled = 0`, the fire key has a key-down edge and `num_lives % 2 != 0`;
with `missiles_disabled = 0` and one of the other two conditions missing the state is
unchanged. When all three hold and `i` is the lowest-index disabled missile slot, the
call enables exactly that slot, places it at the position of the ship plus `(0, 0.5)`,
keeps its size and texture, sets `missiles_disabled` to 5 and leaves every other sprite
as it was. -/
theorem fire_missiles_spawn_gate (inp : frame_input) (s : invaderers_app) :
    (s.missiles_disabled ≠ 0 →
      fire_missiles inp s = { s with missiles_disabled := s.missiles_disabled - 1 }) ∧
    (s.missiles_disabled = 0 →
      inp.key_space_going_down = false ∨ Int.tmod s.num_lives 2 = 0 →
      fire_missiles inp s = s) ∧
    ((∃ k, (fire_missiles inp s).sprite_at k ≠ s.sprite_at k) →
      s.missiles_disabled = 0 ∧ inp.key_space_going_down = true ∧
      Int.tmod s.num_lives 2 ≠ 0) ∧
    (s.missiles_disabled = 0 → inp.key_space_going_down = true →
      Int.tmod s.num_lives 2 ≠ 0 →
      ∀ i, i < num_missiles →
        (s.sprite_at (first_missile_sprite + i)).enabled = false →
        (∀ k, k < i → (s.sprite_at (first_missile_sprite + k)).enabled = true) →
        (fire_missiles inp s).sprite_at (first_missile_sprite + i) =
          { s.sprite_at (first_missile_sprite + i) with
            x := (s.sprite_at ship_sprite).x + 0
            y := (s.sprite_at ship_sprite).y + 0.5
            enabled := true } ∧
        (fire_missiles inp s).missiles_disabled = 5 ∧
        (∀ k, k ≠ first_missile_sprite + i →
          (fire_missiles inp s).sprite_at k = s.sprite_at k) ∧
        (fire_missiles inp s).num_lives = s.num_lives ∧
        (fire_missiles inp s).score = s.score ∧
        (fire_missiles inp s).live_invaderers = s.live_invaderers ∧
        (fire_missiles inp s).bombs_disabled = s.bombs_disabled ∧
        (fire_missiles inp s).game_over = s.game_over ∧
        (fire_missiles inp s).loss = s.loss ∧
        (fire_missiles inp s).reWave = s.reWave) := by
  refine ⟨fire_missiles_cooldown inp s, fire_missiles_not_permitted inp s, ?_, ?_⟩
  · rintro ⟨k, hk⟩
    by_contra hc
    apply hk
    by_cases h0 : s.missiles_disabled = 0
    · rw [fire_missiles_not_permitted inp s h0]
      by_cases h1 : inp.key_space_going_down = true
      · by_cases h2 : Int.tmod s.num_lives 2 = 0
        · exact Or.inr h2
        · exact absurd ⟨h0, h1, h2⟩ hc
      · exact Or.inl (by simpa using h1)
    · rw [fire_missiles_cooldown inp s h0]
      rfl
  · intro h0 hk hodd i hi hd hfirst
    exact fire_missiles_spawn_effect inp s i h0 hk hodd hi hd hfirst

/-- No free bomb slot: `fire_bombs` changes nothing, whether or not it finds a
bomber. -/
theorem fire_bombs_no_slot (inp : frame_input) (s : invaderers_app)
    (h0 : s.bombs_disabled = 0)
    (hfull : ∀ i, i < num_bombs → (s.sprite_at (first_bomb_sprite + i)).enabled = true) :
    fire_bombs inp s = s := by
  have hn : first_index (fun i => !(s.sprite_at (first_bomb_sprite + i)).enabled)
      0 num_bombs = none := by
    rw [first_index_eq_none]
    intro k _ hk
    rw [hfull k (by omega)]
    rfl
  unfold fire_bombs
  rw [if_neg (not_not.mpr h0)]
  simp only []
  split
  · rw [hn]
  · rfl

/-- C13: pool exhaustion is a silent no-op. With every missile slot enabled and no
cooldown, `fire_missiles` returns the state unchanged, whatever the input (so also for a
permitted fire input), `missiles_disabled` included; with every bomb slot enabled and
`bombs_disabled = 0`, `fire_bombs` returns the state unchanged, whatever the random
start index and whichever invader it selects. -/
theorem pool_exhaustion_no_op (inp : frame_input) (s : invaderers_app) :
    (s.missiles_disabled = 0 →
      (∀ i, i < num_missiles → (s.sprite_at (first_missile_sprite + i)).enabled = true) →
      fire_missiles inp s = s ∧ (fire_missiles inp s).missiles_disabled = 0) ∧
    (s.bombs_disabled = 0 →
      (∀ i, i < num_bombs → (s.sprite_at (first_bomb_sprite + i)).enabled = true) →
      fire_bombs inp s = s) := by
  refine ⟨fun h0 hfull => ?_, fire_bombs_no_slot inp s⟩
  rw [fire_missiles_no_slot inp s h0 hfull]
  exact ⟨rfl, h0⟩

/-- The start of the game, evaluated: no cooldown, five lives, both missile slots
free, the ship at `(0, -2.75)`. -/
theorem game_start_checked :
    game_start.missiles_disabled = 0 ∧ Int.tmod game_start.num_lives 2 ≠ 0 ∧
    (game_start.sprite_at (first_missile_sprite + 0)).enabled = false ∧
    ({ game_start.sprite_at (first_missile_sprite + 0) with
        x := (game_start.sprite_at ship_sprite).x + 0
        y := (game_start.sprite_at ship_sprite).y + 0.5
        enabled := true } : sprite) = ⟨0, -2.25, 0.03125, 0.125, 1, true⟩ := by
  decide!

/-- C11, the theorem at the start of the game with the fire key pressed: missile 0 is
spawned at `(0, -2.25)`, half a unit above the ship, and the cooldown is set to 5. -/
theorem fire_missiles_spawn_gate_witness :
    game_start.missiles_disabled = 0 ∧ fire.key_space_going_down = true ∧
    Int.tmod game_start.num_lives 2 ≠ 0 ∧
    (game_start.sprite_at (first_missile_sprite + 0)).enabled = false ∧
    (fire_missiles fire game_start).sprite_at (first_missile_sprite + 0) =
      ⟨0, -2.25, 0.03125, 0.125, 1, true⟩ ∧
    (fire_missiles fire game_start).missiles_disabled = 5 := by
  have h := (fire_missiles_spawn_gate fire game_start).2.2.2 game_start_checked.1 rfl
    game_start_checked.2.1 0 (by decide) game_start_checked.2.2.1
    (fun k hk => absurd hk (Nat.not_lt_zero k))
  exact ⟨game_start_checked.1, rfl, game_start_checked.2.1, game_start_checked.2.2.1,
    h.1.trans game_start_checked.2.2.2, h.2.1⟩

/-- The state `full_pools_state`, evaluated. -/
theorem full_pools_checked :
    full_pools_state.missiles_disabled = 0 ∧ full_pools_state.bombs_disabled = 0 ∧
    (∀ i, i < num_missiles →
      (full_pools_state.sprite_at (first_missile_sprite + i)).enabled = true) ∧
    (∀ i, i < num_bombs →
      (full_pools_state.sprite_at (first_bomb_sprite + i)).enabled = true) ∧
    above_ship full_pools_state 48 = true := by
  decide!

/-- C13, the theorem at a state with both missile slots and all seven bomb slots in
use: a permitted fire input, and a bomb drop for which `fire_bombs` selects invader 48,
both leave it unchanged. -/
theorem pool_exhaustion_no_op_witness :
    fire.key_space_going_down = true ∧ Int.tmod full_pools_state.num_lives 2 ≠ 0 ∧
    above_ship full_pools_state 48 = true ∧
    fire_missiles fire full_pools_state = full_pools_state ∧
    fire_bombs (bomber 48) full_pools_state = full_pools_state :=
  ⟨rfl, by decide!, full_pools_checked.2.2.2.2,
    ((pool_exhaustion_no_op fire full_pools_state).1 full_pools_checked.1
      full_pools_checked.2.2.1).1,
    (pool_exhaustion_no_op (bomber 48) full_pools_state).2 full_pools_checked.2.1
      full_pools_checked.2.2.2.1⟩

/-! ## Loops that write the sprite array -/

/-- A loop whose iteration `a` writes only the sprites `k` with `T a k` leaves every
other sprite as it was. -/
theorem foldl_sprite_at_other {α : Type} (body : invaderers_app → α → invaderers_app)
    (T : α → Nat → Prop)
    (hb : ∀ s a k, ¬ T a k → (body s a).sprite_at k = s.sprite_at k)
    (l : List α) (s : invaderers_app) (k : Nat) (hk : ∀ a ∈ l, ¬ T a k) :
    (l.foldl body s).sprite_at k = s.sprite_at k := by
  induction l generalizing s with
  | nil => rfl
  | cons a l ih =>
    show (l.foldl body (body s a)).sprite_at k = _
    rw [ih _ (fun b hb' => hk b (List.mem_cons_of_mem a hb')),
      hb s a k (hk a (List.mem_cons_self a l))]

/-- A loop whose iteration `a` writes the value `v a k` to the sprites `k` with `T a k`,
and nothing else, where no sprite is written by two iterations: after the loop a sprite
written by iteration `a` holds `v a k`. -/
theorem foldl_sprite_at_written {α : Type} (body : invaderers_app → α → invaderers_app)
    (T : α → Nat → Prop) (v : α → Nat → sprite)
    (hb : ∀ s a k, ¬ T a k → (body s a).sprite_at k = s.sprite_at k)
    (l : List α) (hv : ∀ s a k, a ∈ l → T a k → (body s a).sprite_at k = v a k)
    (hnd : l.Nodup)
    (hdis : ∀ a ∈ l, ∀ b ∈ l, a ≠ b → ∀ k, T a k → ¬ T b k)
    (s : invaderers_app) (a : α) (ha : a ∈ l) (k : Nat) (hk : T a k) :
    (l.foldl body s).sprite_at k = v a k := by
  induction l generalizing s with
  | nil => cases ha
  | cons b l ih =>
    show (l.foldl body (body s b)).sprite_at k = _
    rw [List.nodup_cons] at hnd
    rcases List.mem_cons.mp ha with e | e
    · subst e
      rw [foldl_sprite_at_other body T hb l _ k (fun c hc => by
        apply hdis a (List.mem_cons_self a l) c (List.mem_cons_of_mem a hc) _ k hk
        rintro rfl
        exact hnd.1 hc)]
      exact hv s a k (List.mem_cons_self a l) hk
    · exact ih (fun s c k hc => hv s c k (List.mem_cons_of_mem b hc)) hnd.2 (fun c hc d hd => hdis c (List.mem_cons_of_mem b hc) d
        (List.mem_cons_of_mem b hd)) _ e

/-- A loop keeps what each of its iterations keeps. -/
theorem foldl_keeps {α β : Type} (body : invaderers_app → α → invaderers_app)
    (proj : invaderers_app → β) (h : ∀ s a, proj (body s a) = proj s)
    (l : List α) (s : invaderers_app) : proj (l.foldl body s) = proj s := by
  induction l generalizing s with
  | nil => rfl
  | cons a l ih =>
    show proj (l.foldl body (body s a)) = _
    rw [ih, h]

/-! ## The sprites that `app_init` leaves -/

theorem sprite_init_eq (t : sprite) (tex : Nat) (x y w h : ℚ) :
    t.init tex x y w h = ⟨x, y, w * 0.5, h * 0.5, tex, true⟩ := rfl

theorem app_init_missile_other (missile : Nat) (s : invaderers_app) (i k : Nat)
    (hk : ¬ k = first_missile_sprite + i) :
    (app_init_missile missile s i).sprite_at k = s.sprite_at k := by
  unfold app_init_missile
  simp only []
  rw [invaderers_app.sprite_at_update_sprite_ne _ _ _ _ (Ne.symm hk),
    invaderers_app.sprite_at_update_sprite_ne _ _ _ _ (Ne.symm hk)]

theorem app_init_missile_self (missile : Nat) (s : invaderers_app) (i : Nat)
    (hi : i < num_missiles) :
    (app_init_missile missile s i).sprite_at (first_missile_sprite + i) =
      ⟨20, 0, 0.0625 * 0.5, 0.25 * 0.5, missile, false⟩ := by
  unfold app_init_missile
  simp only []
  rw [invaderers_app.sprite_at_update_sprite_self _ _ _ (missile_index_lt i hi),
    invaderers_app.sprite_at_update_sprite_self _ _ _ (missile_index_lt i hi)]
  rfl

theorem app_init_bomb_other (bomb : Nat) (s : invaderers_app) (i k : Nat)
    (hk : ¬ k = first_bomb_sprite + i) :
    (app_init_bomb bomb s i).sprite_at k = s.sprite_at k := by
  unfold app_init_bomb
  simp only []
  rw [invaderers_app.sprite_at_update_sprite_ne _ _ _ _ (Ne.symm hk),
    invaderers_app.sprite_at_update_sprite_ne _ _ _ _ (Ne.symm hk)]

theorem app_init_bomb_self (bomb : Nat) (s : invaderers_app) (i : Nat)
    (hi : i < num_bombs) :
    (app_init_bomb bomb s i).sprite_at (first_bomb_sprite + i) =
      ⟨20, 0, 0.0625 * 0.5, 0.25 * 0.5, bomb, false⟩ := by
  unfold app_init_bomb
  simp only []
  rw [invaderers_app.sprite_at_update_sprite_self _ _ _ (bomb_index_lt i hi),
    invaderers_app.sprite_at_update_sprite_self _ _ _ (bomb_index_lt i hi)]
  rfl

/-- The sprite array after `app_init`, as the loops and the `init` calls that produce
it. -/
theorem app_init_sprite_at (inp : frame_input) (s : invaderers_app) (k : Nat) :
    (app_init inp s).sprite_at k =
      ((List.range num_bombs).foldl
        (app_init_bomb (inp.get_texture_handle "assets/invaderers/bomb.gif"))
        ((List.range num_missiles).foldl
          (app_init_missile (inp.get_texture_handle "assets/invaderers/missile.gif"))
          ((((((((((s.update_sprite ship_sprite (fun t =>
              t.init (inp.get_texture_handle "assets/invaderers/ship.gif")
                0 (-2.75) 0.25 0.25)).update_sprite game_over_sprite (fun t =>
              t.init (inp.get_texture_handle "assets/invaderers/GameOver.gif")
                20 0 3 1.5)).update_sprite restart_sprite (fun t =>
              t.init (inp.get_texture_handle "assets/invaderers/restart.gif")
                20 0 3 1.5)).update_sprite success_sprite (fun t =>
              t.init (inp.get_texture_handle "assets/invaderers/success.gif")
                20 0 3 1.5)).update_sprite nextWave_sprite (fun t =>
              t.init (inp.get_texture_handle "assets/invaderers/nextWave.gif")
                20 0 3 1.5)).update_sprite holyBanana_sprite (fun t =>
              t.init (inp.get_texture_handle "assets/invaderers/holyBomb.gif")
                0.0 0.0 0.25 0.25)).update_sprite (first_border_sprite + 0) (fun t =>
              t.init (inp.get_texture_handle "#ef9d97") 0 (-3) 6 0.2)).update_sprite
              (first_border_sprite + 1) (fun t =>
              t.init (inp.get_texture_handle "#ef9d97") 0 3 6 0.2)).update_sprite
              (first_border_sprite + 2) (fun t =>
              t.init (inp.get_texture_handle "#ef9d97") (-3) 0 0.2 6)).update_sprite
              (first_border_sprite + 3) (fun t =>
              t.init (inp.get_texture_handle "#ef9d97") 3 0 0.2 6)))).sprite_at k := rfl

theorem app_init_loops_other (missile bomb : Nat) (s : invaderers_app) (k : Nat)
    (hk : k < first_missile_sprite ∨ first_border_sprite ≤ k) :
    ((List.range num_bombs).foldl (app_init_bomb bomb)
      ((List.range num_missiles).foldl (app_init_missile missile) s)).sprite_at k =
      s.sprite_at k := by
  have hk' : k < 97 ∨ 106 ≤ k := hk
  rw [foldl_sprite_at_other (app_init_bomb bomb) (fun i k => k = first_bomb_sprite + i)
      (app_init_bomb_other bomb) _ _ k (fun i hi => by
        have : i < 7 := List.mem_range.mp hi
        show ¬ k = 99 + i
        omega),
    foldl_sprite_at_other (app_init_missile missile)
      (fun i k => k = first_missile_sprite + i)
      (app_init_missile_other missile) _ _ k (fun i hi => by
        have : i < 2 := List.mem_range.mp hi
        show ¬ k = 97 + i
        omega)]

theorem app_init_ship (inp : frame_input) (s : invaderers_app) :
    (app_init inp s).sprite_at ship_sprite =
      ⟨0, -2.75, 0.25 * 0.5, 0.25 * 0.5,
        inp.get_texture_handle "assets/invaderers/ship.gif", true⟩ := by
  rw [app_init_sprite_at, app_init_loops_other _ _ _ _ (Or.inl (by decide))]
  iterate 9 rw [invaderers_app.sprite_at_update_sprite_ne _ _ _ _ (by decide)]
  rw [invaderers_app.sprite_at_update_sprite_self _ _ _ (by decide)]
  rfl

theorem app_init_holyBanana (inp : frame_input) (s : invaderers_app) :
    (app_init inp s).sprite_at holyBanana_sprite =
      ⟨0.0, 0.0, 0.25 * 0.5, 0.25 * 0.5,
        inp.get_texture_handle "assets/invaderers/holyBomb.gif", true⟩ := by
  rw [app_init_sprite_at, app_init_loops_other _ _ _ _ (Or.inl (by decide))]
  iterate 4 rw [invaderers_app.sprite_at_update_sprite_ne _ _ _ _ (by decide)]
  rw [invaderers_app.sprite_at_update_sprite_self _ _ _ (by decide)]
  rfl

/-- `app_init` does not write the invader pool. -/
theorem app_init_invaderer (inp : frame_input) (s : invaderers_app) (j : Nat)
    (hj : j < num_invaderers) :
    (app_init inp s).sprite_at (first_invaderer_sprite + j) =
      s.sprite_at (first_invaderer_sprite + j) := by
  have hj' : j < 91 := hj
  rw [app_init_sprite_at, app_init_loops_other _ _ _ _ (Or.inl (by
    show 6 + j < 97
    omega))]
  have hne : ∀ c : Nat, c < 6 ∨ 106 ≤ c → c ≠ first_invaderer_sprite + j := by
    intro c hc
    show c ≠ 6 + j
    omega
  iterate 10 rw [invaderers_app.sprite_at_update_sprite_ne _ _ _ _ (hne _ (by decide))]

theorem app_init_missile_slot (inp : frame_input) (s : invaderers_app) (i : Nat)
    (hi : i < num_missiles) :
    (app_init inp s).sprite_at (first_missile_sprite + i) =
      ⟨20, 0, 0.0625 * 0.5, 0.25 * 0.5,
        inp.get_texture_handle "assets/invaderers/missile.gif", false⟩ := by
  have hi' : i < 2 := hi
  rw [app_init_sprite_at,
    foldl_sprite_at_other (app_init_bomb _) (fun i k => k = first_bomb_sprite + i)
      (app_init_bomb_other _) _ _ _ (fun a ha => by
        have : a < 7 := List.mem_range.mp ha
        show ¬ 97 + i = 99 + a
        omega)]
  exact foldl_sprite_at_written (app_init_missile _)
    (fun i k => k = first_missile_sprite + i)
    (fun _ _ => ⟨20, 0, 0.0625 * 0.5, 0.25 * 0.5,
      inp.get_texture_handle "assets/invaderers/missile.gif", false⟩)
    (app_init_missile_other _) _
    (fun s a k ha hk => by
      have hk' : k = first_missile_sprite + a := hk
      rw [hk']
      exact app_init_missile_self _ s a (List.mem_range.mp ha))
    (List.nodup_range _)
    (fun a _ b _ hab k h1 h2 => by
      have h1' : k = 97 + a := h1
      have h2' : k = 97 + b := h2
      omega)
    _ i (List.mem_range.mpr hi) _ rfl

theorem app_init_bomb_slot (inp : frame_input) (s : invaderers_app) (i : Nat)
    (hi : i < num_bombs) :
    (app_init inp s).sprite_at (first_bomb_sprite + i) =
      ⟨20, 0, 0.0625 * 0.5, 0.25 * 0.5,
        inp.get_texture_handle "assets/invaderers/bomb.gif", false⟩ := by
  rw [app_init_sprite_at]
  exact foldl_sprite_at_written (app_init_bomb _)
    (fun i k => k = first_bomb_sprite + i)
    (fun _ _ => ⟨20, 0, 0.0625 * 0.5, 0.25 * 0.5,
      inp.get_texture_handle "assets/invaderers/bomb.gif", false⟩)
    (app_init_bomb_other _) _
    (fun s a k ha hk => by
      have hk' : k = first_bomb_sprite + a := hk
      rw [hk']
      exact app_init_bomb_self _ s a (List.mem_range.mp ha))
    (List.nodup_range _)
    (fun a _ b _ hab k h1 h2 => by
      have h1' : k = 99 + a := h1
      have h2' : k = 99 + b := h2
      omega)
    _ i (List.mem_range.mpr hi) _ rfl

/-! ## The grid that `initEnemies` writes -/

theorem grid_index_lt (i j : Nat) (hi : i < 14) (hj : j < 6) :
    first_invaderer_sprite + i + j * 14 < num_sprites := by
  show 6 + i + j * 14 < 110
  omega

theorem initEnemies_body_other (invaderer j : Nat) (s : invaderers_app) (i k : Nat)
    (hk : ¬ k = first_invaderer_sprite + i + j * 14) :
    (initEnemies_body invaderer j s i).sprite_at k = s.sprite_at k := by
  unfold initEnemies_body
  rw [invaderers_app.sprite_at_update_sprite_ne _ _ _ _ (Ne.symm hk)]

theorem initEnemies_body_self (invaderer j : Nat) (s : invaderers_app) (i : Nat)
    (hi : i < 14) (hj : j < 6) :
    (initEnemies_body invaderer j s i).sprite_at (first_invaderer_sprite + i + j * 14) =
      grid_invaderer invaderer i j := by
  unfold initEnemies_body
  rw [invaderers_app.sprite_at_update_sprite_self _ _ _ (grid_index_lt i j hi hj),
    sprite_init_eq]
  unfold grid_invaderer
  have h1 : ((i : ℚ) - (num_cols : ℚ) * 0.5) * 0.4 = ((i : ℚ) - 6.5) * 0.4 := by
    simp only [num_cols]
    norm_num
  have h2 : (2.75 : ℚ) - (j : ℚ) * 0.37 = 2.75 - 0.37 * (j : ℚ) := by ring
  have h3 : (0.25 : ℚ) * 0.5 = 0.125 := by norm_num
  rw [h1, h2, h3]

/-- One row of the grid: the inner loop of `initEnemies`. -/
theorem initEnemies_row_other (invaderer j : Nat) (s : invaderers_app) (k : Nat)
    (hk : ∀ i, i < 14 → ¬ k = first_invaderer_sprite + i + j * 14) :
    ((List.range 14).foldl (initEnemies_body invaderer j) s).sprite_at k = s.sprite_at k :=
  foldl_sprite_at_other (initEnemies_body invaderer j)
    (fun i k => k = first_invaderer_sprite + i + j * 14)
    (initEnemies_body_other invaderer j) _ s k (fun i hi => hk i (List.mem_range.mp hi))

theorem initEnemies_row_written (invaderer j : Nat) (s : invaderers_app) (i : Nat)
    (hi : i < 14) (hj : j < 6) :
    ((List.range 14).foldl (initEnemies_body invaderer j) s).sprite_at
      (first_invaderer_sprite + i + j * 14) = grid_invaderer invaderer i j :=
  foldl_sprite_at_written (initEnemies_body invaderer j)
    (fun i k => k = first_invaderer_sprite + i + j * 14)
    (fun i _ => grid_invaderer invaderer i j)
    (initEnemies_body_other invaderer j) _
    (fun s a k ha hk => by
      have hk' : k = first_invaderer_sprite + a + j * 14 := hk
      rw [hk']
      exact initEnemies_body_self invaderer j s a (List.mem_range.mp ha) hj)
    (List.nodup_range _)
    (fun a _ b _ hab k h1 h2 => by
      have h1' : k = 6 + a + j * 14 := h1
      have h2' : k = 6 + b + j * 14 := h2
      omega)
    s i (List.mem_range.mpr hi) _ rfl

/-- The two loops of `initEnemies` leave every sprite outside the grid as it was. -/
theorem initEnemies_loops_other (invaderer : Nat) (s : invaderers_app) (k : Nat)
    (hk : k < first_invaderer_sprite ∨ first_invaderer_sprite + 84 ≤ k) :
    ((List.range 6).foldl
      (fun s j => (List.range 14).foldl (initEnemies_body invaderer j) s) s).sprite_at k =
      s.sprite_at k := by
  have hk' : k < 6 ∨ 6 + 84 ≤ k := hk
  refine foldl_sprite_at_other
    (fun s j => (List.range 14).foldl (initEnemies_body invaderer j) s)
    (fun j k => ∃ i, i < 14 ∧ k = first_invaderer_sprite + i + j * 14)
    (fun s j k hn => initEnemies_row_other invaderer j s k
      (fun i hi e => hn ⟨i, hi, e⟩)) _ s k ?_
  rintro j hj ⟨i, hi, e⟩
  have hj' : j < 6 := List.mem_range.mp hj
  have e' : k = 6 + i + j * 14 := e
  omega

/-- The two loops of `initEnemies` leave the invader of column `i` and row `j` in the
slot `first_invaderer_sprite + i + j * 14`. -/
theorem initEnemies_loops_written (invaderer : Nat) (s : invaderers_app) (i j : Nat)
    (hi : i < 14) (hj : j < 6) :
    ((List.range 6).foldl
      (fun s j => (List.range 14).foldl (initEnemies_body invaderer j) s) s).sprite_at
      (first_invaderer_sprite + i + j * 14) = grid_invaderer invaderer i j := by
  have h := foldl_sprite_at_written
    (fun s j => (List.range 14).foldl (initEnemies_body invaderer j) s)
    (fun j k => ∃ i, i < 14 ∧ k = first_invaderer_sprite + i + j * 14)
    (fun j k => grid_invaderer invaderer (k - first_invaderer_sprite - j * 14) j)
    (fun s j k hn => initEnemies_row_other invaderer j s k
      (fun i hi e => hn ⟨i, hi, e⟩))
    (List.range 6)
    (fun s a k ha hk => by
      obtain ⟨c, hc, e⟩ := hk
      have e' : k = 6 + c + a * 14 := e
      have hc' : k - first_invaderer_sprite - a * 14 = c := by
        show k - 6 - a * 14 = c
        omega
      show ((List.range 14).foldl (initEnemies_body invaderer a) s).sprite_at k =
        grid_invaderer invaderer (k - first_invaderer_sprite - a * 14) a
      rw [hc', e]
      exact initEnemies_row_written invaderer a s c hc (List.mem_range.mp ha))
    (List.nodup_range _)
    (fun a ha b hb hab k h1 h2 => by
      obtain ⟨c, hc, e⟩ := h1
      obtain ⟨d, hd, e2⟩ := h2
      have e' : k = 6 + c + a * 14 := e
      have e2' : k = 6 + d + b * 14 := e2
      omega)
    s j (List.mem_range.mpr hj) (first_invaderer_sprite + i + j * 14) ⟨i, hi, rfl⟩
  rw [h]
  have : first_invaderer_sprite + i + j * 14 - first_invaderer_sprite - j * 14 = i := by
    show 6 + i + j * 14 - 6 - j * 14 = i
    omega
  show grid_invaderer invaderer
    (first_invaderer_sprite + i + j * 14 - first_invaderer_sprite - j * 14) j = _
  rw [this]

theorem initEnemies_reWave_false (inp : frame_input) (s : invaderers_app)
    (h : s.reWave = false) : initEnemies inp s = s := by
  unfold initEnemies
  simp [h]

theorem initEnemies_reWave_true (inp : frame_input) (s : invaderers_app)
    (h : s.reWave = true) :
    initEnemies inp s =
      (List.range 6).foldl
        (fun s j => (List.range 14).foldl
          (initEnemies_body (inp.get_texture_handle "assets/invaderers/invaderer.gif") j) s)
        { s with reWave := false } := by
  unfold initEnemies
  simp only []
  rw [if_pos h]

/-- The loops of `initEnemies` keep every member that is not a sprite. -/
theorem initEnemies_loops_keep {β : Type} (proj : invaderers_app → β)
    (hp : ∀ (s : invaderers_app) (k : Nat) (f : sprite → sprite),
      proj (s.update_sprite k f) = proj s)
    (invaderer : Nat) (s : invaderers_app) :
    proj ((List.range 6).foldl
      (fun s j => (List.range 14).foldl (initEnemies_body invaderer j) s) s) = proj s :=
  foldl_keeps _ proj (fun s j => foldl_keeps _ proj (fun s i => by
    unfold initEnemies_body
    exact hp _ _ _) _ s) _ s

/-! ## What `move_ship` writes -/

theorem move_ship_key_keeps {β : Type} (proj : invaderers_app → β)
    (hp : ∀ (s : invaderers_app) (k : Nat) (f : sprite → sprite),
      proj (s.update_sprite k f) = proj s)
    (s : invaderers_app) (dx dy : ℚ) (border : Nat) :
    proj (move_ship_key s dx dy border) = proj s := by
  unfold move_ship_key
  simp only []
  split
  · rw [hp, hp]
  · rw [hp]

/-- The function `move_ship` keeps every member that is not a sprite. -/
theorem move_ship_keeps {β : Type} (proj : invaderers_app → β)
    (hp : ∀ (s : invaderers_app) (k : Nat) (f : sprite → sprite),
      proj (s.update_sprite k f) = proj s)
    (inp : frame_input) (s : invaderers_app) : proj (move_ship inp s) = proj s := by
  have key : ∀ (b : Bool) (t : invaderers_app) (dx dy : ℚ) (border : Nat),
      proj (if b = true then move_ship_key t dx dy border else t) = proj t := by
    intro b t dx dy border
    split
    · exact move_ship_key_keeps proj hp _ _ _ _
    · rfl
  unfold move_ship
  simp only []
  rw [key, key, key, key]

theorem move_ship_key_sprite_at_other (s : invaderers_app) (dx dy : ℚ) (border k : Nat)
    (hk : k ≠ ship_sprite) : (move_ship_key s dx dy border).sprite_at k = s.sprite_at k := by
  unfold move_ship_key
  simp only []
  split
  · rw [invaderers_app.sprite_at_update_sprite_ne _ _ _ _ (Ne.symm hk),
      invaderers_app.sprite_at_update_sprite_ne _ _ _ _ (Ne.symm hk)]
  · rw [invaderers_app.sprite_at_update_sprite_ne _ _ _ _ (Ne.symm hk)]

/-- The function `move_ship` writes no sprite but the ship. -/
theorem move_ship_sprite_at_other (inp : frame_input) (s : invaderers_app) (k : Nat)
    (hk : k ≠ ship_sprite) : (move_ship inp s).sprite_at k = s.sprite_at k := by
  have key : ∀ (b : Bool) (t : invaderers_app) (dx dy : ℚ) (border : Nat),
      (if b = true then move_ship_key t dx dy border else t).sprite_at k = t.sprite_at k := by
    intro b t dx dy border
    split
    · exact move_ship_key_sprite_at_other _ _ _ _ _ hk
    · rfl
  unfold move_ship
  simp only []
  rw [key, key, key, key]

/-- C14: restart is a full reset. For every state with `game_over` set, a `simulate`
frame with the restart key (R) held and the continue key (Y) not held runs `app_init`:
it ends with `num_lives = 5`, `score = 0`, `live_invaderers = num_invaderers - 7 = 84`,
`game_over = false`, `loss = false`, `reWave = true`, `missiles_disabled = 0`,
`bombs_disabled = 50`, every missile slot and every bomb slot disabled, the ship at
`(0, -2.75)` and the pickup at `(0, 0)`; and in the following frame, whatever its input,
`initEnemies` writes the 84 invaders of the grid again, each enabled at its starting
position. -/
theorem restart_full_reset (inp : frame_input) (s : invaderers_app)
    (hgo : s.game_over = true) (hR : inp.key_R = true) (hY : inp.key_Y = false) :
    simulate inp s = app_init inp s ∧
    (simulate inp s).num_lives = 5 ∧ (simulate inp s).score = 0 ∧
    (simulate inp s).live_invaderers = (num_invaderers : Int) - 7 ∧
    (simulate inp s).live_invaderers = 84 ∧
    (simulate inp s).game_over = false ∧ (simulate inp s).loss = false ∧
    (simulate inp s).reWave = true ∧ (simulate inp s).missiles_disabled = 0 ∧
    (simulate inp s).bombs_disabled = 50 ∧
    (∀ i, i < num_missiles →
      ((simulate inp s).sprite_at (first_missile_sprite + i)).enabled = false) ∧
    (∀ i, i < num_bombs →
      ((simulate inp s).sprite_at (first_bomb_sprite + i)).enabled = false) ∧
    ((simulate inp s).sprite_at ship_sprite).x = 0 ∧
    ((simulate inp s).sprite_at ship_sprite).y = -2.75 ∧
    ((simulate inp s).sprite_at holyBanana_sprite).x = 0 ∧
    ((simulate inp s).sprite_at holyBanana_sprite).y = 0 ∧
    (∀ (inp' : frame_input) (i j : Nat), i < 14 → j < 6 →
      (initEnemies inp' (move_ship inp' (simulate inp s))).sprite_at
        (first_invaderer_sprite + i + j * 14) =
        grid_invaderer (inp'.get_texture_handle "assets/invaderers/invaderer.gif") i j) := by
  have e : simulate inp s = app_init inp s := by
    unfold simulate
    rw [if_pos hgo]
    simp [hY, hR, hgo]
  rw [e]
  refine ⟨rfl, rfl, rfl, rfl, rfl, rfl, rfl, rfl, rfl, rfl, ?_, ?_, ?_, ?_, ?_, ?_, ?_⟩
  · intro i hi
    rw [app_init_missile_slot inp s i hi]
  · intro i hi
    rw [app_init_bomb_slot inp s i hi]
  · rw [app_init_ship]
  · rw [app_init_ship]
  · rw [app_init_holyBanana]
    norm_num
  · rw [app_init_holyBanana]
    norm_num
  · intro inp' i j hi hj
    have hw : (move_ship inp' (app_init inp s)).reWave = true := by
      rw [move_ship_keeps (fun t => t.reWave) invaderers_app.update_sprite_reWave]
      rfl
    rw [initEnemies_reWave_true inp' _ hw]
    exact initEnemies_loops_written _ _ i j hi hj

/-- C14, the theorem at the lost round of the play with the key R held: the frame ends
with five lives, no score and 84 live invaders. -/
theorem restart_full_reset_witness :
    lost_state.game_over = true ∧ press_R.key_R = true ∧ press_R.key_Y = false ∧
    (simulate press_R lost_state).num_lives = 5 ∧
    (simulate press_R lost_state).score = 0 ∧
    (simulate press_R lost_state).live_invaderers = 84 ∧
    (simulate press_R lost_state).loss = false :=
  ⟨play_lost.1, rfl, rfl,
    (restart_full_reset press_R lost_state play_lost.1 rfl rfl).2.1,
    (restart_full_reset press_R lost_state play_lost.1 rfl rfl).2.2.1,
    (restart_full_reset press_R lost_state play_lost.1 rfl rfl).2.2.2.2.1,
    (restart_full_reset press_R lost_state play_lost.1 rfl rfl).2.2.2.2.2.2.1⟩

/-! ## A lower bound for `num_lives` -/

/-- One call of `move_bombs` takes at most `num_bombs = 7` lives. -/
theorem move_bombs_num_lives_bounds (s : invaderers_app) :
    s.num_lives - 7 ≤ (move_bombs s).num_lives ∧ (move_bombs s).num_lives ≤ s.num_lives := by
  obtain ⟨_, _, _, _, h⟩ := move_bombs_fold (List.range num_bombs) s
    (fun i hi => List.mem_range.mp hi) (List.nodup_range _)
  rw [← move_bombs_eq] at h
  have hc : (List.range num_bombs).countP (bomb_hits_ship s) ≤ 7 := by
    have := List.countP_le_length (bomb_hits_ship s) (l := List.range num_bombs)
    simpa using this
  rw [h]
  constructor <;> omega

/-- What the code keeps of the bound on `num_lives`: in every state reached from
`app_init` by `simulate` frames in none of which the continue key (Y) is held,
`num_lives` is at least `1 - num_bombs = -6`, and at least 1 while `game_over` is
false. -/
theorem num_lives_lower_bound (s : invaderers_app) (h : ReachableNoContinue s) :
    -6 ≤ s.num_lives ∧ (s.game_over = false → 1 ≤ s.num_lives) := by
  have key : -6 ≤ s.num_lives ∧
      (s.game_over = false → 1 ≤ s.num_lives ∧ 1 ≤ s.live_invaderers) := by
    induction h with
    | init inp s _ =>
      rw [(app_init_round inp s).2.2.1, (app_init_round inp s).2.2.2.1]
      exact ⟨by decide, fun _ => by decide⟩
    | frame inp s _ hY ih =>
      refine ⟨?_, simulate_playing_invariant inp s hY ih.2⟩
      cases hgo : s.game_over with
      | true =>
        cases hR : inp.key_R with
        | true =>
          rw [simulate_restart inp s hgo hY hR, (app_init_round inp s).2.2.1]
          decide
        | false =>
          rw [simulate_frozen inp s hgo hY hR]
          exact ih.1
      | false =>
        have hpre := same_round_before_missiles inp s
        rw [simulate_playing inp s hgo]
        obtain ⟨_, _, _, _, b5⟩ := initHolyBananas_round inp (move_bombs (move_missiles
          (fire_bombs inp (fire_missiles inp (initEnemies inp (move_ship inp s))))))
        have hb := (move_bombs_num_lives_bounds (move_missiles
          (fire_bombs inp (fire_missiles inp (initEnemies inp (move_ship inp s)))))).1
        rw [(move_missiles_loss _).2, hpre.2.1] at hb
        have h1 := (ih.2 hgo).1
        rw [b5]
        split <;> omega
  exact ⟨key.1, fun hgo => (key.2 hgo).1⟩

/-- C15: the code lets `num_lives` go negative. `on_hit_ship` takes a life whatever
`num_lives` is (it tests `--num_lives == 0` only, after the decrement), `move_bombs`
calls it for every bomb that collides with the ship, and `gameOverCondition` leaves
`num_lives` as it is. In frame 74 of the play two bombs overlap the ship, which has one
life left, and each takes a life: the state at the end of that frame is reachable and
has `num_lives = -1`. The frame with the continue key (Y) that follows leaves
`num_lives` as it is, so the game is in play again (`game_over` false) with
`num_lives = -1`. -/
theorem num_lives_goes_negative :
    (∀ t : invaderers_app, (on_hit_ship t).num_lives = t.num_lives - 1) ∧
    (∀ t : invaderers_app, (move_bombs t).num_lives =
      t.num_lives - ((List.range num_bombs).countP (bomb_hits_ship t) : Int)) ∧
    (∀ (inp : frame_input) (t : invaderers_app),
      (gameOverCondition inp t).num_lives = t.num_lives) ∧
    Reachable lost_state ∧ lost_state.num_lives = -1 ∧
    Reachable (simulate press_Y lost_state) ∧
    (simulate press_Y lost_state).game_over = false ∧
    (simulate press_Y lost_state).num_lives = -1 := by
  have e : simulate press_Y lost_state = gameOverCondition press_Y lost_state :=
    simulate_continue press_Y lost_state play_lost.1 rfl
  refine ⟨on_hit_ship_num_lives,
    fun t => (move_bombs_fold (List.range num_bombs) t
      (fun _ hi => List.mem_range.mp hi) (List.nodup_range _)).2.2.2.2,
    fun inp t => (gameOverCondition_round inp t).2.2.1,
    reachable_lost_state, play_lost.2.2.1,
    Reachable.frame press_Y lost_state reachable_lost_state, ?_, ?_⟩
  · rw [e]
    exact (gameOverCondition_round press_Y lost_state).1
  · rw [e, (gameOverCondition_round press_Y lost_state).2.2.1]
    exact play_lost.2.2.1

/-! ## The pickup -/

/-- The state that `initHolyBananas` returns when the ship collides with the pickup. -/
theorem initHolyBananas_pickup (inp : frame_input) (s : invaderers_app)
    (h : (s.sprite_at ship_sprite).collides_with (s.sprite_at holyBanana_sprite) = true) :
    initHolyBananas inp s =
      { s.update_sprite holyBanana_sprite
          (fun t => t.init (inp.get_texture_handle "assets/invaderers/holyBomb.gif")
            (pickup_x inp.xypoints (inp.rand % 10)) (pickup_y inp.xypoints (inp.rand % 10))
            0.25 0.25) with
        num_lives := s.num_lives + 1 } := by
  unfold initHolyBananas
  rw [if_pos h]
  have hk := Nat.mod_lt inp.rand (show 0 < 10 by decide)
  generalize inp.rand % 10 = k at hk ⊢
  interval_cases k <;> simp [pickup_x, pickup_y]

theorem initHolyBananas_no_pickup (inp : frame_input) (s : invaderers_app)
    (h : (s.sprite_at ship_sprite).collides_with (s.sprite_at holyBanana_sprite) = false) :
    initHolyBananas inp s = s := by
  unfold initHolyBananas
  rw [if_neg (by rw [h]; decide)]

/-- C16: the pickup grants exactly one life. When the ship collides with the pickup
sprite, `initHolyBananas` adds exactly 1 to `num_lives` and re-initialises the pickup:
enabled, of size 0.25 x 0.25 (half-extents 0.125), at the coordinates of row
`rand() % 10` of the coordinate table, each of them as it stands in the table or
negated (`pickup_x`, `pickup_y`), and every other sprite is as it was. When the ship
does not collide with the pickup the state is unchanged, `num_lives` and every sprite
included. In both cases `score`, `live_invaderers`, `game_over` and `loss` are
unchanged. -/
theorem pickup_grants_one_life (inp : frame_input) (s : invaderers_app) :
    ((s.sprite_at ship_sprite).collides_with (s.sprite_at holyBanana_sprite) = true →
      (initHolyBananas inp s).num_lives = s.num_lives + 1 ∧
      (initHolyBananas inp s).sprite_at holyBanana_sprite =
        ⟨pickup_x inp.xypoints (inp.rand % 10), pickup_y inp.xypoints (inp.rand % 10),
          0.125, 0.125, inp.get_texture_handle "assets/invaderers/holyBomb.gif", true⟩ ∧
      (pickup_x inp.xypoints (inp.rand % 10) = inp.xypoints (inp.rand % 10) 0 ∨
        pickup_x inp.xypoints (inp.rand % 10) = -inp.xypoints (inp.rand % 10) 0) ∧
      (pickup_y inp.xypoints (inp.rand % 10) = inp.xypoints (inp.rand % 10) 1 ∨
        pickup_y inp.xypoints (inp.rand % 10) = -inp.xypoints (inp.rand % 10) 1) ∧
      (∀ k, k ≠ holyBanana_sprite →
        (initHolyBananas inp s).sprite_at k = s.sprite_at k)) ∧
    ((s.sprite_at ship_sprite).collides_with (s.sprite_at holyBanana_sprite) = false →
      initHolyBananas inp s = s) ∧
    (initHolyBananas inp s).score = s.score ∧
    (initHolyBananas inp s).live_invaderers = s.live_invaderers ∧
    (initHolyBananas inp s).game_over = s.game_over ∧
    (initHolyBananas inp s).loss = s.loss := by
  refine ⟨fun h => ?_, initHolyBananas_no_pickup inp s, ?_⟩
  · rw [initHolyBananas_pickup inp s h]
    refine ⟨rfl, ?_, ?_, ?_, fun k hk => ?_⟩
    · show (s.update_sprite holyBanana_sprite _).sprite_at holyBanana_sprite = _
      rw [invaderers_app.sprite_at_update_sprite_self _ _ _ (by decide), sprite_init_eq]
      have h3 : (0.25 : ℚ) * 0.5 = 0.125 := by norm_num
      rw [h3]
    · unfold pickup_x
      split
      · right; ring
      · left; rfl
    · unfold pickup_y
      split
      · right; ring
      · left; rfl
    · show (s.update_sprite holyBanana_sprite _).sprite_at k = _
      rw [invaderers_app.sprite_at_update_sprite_ne _ _ _ _ (Ne.symm hk)]
  · cases h : (s.sprite_at ship_sprite).collides_with (s.sprite_at holyBanana_sprite) with
    | true =>
      rw [initHolyBananas_pickup inp s h]
      exact ⟨invaderers_app.update_sprite_score _ _ _,
        invaderers_app.update_sprite_live_invaderers _ _ _,
        invaderers_app.update_sprite_game_over _ _ _,
        invaderers_app.update_sprite_loss _ _ _⟩
    | false =>
      rw [initHolyBananas_no_pickup inp s h]
      exact ⟨rfl, rfl, rfl, rfl⟩

/-- The state `pickup_state`, evaluated: the ship overlaps the pickup and has five
lives; the frame `pickup_frame` has `rand() = 12`, so row 2 of its table, `(10, 10)`, is
used with its `x` negated. -/
theorem pickup_checked :
    (pickup_state.sprite_at ship_sprite).collides_with
      (pickup_state.sprite_at holyBanana_sprite) = true ∧
    pickup_state.num_lives = 5 ∧
    pickup_x pickup_frame.xypoints (pickup_frame.rand % 10) = -10 ∧
    pickup_y pickup_frame.xypoints (pickup_frame.rand % 10) = 10 := by
  decide!

/-- C16, the theorem at a state in which the ship overlaps the pickup: the call gives
the sixth life and moves the pickup to `(-10, 10)`. -/
theorem pickup_grants_one_life_witness :
    (pickup_state.sprite_at ship_sprite).collides_with
      (pickup_state.sprite_at holyBanana_sprite) = true ∧
    (initHolyBananas pickup_frame pickup_state).num_lives = 6 ∧
    (initHolyBananas pickup_frame pickup_state).sprite_at holyBanana_sprite =
      ⟨-10, 10, 0.125, 0.125, 1, true⟩ := by
  have h := (pickup_grants_one_life pickup_frame pickup_state).1 pickup_checked.1
  refine ⟨pickup_checked.1, ?_, ?_⟩
  · rw [h.1, pickup_checked.2.1]
    rfl
  · rw [h.2.1, pickup_checked.2.2.1, pickup_checked.2.2.2]
    rfl

/-! ## The missile scenario -/

theorem collides_with_eq_false (a b : sprite)
    (h : a.halfWidth + b.halfWidth ≤ |b.x - a.x| ∨ a.halfHeight + b.halfHeight ≤ |b.y - a.y|) :
    a.collides_with b = false := by
  have : ¬ a.collides_with b = true := by
    rw [collides_with_iff]
    rintro ⟨h1, h2⟩
    rcases h with h | h
    · exact absurd h1 (not_lt.mpr h)
    · exact absurd h2 (not_lt.mpr h)
  simpa using this

/-- The shot of the scenario: `fire_missiles` puts missile 0 in flight at
`(0, -2.25)`. -/
theorem missile_flight_start (inp : frame_input) (s : invaderers_app) (j : Nat)
    (h : missile_scenario inp s j) : missile_flight s 0 (fire_missiles inp s) := by
  obtain ⟨h1, h2, h3, h4, h5, h6, h7, h8, _⟩ := h
  obtain ⟨e1, _, e3, _, e5, e6, _⟩ := fire_missiles_spawn_effect inp s 0 h3 h4 h5 (by decide)
    (h6 0 (by decide)) (fun k hk => absurd hk (Nat.not_lt_zero k))
  refine ⟨by rw [e1], ?_, ?_, by rw [e1]; exact h7, by rw [e1]; exact h8, ?_,
    fun k hk => ?_, ?_, e5, e6⟩
  · rw [e1]
    show (s.sprite_at ship_sprite).x + 0 = 0
    rw [h1]
    norm_num
  · rw [e1]
    show (s.sprite_at ship_sprite).y + 0.5 = -2.25 + 0.3 * ((0 : Nat) : ℚ)
    rw [h2]
    norm_num
  · rw [e3 _ (by decide)]
    exact h6 1 (by decide)
  · exact e3 _ (Ne.symm (missile_index_ne_invaderer 0 k hk))
  · exact e3 _ (by decide)

/-- The missile of the scenario after its next advance. -/
theorem missile_flight_advanced (s : invaderers_app) (n : Nat) (u : invaderers_app)
    (hf : missile_flight s n u) :
    (advanced_missile u 0).x = 0 ∧
    (advanced_missile u 0).y = -2.25 + 0.3 * ((n + 1 : Nat) : ℚ) ∧
    (advanced_missile u 0).halfWidth = 0.03125 ∧
    (advanced_missile u 0).halfHeight = 0.125 ∧
    (advanced_missile u 0).enabled = true := by
  obtain ⟨f1, f2, f3, f4, f5, _⟩ := hf
  unfold advanced_missile sprite.translate missile_speed
  refine ⟨?_, ?_, f4, f5, f1⟩
  · show (u.sprite_at (first_missile_sprite + 0)).x + 0 = 0
    rw [f2]
    norm_num
  · show (u.sprite_at (first_missile_sprite + 0)).y + 0.3 = _
    rw [f3]
    push_cast
    ring

/-- In the scenario the advanced missile does not reach the top border on any of its
first nine advances. -/
theorem missile_flight_border (inp : frame_input) (s : invaderers_app) (j n : Nat)
    (u : invaderers_app) (h : missile_scenario inp s j) (hf : missile_flight s n u)
    (hn : n ≤ 8) :
    (advanced_missile u 0).collides_with (u.sprite_at (first_border_sprite + 1)) = false := by
  obtain ⟨_, a2, _, a4, _⟩ := missile_flight_advanced s n u hf
  have hb := hf.2.2.2.2.2.2.2.1
  obtain ⟨_, _, _, _, _, _, _, _, _, _, _, _, _, _, _, b1, b2⟩ := h
  apply collides_with_eq_false
  right
  rw [hb, b1, b2, a2, a4]
  have hn' : (n : ℚ) ≤ 8 := by exact_mod_cast hn
  push_cast
  rw [abs_of_nonneg (by linarith)]
  linarith

/-- In the scenario the advanced missile overlaps the invader on its ninth advance and
on no earlier one. -/
theorem missile_flight_invaderer (inp : frame_input) (s : invaderers_app) (j n : Nat)
    (u : invaderers_app) (h : missile_scenario inp s j) (hf : missile_flight s n u) :
    (n < 8 →
      (advanced_missile u 0).collides_with (u.sprite_at (first_invaderer_sprite + j)) =
        false) ∧
    (n = 8 →
      (advanced_missile u 0).collides_with (u.sprite_at (first_invaderer_sprite + j)) =
        true) := by
  obtain ⟨a1, a2, a3, a4, _⟩ := missile_flight_advanced s n u hf
  obtain ⟨_, _, _, _, _, _, _, _, hj, _, c1, c2, c3, c4, _⟩ := h
  have hi := hf.2.2.2.2.2.2.1 j hj
  constructor
  · intro hn
    apply collides_with_eq_false
    right
    rw [hi, c2, c4, a2, a4]
    have hn' : (n : ℚ) ≤ 7 := by exact_mod_cast Nat.lt_succ_iff.mp hn
    push_cast
    rw [abs_of_nonneg (by linarith)]
    linarith
  · intro hn
    rw [collides_with_iff, hi, c1, c2, c3, c4, a1, a2, a3, a4, hn]
    norm_num [abs_lt]

/-- The loop test of `move_missiles` in the scenario: no invader is hit on the first
eight advances, and invader `j` is the one hit on the ninth. -/
theorem missile_flight_scan (inp : frame_input) (s : invaderers_app) (j n : Nat)
    (u : invaderers_app) (h : missile_scenario inp s j) (hf : missile_flight s n u) :
    (n < 8 →
      first_index (invaderer_hit u (advanced_missile u 0)) 0 num_invaderers = none) ∧
    (n = 8 →
      first_index (invaderer_hit u (advanced_missile u 0)) 0 num_invaderers = some j) := by
  have hj : j < num_invaderers := h.2.2.2.2.2.2.2.2.1
  have hen : (s.sprite_at (first_invaderer_sprite + j)).enabled = true :=
    h.2.2.2.2.2.2.2.2.2.1
  have hothers : ∀ k, k < num_invaderers → k ≠ j →
      invaderer_hit u (advanced_missile u 0) k = false := by
    intro k hk hkj
    unfold invaderer_hit
    rw [hf.2.2.2.2.2.2.1 k hk, h.2.2.2.2.2.2.2.2.2.2.2.2.2.2.1 k hk hkj]
    rfl
  obtain ⟨c1, c2⟩ := missile_flight_invaderer inp s j n u h hf
  constructor
  · intro hn
    rw [first_index_eq_none]
    intro k _ hk
    have hk' : k < num_invaderers := by omega
    by_cases hkj : k = j
    · unfold invaderer_hit
      rw [hkj, c1 hn]
      simp
    · exact hothers k hk' hkj
  · intro hn
    rw [first_index_eq_some]
    refine ⟨Nat.zero_le _, by omega, ?_, fun k _ hk => hothers k (by omega) (by omega)⟩
    unfold invaderer_hit
    rw [c2 hn, hf.2.2.2.2.2.2.1 j hj, hen]
    rfl

/-- One call of `move_missiles` during the flight: the missile advances by 0.3 and
nothing else changes. -/
theorem missile_flight_step (inp : frame_input) (s : invaderers_app) (j n : Nat)
    (u : invaderers_app) (h : missile_scenario inp s j) (hf : missile_flight s n u)
    (hn : n < 8) : missile_flight s (n + 1) (move_missiles u) := by
  have hscan := (missile_flight_scan inp s j n u h hf).1 hn
  have hborder := missile_flight_border inp s j n u h hf (by omega)
  obtain ⟨a1, a2, a3, a4, a5⟩ := missile_flight_advanced s n u hf
  have he : (u.sprite_at (first_missile_sprite + 0)).enabled = true := hf.1
  have hm0 : (move_missiles_body u 0).sprite_at (first_missile_sprite + 0) =
      advanced_missile u 0 := by
    rw [move_missiles_body_miss_missile u 0 (by decide) he hscan, hborder]
    rfl
  have hother : ∀ k, k ≠ first_missile_sprite + 0 →
      (move_missiles_body u 0).sprite_at k = u.sprite_at k :=
    fun k hk => move_missiles_body_miss_sprite_at u 0 k (by decide) hk he hscan
  have hm1 : ((move_missiles_body u 0).sprite_at (first_missile_sprite + 1)).enabled =
      false := by
    rw [hother _ (by decide)]
    exact hf.2.2.2.2.2.1
  have hc := move_missiles_body_miss_counters u 0 (by decide) he hscan
  rw [move_missiles_eq, move_missiles_body_disabled _ 1 hm1]
  refine ⟨by rw [hm0]; exact a5, by rw [hm0]; exact a1, by rw [hm0]; exact a2,
    by rw [hm0]; exact a3, by rw [hm0]; exact a4, hm1, fun k hk => ?_, ?_,
    hc.1.trans hf.2.2.2.2.2.2.2.2.1, hc.2.1.trans hf.2.2.2.2.2.2.2.2.2⟩
  · rw [hother _ (Ne.symm (missile_index_ne_invaderer 0 k hk))]
    exact hf.2.2.2.2.2.2.1 k hk
  · rw [hother _ (by decide)]
    exact hf.2.2.2.2.2.2.2.1

/-- The flight of the missile of the scenario through its first eight advances. -/
theorem missile_flight_calls (inp : frame_input) (s : invaderers_app) (j n : Nat)
    (h : missile_scenario inp s j) (hn : n ≤ 8) :
    missile_flight s n (move_missiles_calls n (fire_missiles inp s)) := by
  induction n with
  | zero => exact missile_flight_start inp s j h
  | succ n ih =>
    exact missile_flight_step inp s j n _ h (ih (by omega)) (by omega)

/-- The ninth call of `move_missiles` in the scenario registers the hit. -/
theorem missile_flight_hit (inp : frame_input) (s : invaderers_app) (j : Nat)
    (u : invaderers_app) (h : missile_scenario inp s j) (hf : missile_flight s 8 u) :
    ((move_missiles u).sprite_at (first_missile_sprite + 0)).enabled = false ∧
    ((move_missiles u).sprite_at (first_invaderer_sprite + j)).enabled = false ∧
    (move_missiles u).score = s.score + 1 ∧
    (move_missiles u).live_invaderers = s.live_invaderers - 1 := by
  have hj : j < num_invaderers := h.2.2.2.2.2.2.2.2.1
  have hscan := (missile_flight_scan inp s j 8 u h hf).2 rfl
  have he : (u.sprite_at (first_missile_sprite + 0)).enabled = true := hf.1
  have hm1 : ((move_missiles_body u 0).sprite_at (first_missile_sprite + 1)).enabled =
      false := by
    rw [move_missiles_body_other_missile u 0 1 (by decide) (by decide)]
    exact hf.2.2.2.2.2.1
  have hc := move_missiles_body_hit_counters u 0 j (by decide) he hscan
  rw [move_missiles_eq, move_missiles_body_disabled _ 1 hm1]
  refine ⟨?_, ?_, hc.1.trans (by rw [hf.2.2.2.2.2.2.2.2.1]),
    hc.2.1.trans (by rw [hf.2.2.2.2.2.2.2.2.2])⟩
  · rw [move_missiles_body_hit_missile u 0 j 0 (by decide) he hscan, if_pos rfl]
    rfl
  · rw [move_missiles_body_hit_invaderer u 0 j j (by decide) hj he hscan, if_pos rfl]
    rfl

/-- C17: the missile scenario. With the ship at `(0, -2.75)`, a permitted fire input,
both missile slots free, a single enabled invader `j` of size 0.25 x 0.25 at `(0, 0.5)`
and the top border in its place, `fire_missiles` spawns missile 0 at `(0, -2.25)`. After
`n <= 8` calls of `move_missiles` the missile is enabled at `(0, -2.25 + 0.3 * n)`, the
invader is enabled and the counters are unchanged; none of the first eight advances
overlaps the invader and none of the first nine overlaps the top border; the ninth
advance takes the missile to `y = 0.45`, where it overlaps the invader; and after the
ninth call the missile and the invader are disabled, `score` is one more and
`live_invaderers` one less. -/
theorem missile_scenario_hit (inp : frame_input) (s : invaderers_app) (j : Nat)
    (h : missile_scenario inp s j) :
    ((fire_missiles inp s).sprite_at (first_missile_sprite + 0)).x = 0 ∧
    ((fire_missiles inp s).sprite_at (first_missile_sprite + 0)).y = -2.25 ∧
    ((fire_missiles inp s).sprite_at (first_missile_sprite + 0)).enabled = true ∧
    (∀ n, n ≤ 8 →
      ((move_missiles_calls n (fire_missiles inp s)).sprite_at
        (first_missile_sprite + 0)).enabled = true ∧
      ((move_missiles_calls n (fire_missiles inp s)).sprite_at
        (first_missile_sprite + 0)).x = 0 ∧
      ((move_missiles_calls n (fire_missiles inp s)).sprite_at
        (first_missile_sprite + 0)).y = -2.25 + 0.3 * (n : ℚ) ∧
      ((move_missiles_calls n (fire_missiles inp s)).sprite_at
        (first_invaderer_sprite + j)).enabled = true ∧
      (move_missiles_calls n (fire_missiles inp s)).score = s.score ∧
      (move_missiles_calls n (fire_missiles inp s)).live_invaderers = s.live_invaderers ∧
      (advanced_missile (move_missiles_calls n (fire_missiles inp s)) 0).collides_with
        ((move_missiles_calls n (fire_missiles inp s)).sprite_at
          (first_border_sprite + 1)) = false) ∧
    (∀ n, n < 8 →
      (advanced_missile (move_missiles_calls n (fire_missiles inp s)) 0).collides_with
        ((move_missiles_calls n (fire_missiles inp s)).sprite_at
          (first_invaderer_sprite + j)) = false) ∧
    (advanced_missile (move_missiles_calls 8 (fire_missiles inp s)) 0).y = 0.45 ∧
    (advanced_missile (move_missiles_calls 8 (fire_missiles inp s)) 0).collides_with
      ((move_missiles_calls 8 (fire_missiles inp s)).sprite_at
        (first_invaderer_sprite + j)) = true ∧
    ((move_missiles_calls 9 (fire_missiles inp s)).sprite_at
      (first_missile_sprite + 0)).enabled = false ∧
    ((move_missiles_calls 9 (fire_missiles inp s)).sprite_at
      (first_invaderer_sprite + j)).enabled = false ∧
    (move_missiles_calls 9 (fire_missiles inp s)).score = s.score + 1 ∧
    (move_missiles_calls 9 (fire_missiles inp s)).live_invaderers =
      s.live_invaderers - 1 := by
  have hj : j < num_invaderers := h.2.2.2.2.2.2.2.2.1
  have hen : (s.sprite_at (first_invaderer_sprite + j)).enabled = true :=
    h.2.2.2.2.2.2.2.2.2.1
  have h0 := missile_flight_start inp s j h
  have h8 := missile_flight_calls inp s j 8 h (le_refl _)
  refine ⟨h0.2.1, ?_, h0.1, fun n hn => ?_, fun n hn => ?_, ?_, ?_,
    missile_flight_hit inp s j _ h h8⟩
  · rw [h0.2.2.1]
    norm_num
  · have hf := missile_flight_calls inp s j n h hn
    refine ⟨hf.1, hf.2.1, hf.2.2.1, ?_, hf.2.2.2.2.2.2.2.2.1, hf.2.2.2.2.2.2.2.2.2,
      missile_flight_border inp s j n _ h hf hn⟩
    rw [hf.2.2.2.2.2.2.1 j hj]
    exact hen
  · exact (missile_flight_invaderer inp s j n _ h
      (missile_flight_calls inp s j n h (by omega))).1 hn
  · rw [(missile_flight_advanced s 8 _ h8).2.1]
    norm_num
  · exact (missile_flight_invaderer inp s j 8 _ h h8).2 rfl

/-! ## The bomb scenario -/

theorem bomb_flight_start (s : invaderers_app) (i : Nat) (h : bomb_scenario s i) :
    bomb_flight s i 0 s := by
  obtain ⟨_, _, _, _, _, h6, h7, h8, h9, _, h11, _⟩ := h
  refine ⟨h6, rfl, ?_, h8, h9, h11, rfl, rfl, rfl⟩
  rw [h7]
  norm_num

/-- The bomb of the scenario after its next advance. -/
theorem bomb_flight_advanced (s : invaderers_app) (i n : Nat) (u : invaderers_app)
    (hf : bomb_flight s i n u) :
    (advanced_bomb u i).x = (s.sprite_at (first_bomb_sprite + i)).x ∧
    (advanced_bomb u i).y = 1.0 - 0.2 * ((n + 1 : Nat) : ℚ) ∧
    (advanced_bomb u i).halfWidth = 0.03125 ∧
    (advanced_bomb u i).halfHeight = 0.125 ∧
    (advanced_bomb u i).enabled = true := by
  obtain ⟨f1, f2, f3, f4, f5, _⟩ := hf
  unfold advanced_bomb sprite.translate bomb_speed
  refine ⟨?_, ?_, f4, f5, f1⟩
  · show (u.sprite_at (first_bomb_sprite + i)).x + 0 = _
    rw [f2]
    norm_num
  · show (u.sprite_at (first_bomb_sprite + i)).y + -0.2 = _
    rw [f3]
    push_cast
    ring

/-- In the scenario the advanced bomb overlaps the ship on its 18th advance and on no
earlier one. -/
theorem bomb_flight_ship (s : invaderers_app) (i n : Nat) (u : invaderers_app)
    (h : bomb_scenario s i) (hf : bomb_flight s i n u) :
    (n < 17 → (advanced_bomb u i).collides_with (u.sprite_at ship_sprite) = false) ∧
    (n = 17 → (advanced_bomb u i).collides_with (u.sprite_at ship_sprite) = true) := by
  obtain ⟨a1, a2, a3, a4, _⟩ := bomb_flight_advanced s i n u hf
  obtain ⟨h1, h2, h3, h4, _, _, _, h8, _, h10, _⟩ := h
  have hs := hf.2.2.2.2.2.2.1
  constructor
  · intro hn
    apply collides_with_eq_false
    right
    rw [hs, h2, h4, a2, a4]
    have hn' : (n : ℚ) ≤ 16 := by exact_mod_cast Nat.lt_succ_iff.mp hn
    push_cast
    rw [abs_of_nonpos (by linarith)]
    linarith
  · intro hn
    rw [collides_with_iff, hs, a1, a2, a3, a4, h2, h4, hn]
    rw [h8] at h10
    refine ⟨h10, ?_⟩
    norm_num [abs_lt]

/-- In the scenario the advanced bomb does not reach the bottom border on any of its
first 18 advances. -/
theorem bomb_flight_border (s : invaderers_app) (i n : Nat) (u : invaderers_app)
    (h : bomb_scenario s i) (hf : bomb_flight s i n u) (hn : n ≤ 17) :
    (advanced_bomb u i).collides_with (u.sprite_at (first_border_sprite + 0)) = false := by
  obtain ⟨_, a2, _, a4, _⟩ := bomb_flight_advanced s i n u hf
  obtain ⟨_, _, _, _, _, _, _, _, _, _, _, b1, b2⟩ := h
  have hb := hf.2.2.2.2.2.2.2.1
  apply collides_with_eq_false
  right
  rw [hb, b1, b2, a2, a4]
  have hn' : (n : ℚ) ≤ 17 := by exact_mod_cast hn
  push_cast
  rw [abs_of_nonpos (by linarith)]
  linarith

/-- The loop test of `move_bombs` in the scenario, for all bombs. -/
theorem bomb_flight_hits (s : invaderers_app) (i n : Nat) (u : invaderers_app)
    (h : bomb_scenario s i) (hf : bomb_flight s i n u) :
    (n < 17 → (List.range num_bombs).countP (bomb_hits_ship u) = 0) ∧
    (n = 17 → (List.range num_bombs).countP (bomb_hits_ship u) = 1) := by
  have hi : i < num_bombs := h.2.2.2.2.1
  have hothers : ∀ k, k < num_bombs → k ≠ i → bomb_hits_ship u k = false := by
    intro k hk hki
    unfold bomb_hits_ship
    rw [hf.2.2.2.2.2.1 k hk hki]
    rfl
  obtain ⟨c1, c2⟩ := bomb_flight_ship s i n u h hf
  constructor
  · intro hn
    apply countP_range_eq_zero
    intro k hk
    by_cases hki : k = i
    · unfold bomb_hits_ship
      rw [hki, c1 hn]
      simp
    · exact hothers k hk hki
  · intro hn
    apply countP_range_eq_one _ _ i hi
    intro k hk
    constructor
    · intro hh
      by_contra hki
      rw [hothers k hk hki] at hh
      exact absurd hh (by decide)
    · intro hki
      unfold bomb_hits_ship
      rw [hki, c2 hn, hf.1]
      rfl

/-- One call of `move_bombs` during the fall: the bomb advances by 0.2 and nothing else
of the scenario changes. -/
theorem bomb_flight_step (s : invaderers_app) (i n : Nat) (u : invaderers_app)
    (h : bomb_scenario s i) (hf : bomb_flight s i n u) (hn : n < 17) :
    bomb_flight s i (n + 1) (move_bombs u) := by
  have hi : i < num_bombs := h.2.2.2.2.1
  obtain ⟨e1, e2, _, e4, e5⟩ := move_bombs_fold (List.range num_bombs) u
    (fun k hk => List.mem_range.mp hk) (List.nodup_range _)
  rw [← move_bombs_eq] at e1 e2 e4 e5
  obtain ⟨a1, a2, a3, a4, a5⟩ := bomb_flight_advanced s i n u hf
  have hship := (bomb_flight_ship s i n u h hf).1 hn
  have hborder := bomb_flight_border s i n u h hf (by omega)
  have hb : (move_bombs u).sprite_at (first_bomb_sprite + i) = advanced_bomb u i := by
    rw [e4 i (List.mem_range.mpr hi), bomb_after, if_pos hf.1,
      if_neg (by rw [hship]; decide), if_neg (by rw [hborder]; decide)]
  refine ⟨by rw [hb]; exact a5, by rw [hb]; exact a1, by rw [hb]; exact a2,
    by rw [hb]; exact a3, by rw [hb]; exact a4, fun k hk hki => ?_,
    e1.trans hf.2.2.2.2.2.2.1, e2.trans hf.2.2.2.2.2.2.2.1, ?_⟩
  · rw [e4 k (List.mem_range.mpr hk), bomb_after,
      if_neg (by rw [hf.2.2.2.2.2.1 k hk hki]; decide)]
    exact hf.2.2.2.2.2.1 k hk hki
  · rw [e5, (bomb_flight_hits s i n u h hf).1 hn, hf.2.2.2.2.2.2.2.2]
    simp

/-- The fall of the bomb of the scenario through its first 17 advances. -/
theorem bomb_flight_calls (s : invaderers_app) (i n : Nat) (h : bomb_scenario s i)
    (hn : n ≤ 17) : bomb_flight s i n (move_bombs_calls n s) := by
  induction n with
  | zero => exact bomb_flight_start s i h
  | succ n ih => exact bomb_flight_step s i n _ h (ih (by omega)) (by omega)

/-- The 18th call of `move_bombs` in the scenario registers the hit. -/
theorem bomb_flight_hit (s : invaderers_app) (i : Nat) (u : invaderers_app)
    (h : bomb_scenario s i) (hf : bomb_flight s i 17 u) :
    ((move_bombs u).sprite_at (first_bomb_sprite + i)).enabled = false ∧
    (move_bombs u).num_lives = s.num_lives - 1 := by
  have hi : i < num_bombs := h.2.2.2.2.1
  obtain ⟨_, _, _, e4, e5⟩ := move_bombs_fold (List.range num_bombs) u
    (fun k hk => List.mem_range.mp hk) (List.nodup_range _)
  rw [← move_bombs_eq] at e4 e5
  have hship := (bomb_flight_ship s i 17 u h hf).2 rfl
  constructor
  · rw [e4 i (List.mem_range.mpr hi), bomb_after, if_pos hf.1, if_pos hship]
    rfl
  · rw [e5, (bomb_flight_hits s i 17 u h hf).2 rfl, hf.2.2.2.2.2.2.2.2]
    simp

/-- C18: the bomb scenario, with its exact count of calls. For an enabled bomb of size
0.0625 x 0.25 at the height 1.0 that horizontally overlaps a stationary ship at
`(0, -2.75)` of size 0.25 x 0.25, with no other bomb in flight: the count
`ceil((1.0 - (-2.75) - 0.25) / 0.2)` is 18; after `n <= 17` calls of `move_bombs` the bomb
is enabled at the height `1.0 - 0.2 * n` and `num_lives` is unchanged; none of the first
17 advances overlaps the ship and none of the first 18 overlaps the bottom border; the
18th advance, to the height -2.6, overlaps the ship; and after the 18th call the bomb is
disabled and `num_lives` is one less. -/
theorem bomb_scenario_hit (s : invaderers_app) (i : Nat) (h : bomb_scenario s i) :
    Int.ceil (((1.0 : ℚ) - (-2.75) - 0.25) / bomb_speed) = 18 ∧
    (∀ n, n ≤ 17 →
      ((move_bombs_calls n s).sprite_at (first_bomb_sprite + i)).enabled = true ∧
      ((move_bombs_calls n s).sprite_at (first_bomb_sprite + i)).y = 1.0 - 0.2 * (n : ℚ) ∧
      (move_bombs_calls n s).num_lives = s.num_lives ∧
      (advanced_bomb (move_bombs_calls n s) i).collides_with
        ((move_bombs_calls n s).sprite_at (first_border_sprite + 0)) = false) ∧
    (∀ n, n < 17 →
      (advanced_bomb (move_bombs_calls n s) i).collides_with
        ((move_bombs_calls n s).sprite_at ship_sprite) = false) ∧
    (advanced_bomb (move_bombs_calls 17 s) i).y = -2.6 ∧
    (advanced_bomb (move_bombs_calls 17 s) i).collides_with
      ((move_bombs_calls 17 s).sprite_at ship_sprite) = true ∧
    ((move_bombs_calls 18 s).sprite_at (first_bomb_sprite + i)).enabled = false ∧
    (move_bombs_calls 18 s).num_lives = s.num_lives - 1 := by
  have h17 := bomb_flight_calls s i 17 h (le_refl _)
  refine ⟨?_, fun n hn => ?_, fun n hn => ?_, ?_, ?_, bomb_flight_hit s i _ h h17⟩
  · rw [Int.ceil_eq_iff]
    unfold bomb_speed
    norm_num
  · have hf := bomb_flight_calls s i n h hn
    exact ⟨hf.1, hf.2.2.1, hf.2.2.2.2.2.2.2.2, bomb_flight_border s i n _ h hf hn⟩
  · exact (bomb_flight_ship s i n _ h (bomb_flight_calls s i n h (by omega))).1 hn
  · rw [(bomb_flight_advanced s i 17 _ h17).2.1]
    norm_num
  · exact (bomb_flight_ship s i 17 _ h h17).2 rfl

/-- The state `missile_scenario_state` is one of the missile scenario, with no score
and 84 live invaders on the counter. -/
theorem missile_scenario_checked :
    missile_scenario fire missile_scenario_state 0 ∧ missile_scenario_state.score = 0 ∧
    missile_scenario_state.live_invaderers = 84 := by
  unfold missile_scenario
  decide!

/-- C17, the theorem at a state of the scenario with the invader in slot 0: after the
ninth call of `move_missiles` the missile and the invader are disabled, the score is 1
and 83 invaders are left on the counter. -/
theorem missile_scenario_hit_witness :
    missile_scenario fire missile_scenario_state 0 ∧
    ((move_missiles_calls 9 (fire_missiles fire missile_scenario_state)).sprite_at
      (first_missile_sprite + 0)).enabled = false ∧
    ((move_missiles_calls 9 (fire_missiles fire missile_scenario_state)).sprite_at
      (first_invaderer_sprite + 0)).enabled = false ∧
    (move_missiles_calls 9 (fire_missiles fire missile_scenario_state)).score = 1 ∧
    (move_missiles_calls 9 (fire_missiles fire missile_scenario_state)).live_invaderers =
      83 := by
  have h := missile_scenario_hit fire missile_scenario_state 0 missile_scenario_checked.1
  refine ⟨missile_scenario_checked.1, h.2.2.2.2.2.2.2.1, h.2.2.2.2.2.2.2.2.1, ?_, ?_⟩
  · rw [h.2.2.2.2.2.2.2.2.2.1, missile_scenario_checked.2.1]
    rfl
  · rw [h.2.2.2.2.2.2.2.2.2.2, missile_scenario_checked.2.2]
    rfl

/-- The state `bomb_scenario_state` is one of the bomb scenario, with five lives. -/
theorem bomb_scenario_checked :
    bomb_scenario bomb_scenario_state 0 ∧ bomb_scenario_state.num_lives = 5 := by
  unfold bomb_scenario
  decide!

/-- C18, the theorem at a state of the scenario with the bomb in slot 0: after the
18th call of `move_bombs` the bomb is disabled and four of the five lives are left. -/
theorem bomb_scenario_hit_witness :
    bomb_scenario bomb_scenario_state 0 ∧
    ((move_bombs_calls 18 bomb_scenario_state).sprite_at
      (first_bomb_sprite + 0)).enabled = false ∧
    (move_bombs_calls 18 bomb_scenario_state).num_lives = 4 := by
  have h := bomb_scenario_hit bomb_scenario_state 0 bomb_scenario_checked.1
  refine ⟨bomb_scenario_checked.1, h.2.2.2.2.2.1, ?_⟩
  rw [h.2.2.2.2.2.2, bomb_scenario_checked.2]
  rfl

/-! ## The invader pool through the phases of a frame -/

theorem pool_kept_refl (s : invaderers_app) : pool_kept s s := ⟨fun _ _ => rfl, rfl, rfl⟩

theorem pool_kept_trans {s t u : invaderers_app} (h : pool_kept s t) (h' : pool_kept t u) :
    pool_kept s u :=
  ⟨fun k hk => (h'.1 k hk).trans (h.1 k hk), h'.2.1.trans h.2.1, h'.2.2.trans h.2.2⟩

/-- A write to a sprite outside the invader pool keeps the pool. -/
theorem pool_kept_update_sprite (s : invaderers_app) (c : Nat) (f : sprite → sprite)
    (hc : c < first_invaderer_sprite ∨ first_missile_sprite ≤ c) :
    pool_kept s (s.update_sprite c f) := by
  refine ⟨fun k hk => ?_, invaderers_app.update_sprite_reWave s c f,
    invaderers_app.update_sprite_live_invaderers s c f⟩
  apply invaderers_app.sprite_at_update_sprite_ne
  have hk' : k < 91 := hk
  have hc' : c < 6 ∨ 97 ≤ c := hc
  show c ≠ 6 + k
  omega

theorem pool_kept_move_ship (inp : frame_input) (s : invaderers_app) :
    pool_kept s (move_ship inp s) :=
  ⟨fun k _ => move_ship_sprite_at_other inp s _ (by
      show 6 + k ≠ 0
      omega),
    move_ship_keeps (fun t => t.reWave) invaderers_app.update_sprite_reWave inp s,
    move_ship_keeps (fun t => t.live_invaderers)
      invaderers_app.update_sprite_live_invaderers inp s⟩

theorem pool_kept_fire_missiles (inp : frame_input) (s : invaderers_app) :
    pool_kept s (fire_missiles inp s) := by
  unfold fire_missiles
  split
  · exact pool_kept_refl s
  · split
    · split
      · simp only [get_sound_source]
        exact pool_kept_trans (pool_kept_update_sprite _ _ _ (Or.inr (Nat.le_add_right _ _)))
          (pool_kept_update_sprite _ _ _ (Or.inr (Nat.le_add_right _ _)))
      · exact pool_kept_refl s
    · exact pool_kept_refl s

theorem pool_kept_fire_bombs (inp : frame_input) (s : invaderers_app) :
    pool_kept s (fire_bombs inp s) := by
  have hb : ∀ i : Nat, first_missile_sprite ≤ first_bomb_sprite + i := by
    intro i
    show 97 ≤ 99 + i
    omega
  unfold fire_bombs
  split
  · exact pool_kept_refl s
  · simp only []
    split
    · split
      · simp only [get_sound_source]
        exact pool_kept_trans (pool_kept_update_sprite _ _ _ (Or.inr (hb _)))
          (pool_kept_update_sprite _ _ _ (Or.inr (hb _)))
      · exact pool_kept_refl s
    · exact pool_kept_refl s

theorem pool_kept_on_hit_ship (s : invaderers_app) : pool_kept s (on_hit_ship s) := by
  unfold on_hit_ship
  simp only [get_sound_source]
  split
  · refine pool_kept_trans (t := { s with
        cur_source := (s.cur_source + 1) % 2 ^ 32
        num_lives := s.num_lives - 1
        game_over := true
        loss := true }) ⟨fun _ _ => rfl, rfl, rfl⟩ ?_
    exact pool_kept_trans (pool_kept_update_sprite _ _ _ (Or.inl (by decide)))
      (pool_kept_update_sprite _ _ _ (Or.inl (by decide)))
  · exact ⟨fun _ _ => rfl, rfl, rfl⟩

theorem pool_kept_move_bombs_body (s : invaderers_app) (i : Nat) :
    pool_kept s (move_bombs_body s i) := by
  have hb : first_missile_sprite ≤ first_bomb_sprite + i := by
    show 97 ≤ 99 + i
    omega
  have h3 : ∀ t : invaderers_app, pool_kept t
      (((t.update_sprite (first_bomb_sprite + i) (fun t => t.translate 0 (-bomb_speed))
        ).update_sprite (first_bomb_sprite + i) (fun t => t.set_enabled false)
        ).update_sprite (first_bomb_sprite + i) (fun t => t.translate 20 0)) :=
    fun t => pool_kept_trans (pool_kept_update_sprite _ _ _ (Or.inr hb))
      (pool_kept_trans (pool_kept_update_sprite _ _ _ (Or.inr hb))
        (pool_kept_update_sprite _ _ _ (Or.inr hb)))
  unfold move_bombs_body
  split
  · simp only []
    split
    · refine pool_kept_trans (h3 s) (pool_kept_trans (t := { ((s.update_sprite
          (first_bomb_sprite + i) (fun t => t.translate 0 (-bomb_speed))).update_sprite
          (first_bomb_sprite + i) (fun t => t.set_enabled false)).update_sprite
          (first_bomb_sprite + i) (fun t => t.translate 20 0) with bombs_disabled := 50 })
        ⟨fun _ _ => rfl, rfl, rfl⟩ (pool_kept_on_hit_ship _))
    · split
      · exact h3 s
      · exact pool_kept_update_sprite _ _ _ (Or.inr hb)
  · exact pool_kept_refl s

theorem pool_kept_move_bombs (s : invaderers_app) : pool_kept s (move_bombs s) :=
  move_bombs_invariant (fun t => pool_kept s t)
    (fun t i _ ht => pool_kept_trans ht (pool_kept_move_bombs_body t i)) s (pool_kept_refl s)

theorem pool_kept_initHolyBananas (inp : frame_input) (s : invaderers_app) :
    pool_kept s (initHolyBananas inp s) := by
  cases h : (s.sprite_at ship_sprite).collides_with (s.sprite_at holyBanana_sprite) with
  | true =>
    rw [initHolyBananas_pickup inp s h]
    exact pool_kept_update_sprite _ _ _ (Or.inl (by decide))
  | false =>
    rw [initHolyBananas_no_pickup inp s h]
    exact pool_kept_refl s

/-! ## Counting the enabled invaders -/

theorem enabled_invaderers_congr (s u : invaderers_app)
    (h : ∀ k, k < num_invaderers →
      (u.sprite_at (first_invaderer_sprite + k)).enabled =
        (s.sprite_at (first_invaderer_sprite + k)).enabled) :
    enabled_invaderers u = enabled_invaderers s := by
  unfold enabled_invaderers
  apply List.countP_congr
  intro k hk
  rw [h k (List.mem_range.mp hk)]

theorem enabled_invaderers_pool_kept (s u : invaderers_app) (h : pool_kept s u) :
    enabled_invaderers u = enabled_invaderers s :=
  enabled_invaderers_congr s u (fun k hk => by rw [h.1 k hk])

theorem enabled_invaderers_all (s : invaderers_app)
    (h : ∀ k, k < num_invaderers →
      (s.sprite_at (first_invaderer_sprite + k)).enabled = true) :
    enabled_invaderers s = 91 := by
  unfold enabled_invaderers
  rw [List.countP_eq_length.mpr (fun k hk => h k (List.mem_range.mp hk)), List.length_range]
  rfl

/-- When no invader slot goes from disabled to enabled between `s` and `u`, the
enabled slots of `s` are those of `u` and the newly disabled ones. -/
theorem enabled_invaderers_newly_disabled (s u : invaderers_app)
    (hmono : ∀ k, k < num_invaderers →
      (u.sprite_at (first_invaderer_sprite + k)).enabled = true →
      (s.sprite_at (first_invaderer_sprite + k)).enabled = true) :
    enabled_invaderers s = enabled_invaderers u + newly_disabled s u := by
  unfold enabled_invaderers newly_disabled
  apply countP_range_add
  intro k hk
  have := hmono k hk
  cases hu : (u.sprite_at (first_invaderer_sprite + k)).enabled with
  | true => rw [this hu]; exact ⟨rfl, rfl⟩
  | false =>
    cases hs : (s.sprite_at (first_invaderer_sprite + k)).enabled <;> exact ⟨rfl, rfl⟩

theorem on_hit_invaderer_reWave (s : invaderers_app) :
    (on_hit_invaderer s).reWave = s.reWave := by
  unfold on_hit_invaderer
  simp only [get_sound_source]
  split
  · simp only [invaderers_app.update_sprite_reWave]
  · rfl

theorem move_missiles_body_reWave (s : invaderers_app) (i : Nat) :
    (move_missiles_body s i).reWave = s.reWave := by
  unfold move_missiles_body
  split
  · simp only []
    split
    · rw [on_hit_invaderer_reWave]
      simp only [invaderers_app.update_sprite_reWave]
    · split
      · simp only [invaderers_app.update_sprite_reWave]
      · simp only [invaderers_app.update_sprite_reWave]
  · rfl

/-- One iteration of `move_missiles` keeps `reWave` and keeps the difference between
`live_invaderers` and the number of enabled slots of the invader pool. -/
theorem move_missiles_body_tracks (s : invaderers_app) (i : Nat) (hi : i < num_missiles) :
    (move_missiles_body s i).reWave = s.reWave ∧
    (move_missiles_body s i).live_invaderers + (enabled_invaderers s : Int) =
      s.live_invaderers + (enabled_invaderers (move_missiles_body s i) : Int) := by
  obtain ⟨_, a2, _, a4⟩ := move_missiles_body_accounting s i hi
  have e := enabled_invaderers_newly_disabled s (move_missiles_body s i) a4
  refine ⟨move_missiles_body_reWave s i, ?_⟩
  rw [a2, e]
  push_cast
  ring

theorem move_missiles_tracks (s : invaderers_app) :
    (move_missiles s).reWave = s.reWave ∧
    (move_missiles s).live_invaderers + (enabled_invaderers s : Int) =
      s.live_invaderers + (enabled_invaderers (move_missiles s) : Int) := by
  obtain ⟨a1, a2⟩ := move_missiles_body_tracks s 0 (by decide)
  obtain ⟨b1, b2⟩ := move_missiles_body_tracks (move_missiles_body s 0) 1 (by decide)
  rw [move_missiles_eq]
  exact ⟨b1.trans a1, by linarith⟩

/-- The wave that `initEnemies` starts on a pool with every slot enabled has every slot
enabled. -/
theorem initEnemies_tracks (inp : frame_input) (s : invaderers_app)
    (h1 : s.live_invaderers + 7 = (enabled_invaderers s : Int))
    (h2 : s.reWave = true → ∀ k, k < num_invaderers →
      (s.sprite_at (first_invaderer_sprite + k)).enabled = true) :
    (initEnemies inp s).live_invaderers + 7 = (enabled_invaderers (initEnemies inp s) : Int) ∧
    (initEnemies inp s).reWave = false := by
  cases hw : s.reWave with
  | false =>
    rw [initEnemies_reWave_false inp s hw]
    exact ⟨h1, hw⟩
  | true =>
    have hall := h2 hw
    have hlive : (initEnemies inp s).live_invaderers = s.live_invaderers :=
      (same_round_initEnemies inp s).1
    have hafter : ∀ k, k < num_invaderers →
        ((initEnemies inp s).sprite_at (first_invaderer_sprite + k)).enabled = true := by
      intro k hk
      have hk' : k < 91 := hk
      rw [initEnemies_reWave_true inp s hw]
      by_cases hg : k < 84
      · have e : first_invaderer_sprite + k =
            first_invaderer_sprite + k % 14 + k / 14 * 14 := by
          show 6 + k = 6 + k % 14 + k / 14 * 14
          omega
        rw [e, initEnemies_loops_written _ _ (k % 14) (k / 14)
          (Nat.mod_lt _ (by decide)) (by omega)]
        rfl
      · rw [initEnemies_loops_other _ _ _ (Or.inr (by
          show 6 + 84 ≤ 6 + k
          omega))]
        exact hall k hk
    refine ⟨?_, ?_⟩
    · rw [hlive, h1, enabled_invaderers_all s hall, enabled_invaderers_all _ hafter]
    · rw [initEnemies_reWave_true inp s hw]
      exact initEnemies_loops_keep (fun t => t.reWave) invaderers_app.update_sprite_reWave _ _

/-- A frame of play keeps the invariant of the first game: `live_invaderers + 7` is the
number of enabled slots of the invader pool, and every slot is enabled while `reWave`
is set. -/
theorem simulate_playing_tracks (inp : frame_input) (s : invaderers_app)
    (hgo : s.game_over = false)
    (h1 : s.live_invaderers + 7 = (enabled_invaderers s : Int))
    (h2 : s.reWave = true → ∀ k, k < num_invaderers →
      (s.sprite_at (first_invaderer_sprite + k)).enabled = true) :
    (simulate inp s).live_invaderers + 7 = (enabled_invaderers (simulate inp s) : Int) ∧
    (simulate inp s).reWave = false := by
  rw [simulate_playing inp s hgo]
  have k0 := pool_kept_move_ship inp s
  obtain ⟨i1, i2⟩ := initEnemies_tracks inp (move_ship inp s)
    (by rw [k0.2.2, enabled_invaderers_pool_kept _ _ k0]; exact h1)
    (fun hw k hk => by
      rw [k0.1 k hk]
      exact h2 (k0.2.1.symm.trans hw) k hk)
  have k1 := pool_kept_trans (pool_kept_fire_missiles inp (initEnemies inp (move_ship inp s)))
    (pool_kept_fire_bombs inp _)
  obtain ⟨m1, m2⟩ := move_missiles_tracks
    (fire_bombs inp (fire_missiles inp (initEnemies inp (move_ship inp s))))
  have k2 := pool_kept_trans (pool_kept_move_bombs (move_missiles
    (fire_bombs inp (fire_missiles inp (initEnemies inp (move_ship inp s))))))
    (pool_kept_initHolyBananas inp _)
  rw [k1.2.2, enabled_invaderers_pool_kept _ _ k1] at m2
  rw [k1.2.1, i2] at m1
  refine ⟨?_, k2.2.1.trans m1⟩
  rw [k2.2.2, enabled_invaderers_pool_kept _ _ k2]
  linarith

/-- The invader pool is the grid and the seven slots after it. -/
theorem enabled_invaderers_split (s : invaderers_app) :
    enabled_invaderers s =
      enabled_grid_invaderers s +
        (List.range 7).countP
          (fun k => (s.sprite_at (first_invaderer_sprite + 84 + k)).enabled) := by
  unfold enabled_invaderers enabled_grid_invaderers
  have h : List.range num_invaderers =
      List.range 84 ++ (List.range 7).map (fun k => 84 + k) := by
    show List.range (84 + 7) = _
    rw [List.range_add]
  rw [h, List.countP_append, List.countP_map, Nat.add_left_cancel_iff]
  apply List.countP_congr
  intro k _
  have e : first_invaderer_sprite + (84 + k) = first_invaderer_sprite + 84 + k := by
    show 6 + (84 + k) = 6 + 84 + k
    omega
  show (s.sprite_at (first_invaderer_sprite + (84 + k))).enabled = true ↔ _
  rw [e]

/-- What the code keeps of the counter of the wave: in every state of the first game,
that is reached from `app_init` by `simulate` frames in none of which the continue key
(Y) or the restart key (R) is held, `live_invaderers + 7` is the number of enabled
sprites of the whole invader pool (91 slots); so `live_invaderers` is the number of
enabled sprites among the 84 slots of the grid as long as the seven slots 84 to 90,
which `initEnemies` never writes, are all enabled. -/
theorem live_invaderers_tracks_pool (s : invaderers_app) (h : ReachableFirstGame s) :
    s.live_invaderers + 7 = (enabled_invaderers s : Int) ∧
    ((∀ k, k < 7 → (s.sprite_at (first_invaderer_sprite + 84 + k)).enabled = true) →
      s.live_invaderers = (enabled_grid_invaderers s : Int)) := by
  have key : s.live_invaderers + 7 = (enabled_invaderers s : Int) ∧
      (s.reWave = true → ∀ k, k < num_invaderers →
        (s.sprite_at (first_invaderer_sprite + k)).enabled = true) := by
    induction h with
    | init inp s hc =>
      have hall : ∀ k, k < num_invaderers →
          ((app_init inp s).sprite_at (first_invaderer_sprite + k)).enabled = true := by
        intro k hk
        rw [app_init_invaderer inp s k hk]
        exact (hc _ (invaderer_index_lt k hk)).2
      refine ⟨?_, fun _ => hall⟩
      rw [enabled_invaderers_all _ hall, (app_init_round inp s).2.2.2.1]
      rfl
    | frame inp s _ hY hR ih =>
      cases hgo : s.game_over with
      | true =>
        rw [simulate_frozen inp s hgo hY hR]
        exact ih
      | false =>
        obtain ⟨t1, t2⟩ := simulate_playing_tracks inp s hgo ih.1 ih.2
        exact ⟨t1, fun hw => absurd (t2.symm.trans hw) (by decide)⟩
  refine ⟨key.1, fun hg => ?_⟩
  have h7 : (List.range 7).countP
      (fun k => (s.sprite_at (first_invaderer_sprite + 84 + k)).enabled) = 7 := by
    rw [List.countP_eq_length.mpr (fun k hk => hg k (List.mem_range.mp hk)),
      List.length_range]
  have hs := enabled_invaderers_split s
  rw [h7] at hs
  have h1 := key.1
  rw [hs] at h1
  push_cast at h1
  linarith

/-- The play one frame after the won round was continued, evaluated. -/
theorem next_wave_checked :
    next_wave_state.game_over = false ∧ next_wave_state.live_invaderers = 0 ∧
    enabled_grid_invaderers next_wave_state = 84 := by
  decide!

/-- C19: the code after a continue. `gameOverCondition` leaves `live_invaderers` as it
is, where `app_init` sets it to 84. The play wins its round and continues with Y, and
one frame later the next wave is in place: that state is reachable and in play
(`game_over` is false), all 84 slots of the grid are enabled, and `live_invaderers` is
0, not 84. -/
theorem live_invaderers_stale_after_continue :
    (∀ (inp : frame_input) (t : invaderers_app),
      (gameOverCondition inp t).live_invaderers = t.live_invaderers ∧
      (app_init inp t).live_invaderers = 84) ∧
    Reachable won_state ∧ won_state.game_over = true ∧ won_state.live_invaderers = 0 ∧
    next_wave_state = simulate idle (simulate press_Y won_state) ∧
    Reachable next_wave_state ∧ next_wave_state.game_over = false ∧
    next_wave_state.live_invaderers = 0 ∧ enabled_grid_invaderers next_wave_state = 84 :=
  ⟨fun inp t => ⟨(gameOverCondition_round inp t).2.1, (app_init_round inp t).2.2.2.1⟩,
    reachable_won_state, play_end_checked.2.2.2.1, play_end_checked.2.2.2.2.1, rfl,
    Reachable.frame idle continued_won_state reachable_continued_won_state,
    next_wave_checked.1, next_wave_checked.2.1, next_wave_checked.2.2⟩

/-- C20: `initEnemies` stays inside the invader pool and fills the grid exactly once.
The index `first_invaderer_sprite + i + j * 14` of the 6 x 14 loop never exceeds
`last_invaderer_sprite`; the 84 offsets `i + 14 * j` are pairwise distinct and are
exactly the numbers below 84. When `reWave` is true the call leaves in each slot of the
grid the invader of its column and row (enabled, half-extents 0.125, at
`((i - 6.5) * 0.4, 2.75 - 0.37 * j)`), leaves the invader slots 84 to 90 and every sprite
outside the invader pool as they were, sets `reWave` to false and keeps the counters
and flags; when `reWave` is false the call changes nothing. -/
theorem initEnemies_fills_grid (inp : frame_input) (s : invaderers_app) :
    (∀ i j, i < 14 → j < 6 →
      first_invaderer_sprite + i + j * 14 ≤ last_invaderer_sprite) ∧
    (∀ i j i' j', i < 14 → j < 6 → i' < 14 → j' < 6 →
      i + 14 * j = i' + 14 * j' → i = i' ∧ j = j') ∧
    (∀ k, k < 84 ↔ ∃ i j, i < 14 ∧ j < 6 ∧ i + 14 * j = k) ∧
    (s.reWave = true →
      (∀ i j, i < 14 → j < 6 →
        (initEnemies inp s).sprite_at (first_invaderer_sprite + i + j * 14) =
          grid_invaderer (inp.get_texture_handle "assets/invaderers/invaderer.gif") i j ∧
        ((initEnemies inp s).sprite_at (first_invaderer_sprite + i + j * 14)).enabled =
          true) ∧
      (∀ k, k < first_invaderer_sprite ∨ first_invaderer_sprite + 84 ≤ k →
        (initEnemies inp s).sprite_at k = s.sprite_at k) ∧
      (initEnemies inp s).reWave = false ∧
      (initEnemies inp s).live_invaderers = s.live_invaderers ∧
      (initEnemies inp s).num_lives = s.num_lives ∧
      (initEnemies inp s).score = s.score ∧
      (initEnemies inp s).game_over = s.game_over ∧
      (initEnemies inp s).loss = s.loss ∧
      (initEnemies inp s).missiles_disabled = s.missiles_disabled ∧
      (initEnemies inp s).bombs_disabled = s.bombs_disabled) ∧
    (s.reWave = false → initEnemies inp s = s) := by
  refine ⟨?_, ?_, ?_, ?_, initEnemies_reWave_false inp s⟩
  · intro i j hi hj
    show 6 + i + j * 14 ≤ 6 + 7 * 13 - 1
    omega
  · intro i j i' j' hi hj hi' hj' e
    omega
  · intro k
    constructor
    · intro hk
      exact ⟨k % 14, k / 14, Nat.mod_lt _ (by decide), by omega, by omega⟩
    · rintro ⟨i, j, hi, hj, e⟩
      omega
  · intro h
    rw [initEnemies_reWave_true inp s h]
    refine ⟨fun i j hi hj => ?_, fun k hk => ?_, ?_, ?_, ?_, ?_, ?_, ?_, ?_, ?_⟩
    · rw [initEnemies_loops_written _ _ i j hi hj]
      exact ⟨rfl, rfl⟩
    · rw [initEnemies_loops_other _ _ k hk]
      rfl
    · rw [initEnemies_loops_keep (fun t => t.reWave) invaderers_app.update_sprite_reWave]
    · rw [initEnemies_loops_keep (fun t => t.live_invaderers)
        invaderers_app.update_sprite_live_invaderers]
    · rw [initEnemies_loops_keep (fun t => t.num_lives) invaderers_app.update_sprite_num_lives]
    · rw [initEnemies_loops_keep (fun t => t.score) invaderers_app.update_sprite_score]
    · rw [initEnemies_loops_keep (fun t => t.game_over) invaderers_app.update_sprite_game_over]
    · rw [initEnemies_loops_keep (fun t => t.loss) invaderers_app.update_sprite_loss]
    · rw [initEnemies_loops_keep (fun t => t.missiles_disabled)
        invaderers_app.update_sprite_missiles_disabled]
    · rw [initEnemies_loops_keep (fun t => t.bombs_disabled)
        invaderers_app.update_sprite_bombs_disabled]

/-- C20, the theorem at the start of the game, where `reWave` is true: the last slot of
the grid, column 13 of row 5, holds its invader at `(2.6, 0.9)`, and the slot after it,
which is outside the grid, is as it was. -/
theorem initEnemies_fills_grid_witness :
    game_start.reWave = true ∧
    (initEnemies idle game_start).sprite_at (first_invaderer_sprite + 13 + 5 * 14) =
      ⟨2.6, 0.9, 0.125, 0.125, 1, true⟩ ∧
    (initEnemies idle game_start).sprite_at (first_invaderer_sprite + 84) =
      game_start.sprite_at (first_invaderer_sprite + 84) ∧
    (initEnemies idle game_start).reWave = false := by
  have h := (initEnemies_fills_grid idle game_start).2.2.2.1 rfl
  refine ⟨rfl, (h.1 13 5 (by decide) (by decide)).1.trans ?_,
    h.2.1 _ (Or.inr (le_refl _)), h.2.2.1⟩
  unfold grid_invaderer
  norm_num
  rfl

/-! ## The finished round -/

/-- C21: a finished round is frozen. For every state with `game_over` set, a `simulate`
frame in which neither the continue key (Y) nor the restart key (R) is held returns the
state as it was, whatever the other keys and inputs of the frame are: every sprite,
every counter, both cooldowns and the flags are unchanged; and so does every sequence of
such frames. -/
theorem finished_round_frozen (inp : frame_input) (s : invaderers_app)
    (hgo : s.game_over = true) (hY : inp.key_Y = false) (hR : inp.key_R = false) :
    simulate inp s = s ∧
    (∀ k, (simulate inp s).sprite_at k = s.sprite_at k) ∧
    (simulate inp s).missiles_disabled = s.missiles_disabled ∧
    (simulate inp s).bombs_disabled = s.bombs_disabled ∧
    (simulate inp s).live_invaderers = s.live_invaderers ∧
    (simulate inp s).num_lives = s.num_lives ∧
    (simulate inp s).score = s.score ∧
    (simulate inp s).game_over = true ∧
    (simulate inp s).loss = s.loss ∧
    (simulate inp s).reWave = s.reWave ∧
    (simulate inp s).cur_source = s.cur_source ∧
    (∀ inputs : List frame_input,
      (∀ i ∈ inputs, i.key_Y = false ∧ i.key_R = false) → simulate_frames inputs s = s) := by
  have e := simulate_frozen inp s hgo hY hR
  rw [e]
  refine ⟨rfl, fun _ => rfl, rfl, rfl, rfl, rfl, rfl, hgo, rfl, rfl, rfl, ?_⟩
  intro inputs hin
  induction inputs with
  | nil => rfl
  | cons i rest ih =>
    show simulate_frames rest (simulate i s) = s
    rw [simulate_frozen i s hgo (hin i (List.mem_cons_self i rest)).1
      (hin i (List.mem_cons_self i rest)).2]
    exact ih (fun j hj => hin j (List.mem_cons_of_mem i hj))

/-- C21, the theorem at the lost round of the play, in a frame with all four movement
keys held and the fire key pressed: the state is unchanged. -/
theorem finished_round_frozen_witness :
    lost_state.game_over = true ∧ all_keys.key_Y = false ∧ all_keys.key_R = false ∧
    all_keys.key_left = true ∧ all_keys.key_space_going_down = true ∧
    simulate all_keys lost_state = lost_state :=
  ⟨play_lost.1, rfl, rfl, rfl, rfl,
    (finished_round_frozen all_keys lost_state play_lost.1 rfl rfl).1⟩

/-! ## The ship and the borders -/

theorem move_ship_key_ship (s : invaderers_app) (dx dy : ℚ) (b : Nat)
    (hb : b ≠ ship_sprite) :
    (move_ship_key s dx dy b).sprite_at ship_sprite =
      ship_after_key (s.sprite_at ship_sprite) (s.sprite_at b) dx dy := by
  unfold move_ship_key ship_after_key
  simp only []
  rw [invaderers_app.sprite_at_update_sprite_self _ _ _ (by decide),
    invaderers_app.sprite_at_update_sprite_ne _ _ _ _ (Ne.symm hb)]
  split
  · rw [invaderers_app.sprite_at_update_sprite_self _ _ _ (by decide),
      invaderers_app.sprite_at_update_sprite_self _ _ _ (by decide)]
  · rw [invaderers_app.sprite_at_update_sprite_self _ _ _ (by decide)]

/-- The ship that `move_ship` leaves is `ship_after_keys` of the ship and the side
borders before the call. -/
theorem move_ship_ship (inp : frame_input) (s : invaderers_app) :
    (move_ship inp s).sprite_at ship_sprite =
      ship_after_keys inp (s.sprite_at ship_sprite) (s.sprite_at (first_border_sprite + 2))
        (s.sprite_at (first_border_sprite + 3)) := by
  have key : ∀ (c : Bool) (t : invaderers_app) (dx dy : ℚ) (b : Nat), b ≠ ship_sprite →
      (if c = true then move_ship_key t dx dy b else t).sprite_at ship_sprite =
        (if c = true then ship_after_key (t.sprite_at ship_sprite) (t.sprite_at b) dx dy
          else t.sprite_at ship_sprite) ∧
      ∀ k, k ≠ ship_sprite →
        (if c = true then move_ship_key t dx dy b else t).sprite_at k = t.sprite_at k := by
    intro c t dx dy b hb
    cases c with
    | true => exact ⟨move_ship_key_ship t dx dy b hb,
        fun k hk => move_ship_key_sprite_at_other t dx dy b k hk⟩
    | false => exact ⟨rfl, fun _ _ => rfl⟩
  unfold move_ship ship_after_keys
  simp only []
  obtain ⟨a1, a2⟩ := key inp.key_left s (-ship_speed) 0 (first_border_sprite + 2) (by decide)
  obtain ⟨b1, b2⟩ := key inp.key_right
    (if inp.key_left = true then move_ship_key s (-ship_speed) 0 (first_border_sprite + 2)
      else s) ship_speed 0 (first_border_sprite + 3) (by decide)
  obtain ⟨c1, c2⟩ := key inp.key_up
    (if inp.key_right = true then move_ship_key
      (if inp.key_left = true then move_ship_key s (-ship_speed) 0 (first_border_sprite + 2)
        else s) ship_speed 0 (first_border_sprite + 3)
      else (if inp.key_left = true then
        move_ship_key s (-ship_speed) 0 (first_border_sprite + 2) else s))
    0 ship_speed (first_border_sprite + 2) (by decide)
  obtain ⟨d1, _⟩ := key inp.key_down
    (if inp.key_up = true then move_ship_key
      (if inp.key_right = true then move_ship_key
        (if inp.key_left = true then
          move_ship_key s (-ship_speed) 0 (first_border_sprite + 2) else s)
        ship_speed 0 (first_border_sprite + 3)
      else (if inp.key_left = true then
        move_ship_key s (-ship_speed) 0 (first_border_sprite + 2) else s))
      0 ship_speed (first_border_sprite + 2)
    else (if inp.key_right = true then move_ship_key
        (if inp.key_left = true then
          move_ship_key s (-ship_speed) 0 (first_border_sprite + 2) else s)
        ship_speed 0 (first_border_sprite + 3)
      else (if inp.key_left = true then
        move_ship_key s (-ship_speed) 0 (first_border_sprite + 2) else s)))
    0 (-ship_speed) (first_border_sprite + 3) (by decide)
  rw [d1, c1, b1, a1, c2 _ (by decide), b2 _ (by decide), a2 _ (by decide),
    b2 _ (by decide), a2 _ (by decide), a2 _ (by decide)]

theorem translate_back (p : sprite) (dx dy : ℚ) :
    (p.translate dx dy).translate (-dx) (-dy) = p := by
  cases p
  simp [sprite.translate]

/-- A key of `move_ship` keeps the ship from overlapping the border it tests. -/
theorem ship_after_key_clear (ship border : sprite) (dx dy : ℚ)
    (h : ship.collides_with border = false) :
    (ship_after_key ship border dx dy).collides_with border = false := by
  unfold ship_after_key
  split
  · rw [translate_back]
    exact h
  · next hc => simpa using hc

/-- A ship between the side borders overlaps neither of them. -/
theorem lane_clear (p l r : sprite)
    (hl : l.x = -3 ∧ l.halfWidth = 0.1) (hr : r.x = 3 ∧ r.halfWidth = 0.1)
    (hp : p.halfWidth = 0.125 ∧ -2.775 ≤ p.x ∧ p.x ≤ 2.775) :
    p.collides_with l = false ∧ p.collides_with r = false := by
  obtain ⟨l1, l2⟩ := hl
  obtain ⟨r1, r2⟩ := hr
  obtain ⟨p1, p2, p3⟩ := hp
  constructor
  · apply collides_with_eq_false
    left
    rw [p1, l1, l2, abs_of_nonpos (by linarith)]
    linarith
  · apply collides_with_eq_false
    left
    rw [p1, r1, r2, abs_of_nonneg (by linarith)]
    linarith

/-- The left key, for a ship between the side borders and vertically within their
extent: the ship stays between them, at its height. -/
theorem ship_after_key_left (p l : sprite)
    (hl : l.x = -3 ∧ l.y = 0 ∧ l.halfWidth = 0.1 ∧ l.halfHeight = 3)
    (hp : p.halfWidth = 0.125 ∧ p.halfHeight = 0.125 ∧ -2.775 ≤ p.x ∧ p.x ≤ 2.775)
    (hy : |p.y| < 3.125) :
    (ship_after_key p l (-ship_speed) 0).halfWidth = 0.125 ∧
    (ship_after_key p l (-ship_speed) 0).halfHeight = 0.125 ∧
    -2.775 ≤ (ship_after_key p l (-ship_speed) 0).x ∧
    (ship_after_key p l (-ship_speed) 0).x ≤ 2.775 ∧
    (ship_after_key p l (-ship_speed) 0).y = p.y := by
  obtain ⟨l1, l2, l3, l4⟩ := hl
  obtain ⟨p1, p2, p3, p4⟩ := hp
  unfold ship_after_key
  split
  · rw [translate_back]
    exact ⟨p1, p2, p3, p4, rfl⟩
  · next hc =>
    have hx : (p.translate (-ship_speed) 0).x = p.x - 0.05 := by
      show p.x + -ship_speed = _
      unfold ship_speed
      norm_num
      ring
    have hyy : (p.translate (-ship_speed) 0).y = p.y := by
      show p.y + 0 = _
      ring
    refine ⟨p1, p2, ?_, by rw [hx]; linarith, hyy⟩
    rw [hx]
    by_contra hlt
    apply hc
    rw [collides_with_iff, hx, hyy, l1, l2, l3, l4]
    show |(-3 : ℚ) - (p.x - 0.05)| < p.halfWidth + 0.1 ∧ |(0 : ℚ) - p.y| < p.halfHeight + 3
    rw [p1, p2]
    have hy' := abs_lt.mp hy
    constructor
    · rw [abs_lt]
      constructor <;> linarith
    · rw [abs_lt]
      constructor <;> linarith

/-- The right key, for a ship between the side borders and vertically within their
extent: the ship stays between them, at its height. -/
theorem ship_after_key_right (p r : sprite)
    (hr : r.x = 3 ∧ r.y = 0 ∧ r.halfWidth = 0.1 ∧ r.halfHeight = 3)
    (hp : p.halfWidth = 0.125 ∧ p.halfHeight = 0.125 ∧ -2.775 ≤ p.x ∧ p.x ≤ 2.775)
    (hy : |p.y| < 3.125) :
    (ship_after_key p r ship_speed 0).halfWidth = 0.125 ∧
    (ship_after_key p r ship_speed 0).halfHeight = 0.125 ∧
    -2.775 ≤ (ship_after_key p r ship_speed 0).x ∧
    (ship_after_key p r ship_speed 0).x ≤ 2.775 ∧
    (ship_after_key p r ship_speed 0).y = p.y := by
  obtain ⟨r1, r2, r3, r4⟩ := hr
  obtain ⟨p1, p2, p3, p4⟩ := hp
  unfold ship_after_key
  split
  · rw [translate_back]
    exact ⟨p1, p2, p3, p4, rfl⟩
  · next hc =>
    have hx : (p.translate ship_speed 0).x = p.x + 0.05 := by
      show p.x + ship_speed = _
      unfold ship_speed
      norm_num
    have hyy : (p.translate ship_speed 0).y = p.y := by
      show p.y + 0 = _
      ring
    refine ⟨p1, p2, by rw [hx]; linarith, ?_, hyy⟩
    rw [hx]
    by_contra hlt
    apply hc
    rw [collides_with_iff, hx, hyy, r1, r2, r3, r4]
    show |(3 : ℚ) - (p.x + 0.05)| < p.halfWidth + 0.1 ∧ |(0 : ℚ) - p.y| < p.halfHeight + 3
    rw [p1, p2]
    have hy' := abs_lt.mp hy
    constructor
    · rw [abs_lt]
      constructor <;> linarith
    · rw [abs_lt]
      constructor <;> linarith

/-- The up and down keys, for a ship between the side borders: the move is never taken
back. -/
theorem ship_after_key_vertical (p b : sprite) (dy : ℚ)
    (hb : (b.x = -3 ∨ b.x = 3) ∧ b.halfWidth = 0.1)
    (hp : p.halfWidth = 0.125 ∧ -2.775 ≤ p.x ∧ p.x ≤ 2.775) :
    ship_after_key p b 0 dy = p.translate 0 dy := by
  obtain ⟨b1, b2⟩ := hb
  obtain ⟨p1, p2, p3⟩ := hp
  have hx : (p.translate 0 dy).x = p.x := by
    show p.x + 0 = _
    ring
  have hc : (p.translate 0 dy).collides_with b = false := by
    apply collides_with_eq_false
    left
    rw [hx]
    show p.halfWidth + b.halfWidth ≤ _
    rw [p1, b2]
    rcases b1 with e | e
    · rw [e, abs_of_nonpos (by linarith)]
      linarith
    · rw [e, abs_of_nonneg (by linarith)]
      linarith
  unfold ship_after_key
  rw [if_neg (by rw [hc]; decide)]

/-- The ship after the four keys of `move_ship`, for a ship between the side borders
and vertically within their extent: it is between the side borders, and its height has
changed by `ship_speed` for the up key and by `-ship_speed` for the down key. -/
theorem ship_after_keys_lane (inp : frame_input) (p l r : sprite)
    (hl : l.x = -3 ∧ l.y = 0 ∧ l.halfWidth = 0.1 ∧ l.halfHeight = 3)
    (hr : r.x = 3 ∧ r.y = 0 ∧ r.halfWidth = 0.1 ∧ r.halfHeight = 3)
    (hp : p.halfWidth = 0.125 ∧ p.halfHeight = 0.125 ∧ -2.775 ≤ p.x ∧ p.x ≤ 2.775)
    (hy : |p.y| < 3.125) :
    (ship_after_keys inp p l r).halfWidth = 0.125 ∧
    (ship_after_keys inp p l r).halfHeight = 0.125 ∧
    -2.775 ≤ (ship_after_keys inp p l r).x ∧ (ship_after_keys inp p l r).x ≤ 2.775 ∧
    (ship_after_keys inp p l r).y =
      p.y + (if inp.key_up = true then ship_speed else 0) +
        (if inp.key_down = true then -ship_speed else 0) := by
  have h1 : ∀ c : Bool,
      ((if c = true then ship_after_key p l (-ship_speed) 0 else p).halfWidth = 0.125 ∧
        (if c = true then ship_after_key p l (-ship_speed) 0 else p).halfHeight = 0.125 ∧
        -2.775 ≤ (if c = true then ship_after_key p l (-ship_speed) 0 else p).x ∧
        (if c = true then ship_after_key p l (-ship_speed) 0 else p).x ≤ 2.775) ∧
      (if c = true then ship_after_key p l (-ship_speed) 0 else p).y = p.y := by
    intro c
    cases c with
    | true =>
      obtain ⟨a, b, c, d, e⟩ := ship_after_key_left p l hl hp hy
      exact ⟨⟨a, b, c, d⟩, e⟩
    | false => exact ⟨hp, rfl⟩
  have h2 : ∀ (c : Bool) (q : sprite),
      (q.halfWidth = 0.125 ∧ q.halfHeight = 0.125 ∧ -2.775 ≤ q.x ∧ q.x ≤ 2.775) →
      q.y = p.y →
      ((if c = true then ship_after_key q r ship_speed 0 else q).halfWidth = 0.125 ∧
        (if c = true then ship_after_key q r ship_speed 0 else q).halfHeight = 0.125 ∧
        -2.775 ≤ (if c = true then ship_after_key q r ship_speed 0 else q).x ∧
        (if c = true then ship_after_key q r ship_speed 0 else q).x ≤ 2.775) ∧
      (if c = true then ship_after_key q r ship_speed 0 else q).y = p.y := by
    intro c q hq hqy
    cases c with
    | true =>
      obtain ⟨a, b, c, d, e⟩ := ship_after_key_right q r hr hq (by rw [hqy]; exact hy)
      exact ⟨⟨a, b, c, d⟩, e.trans hqy⟩
    | false => exact ⟨hq, hqy⟩
  have h3 : ∀ (c : Bool) (q b : sprite) (dy : ℚ),
      ((b.x = -3 ∨ b.x = 3) ∧ b.halfWidth = 0.1) →
      (q.halfWidth = 0.125 ∧ q.halfHeight = 0.125 ∧ -2.775 ≤ q.x ∧ q.x ≤ 2.775) →
      ((if c = true then ship_after_key q b 0 dy else q).halfWidth = 0.125 ∧
        (if c = true then ship_after_key q b 0 dy else q).halfHeight = 0.125 ∧
        -2.775 ≤ (if c = true then ship_after_key q b 0 dy else q).x ∧
        (if c = true then ship_after_key q b 0 dy else q).x ≤ 2.775) ∧
      (if c = true then ship_after_key q b 0 dy else q).y =
        q.y + (if c = true then dy else 0) := by
    intro c q b dy hb hq
    cases c with
    | true =>
      have e := ship_after_key_vertical q b dy hb ⟨hq.1, hq.2.2.1, hq.2.2.2⟩
      have hx : (q.translate 0 dy).x = q.x := by
        show q.x + 0 = _
        ring
      simp only [if_true]
      rw [e, hx]
      exact ⟨⟨hq.1, hq.2.1, hq.2.2.1, hq.2.2.2⟩, rfl⟩
    | false =>
      refine ⟨hq, ?_⟩
      show q.y = q.y + 0
      ring
  obtain ⟨a1, a2⟩ := h1 inp.key_left
  obtain ⟨b1, b2⟩ := h2 inp.key_right _ a1 a2
  obtain ⟨c1, c2⟩ := h3 inp.key_up _ l ship_speed ⟨Or.inl hl.1, hl.2.2.1⟩ b1
  obtain ⟨d1, d2⟩ := h3 inp.key_down _ r (-ship_speed) ⟨Or.inr hr.1, hr.2.2.1⟩ c1
  unfold ship_after_keys
  simp only []
  refine ⟨d1.1, d1.2.1, d1.2.2.1, d1.2.2.2, ?_⟩
  rw [d2, c2, b2]

/-- What `move_ship` keeps: it tests only the two side borders. For a ship of size
0.25 x 0.25 that lies between the side borders (`-2.775 <= x <= 2.775`) and vertically
within their extent (`|y| < 3.125`), with the side borders where `app_init` puts them,
and for every combination of held movement keys: after `move_ship` the ship still lies
between the side borders and overlaps neither of them; its height has changed by
`ship_speed` for the up key and by `-ship_speed` for the down key, whatever the top and
the bottom border are; and no other sprite has changed. In general each key keeps a
ship that does not overlap the border it tests from overlapping it. -/
theorem move_ship_side_borders (inp : frame_input) (s : invaderers_app)
    (h : ship_between_side_borders s) (hy : |(s.sprite_at ship_sprite).y| < 3.125) :
    ship_between_side_borders (move_ship inp s) ∧
    ((move_ship inp s).sprite_at ship_sprite).y =
      (s.sprite_at ship_sprite).y + (if inp.key_up = true then ship_speed else 0) +
        (if inp.key_down = true then -ship_speed else 0) ∧
    ((move_ship inp s).sprite_at ship_sprite).collides_with
      ((move_ship inp s).sprite_at (first_border_sprite + 2)) = false ∧
    ((move_ship inp s).sprite_at ship_sprite).collides_with
      ((move_ship inp s).sprite_at (first_border_sprite + 3)) = false ∧
    (∀ k, k ≠ ship_sprite → (move_ship inp s).sprite_at k = s.sprite_at k) ∧
    (∀ (t : invaderers_app) (dx dy : ℚ) (b : Nat), b ≠ ship_sprite →
      (t.sprite_at ship_sprite).collides_with (t.sprite_at b) = false →
      ((move_ship_key t dx dy b).sprite_at ship_sprite).collides_with
        ((move_ship_key t dx dy b).sprite_at b) = false) := by
  obtain ⟨l1, l2, l3, l4, r1, r2, r3, r4, p1, p2, p3, p4⟩ := h
  obtain ⟨a1, a2, a3, a4, a5⟩ := ship_after_keys_lane inp (s.sprite_at ship_sprite)
    (s.sprite_at (first_border_sprite + 2)) (s.sprite_at (first_border_sprite + 3))
    ⟨l1, l2, l3, l4⟩ ⟨r1, r2, r3, r4⟩ ⟨p1, p2, p3, p4⟩ hy
  have hl := move_ship_sprite_at_other inp s (first_border_sprite + 2) (by decide)
  have hr := move_ship_sprite_at_other inp s (first_border_sprite + 3) (by decide)
  have hs := move_ship_ship inp s
  have hc := lane_clear _ (s.sprite_at (first_border_sprite + 2))
    (s.sprite_at (first_border_sprite + 3)) ⟨l1, l3⟩ ⟨r1, r3⟩ ⟨a1, a3, a4⟩
  refine ⟨?_, ?_, ?_, ?_, fun k hk => move_ship_sprite_at_other inp s k hk, ?_⟩
  · unfold ship_between_side_borders
    rw [hl, hr, hs]
    exact ⟨l1, l2, l3, l4, r1, r2, r3, r4, a1, a2, a3, a4⟩
  · rw [hs]
    exact a5
  · rw [hl, hs]
    exact hc.1
  · rw [hr, hs]
    exact hc.2
  · intro t dx dy b hb hclear
    rw [move_ship_key_ship t dx dy b hb, move_ship_key_sprite_at_other t dx dy b b hb]
    exact ship_after_key_clear _ _ dx dy hclear

/-- The start of the game, evaluated: the ship lies between the side borders, one
quarter of a unit above the centre line of the bottom border, and overlaps no border;
after `move_ship` with the key `down` held it overlaps the bottom border. -/
theorem game_start_borders_checked :
    ship_between_side_borders game_start ∧
    |(game_start.sprite_at ship_sprite).y| < 3.125 ∧
    ship_clear_of_borders game_start ∧
    ((move_ship go_down game_start).sprite_at ship_sprite).collides_with
      ((move_ship go_down game_start).sprite_at (first_border_sprite + 0)) = true := by
  unfold ship_between_side_borders ship_clear_of_borders
  decide!

/-- The play of `sink_inputs`, evaluated. -/
theorem sink_checked :
    (run_checked sink_inputs game_start).sprite_at ship_sprite =
      ⟨0, -3.25, 0.125, 0.125, 1, true⟩ ∧
    (run_checked sink_inputs game_start).sprite_at (first_border_sprite + 0) =
      ⟨0, -3, 3, 0.1, 1, true⟩ := by
  decide!

/-- C22: the code does not confine the ship vertically. In `move_ship` the up key takes
its move back when the moved ship collides with the left border
(`first_border_sprite + 2`) and the down key when it collides with the right border
(`first_border_sprite + 3`), the borders of the left and the right key; the top and the
bottom border are never tested. So for a ship between the side borders the up and the
down key always move the ship by `ship_speed`, wherever the top and the bottom border
are. At the start of the game, a reachable state, the ship overlaps none of the four
borders; with the key `down` held `move_ship` moves it to `(0, -2.8)`, where it overlaps
the bottom border (`|-3 - (-2.8)| = 0.2 < 0.225`); after ten such frames the state is
reachable with the ship at `(0, -3.25)`, its upper edge `-3.125` below the lower edge
`-3.1` of the bottom border (centre `(0, -3)`, half-extents 3 and 0.1), outside the
rectangle of the borders. -/
theorem move_ship_vertical_keys_unchecked :
    (∀ s : invaderers_app,
      move_ship go_up s = move_ship_key s 0 ship_speed (first_border_sprite + 2) ∧
      move_ship go_down s = move_ship_key s 0 (-ship_speed) (first_border_sprite + 3)) ∧
    (∀ s : invaderers_app, ship_between_side_borders s →
      (move_ship go_up s).sprite_at ship_sprite =
        (s.sprite_at ship_sprite).translate 0 ship_speed ∧
      (move_ship go_down s).sprite_at ship_sprite =
        (s.sprite_at ship_sprite).translate 0 (-ship_speed)) ∧
    Reachable game_start ∧ ship_clear_of_borders game_start ∧
    ((move_ship go_down game_start).sprite_at ship_sprite).collides_with
      ((move_ship go_down game_start).sprite_at (first_border_sprite + 0)) = true ∧
    ¬ ship_clear_of_borders (move_ship go_down game_start) ∧
    Reachable sunk_state ∧
    sunk_state.sprite_at ship_sprite = ⟨0, -3.25, 0.125, 0.125, 1, true⟩ ∧
    sunk_state.sprite_at (first_border_sprite + 0) = ⟨0, -3, 3, 0.1, 1, true⟩ := by
  have h := sink_checked
  simp only [run_checked_eq] at h
  unfold sunk_state
  refine ⟨fun s => ⟨rfl, rfl⟩, ?_, reachable_game_start, game_start_borders_checked.2.2.1,
    game_start_borders_checked.2.2.2, fun hc => ?_,
    reachable_simulate_frames _ _ reachable_game_start, h.1, h.2⟩
  · intro s hs
    obtain ⟨l1, _, l3, _, r1, _, r3, _, p1, _, p3, p4⟩ := hs
    constructor
    · show (move_ship_key s 0 ship_speed (first_border_sprite + 2)).sprite_at ship_sprite = _
      rw [move_ship_key_ship _ _ _ _ (by decide)]
      exact ship_after_key_vertical _ _ _ ⟨Or.inl l1, l3⟩ ⟨p1, p3, p4⟩
    · show (move_ship_key s 0 (-ship_speed) (first_border_sprite + 3)).sprite_at ship_sprite = _
      rw [move_ship_key_ship _ _ _ _ (by decide)]
      exact ship_after_key_vertical _ _ _ ⟨Or.inr r1, r3⟩ ⟨p1, p3, p4⟩
  · have := hc 0 (by decide)
    rw [game_start_borders_checked.2.2.2] at this
    exact absurd this (by decide)

/-! ## The collision test in binary32 -/

theorem round_half_even_bounds (x : ℚ) :
    ⌊x⌋ ≤ round_half_even x ∧ round_half_even x ≤ ⌊x⌋ + 1 := by
  unfold round_half_even
  split_ifs <;> constructor <;> omega

theorem round_half_even_intCast (n : ℤ) : round_half_even (n : ℚ) = n := by
  unfold round_half_even
  simp

theorem round_half_even_mono {x y : ℚ} (h : x ≤ y) :
    round_half_even x ≤ round_half_even y := by
  have hf : ⌊x⌋ ≤ ⌊y⌋ := Int.floor_mono h
  rcases lt_or_eq_of_le hf with hlt | heq
  · exact le_trans (round_half_even_bounds x).2 (le_trans hlt (round_half_even_bounds y).1)
  · unfold round_half_even
    rw [← heq]
    have hxy : x - ⌊x⌋ ≤ y - ⌊x⌋ := by linarith
    split_ifs <;> first | omega | (exfalso; linarith)

theorem two_zpow_pos (e : ℤ) : (0 : ℚ) < (2 : ℚ) ^ e := zpow_pos (by norm_num) e

theorem round_half_even_nonneg {x : ℚ} (h : 0 ≤ x) : 0 ≤ round_half_even x := by
  have := round_half_even_mono h
  rwa [show (0 : ℚ) = ((0 : ℤ) : ℚ) by norm_num, round_half_even_intCast] at this

theorem round32_abs_nonneg {x : ℚ} (h : 0 ≤ x) : 0 ≤ round32_abs x := by
  unfold round32_abs
  refine le_min ?_ (by positivity)
  refine mul_nonneg (two_zpow_pos _).le ?_
  exact_mod_cast round_half_even_nonneg (div_nonneg h (two_zpow_pos _).le)

theorem round32_abs_zero : round32_abs 0 = 0 := by
  unfold round32_abs
  simp [round_half_even]

/-- The rounded magnitude does not leave the binade from above. -/
theorem grid_le_upper (x : ℚ) :
    (2 : ℚ) ^ (binade x - 23) * round_half_even (x / (2 : ℚ) ^ (binade x - 23))
      ≤ (2 : ℚ) ^ (binade x + 1) := by
  have hu := two_zpow_pos (binade x - 23)
  have h1 : x < (2 : ℚ) ^ (Int.log 2 x + 1) := by
    have := Int.lt_zpow_succ_log_self (b := 2) (by norm_num) x
    simpa using this
  have h2 : (2 : ℚ) ^ (Int.log 2 x + 1) ≤ (2 : ℚ) ^ (binade x + 1) :=
    zpow_le_zpow_right₀ (by norm_num) (by unfold binade; omega)
  have h3 : x / (2 : ℚ) ^ (binade x - 23) ≤ (((2 : ℤ) ^ 24 : ℤ) : ℚ) := by
    rw [div_le_iff₀ hu]
    have : (((2 : ℤ) ^ 24 : ℤ) : ℚ) * (2 : ℚ) ^ (binade x - 23) = (2 : ℚ) ^ (binade x + 1) := by
      rw [show binade x + 1 = 24 + (binade x - 23) by ring, zpow_add₀ (by norm_num)]
      norm_num
    rw [this]
    exact le_trans h1.le h2
  have h4 := round_half_even_mono h3
  rw [round_half_even_intCast] at h4
  have h5 : ((round_half_even (x / (2 : ℚ) ^ (binade x - 23)) : ℤ) : ℚ) ≤ (2 : ℚ) ^ (24 : ℤ) := by
    have : ((round_half_even (x / (2 : ℚ) ^ (binade x - 23)) : ℤ) : ℚ) ≤ (((2 : ℤ) ^ 24 : ℤ) : ℚ) := by
      exact_mod_cast h4
    refine le_trans this ?_
    norm_num
  calc (2 : ℚ) ^ (binade x - 23) * round_half_even (x / (2 : ℚ) ^ (binade x - 23))
      ≤ (2 : ℚ) ^ (binade x - 23) * (2 : ℚ) ^ (24 : ℤ) := mul_le_mul_of_nonneg_left h5 hu.le
    _ = (2 : ℚ) ^ (binade x + 1) := by
      rw [← zpow_add₀ (by norm_num)]; congr 1; ring

/-- The rounded magnitude of a normal value does not leave the binade from below. -/
theorem grid_ge_lower {y : ℚ} (hy : 0 < y) (hn : -126 < binade y) :
    (2 : ℚ) ^ binade y
      ≤ (2 : ℚ) ^ (binade y - 23) * round_half_even (y / (2 : ℚ) ^ (binade y - 23)) := by
  have hu := two_zpow_pos (binade y - 23)
  have he : binade y = Int.log 2 y := by unfold binade at hn ⊢; omega
  have h1 : (2 : ℚ) ^ binade y ≤ y := by
    rw [he]
    have := Int.zpow_log_le_self (b := 2) (by norm_num) hy
    simpa using this
  have h3 : (((2 : ℤ) ^ 23 : ℤ) : ℚ) ≤ y / (2 : ℚ) ^ (binade y - 23) := by
    rw [le_div_iff₀ hu]
    have : (((2 : ℤ) ^ 23 : ℤ) : ℚ) * (2 : ℚ) ^ (binade y - 23) = (2 : ℚ) ^ binade y := by
      nth_rewrite 2 [show binade y = 23 + (binade y - 23) by ring]
      rw [zpow_add₀ (by norm_num)]
      norm_num
    rw [this]
    exact h1
  have h4 := round_half_even_mono h3
  rw [round_half_even_intCast] at h4
  have h5 : (2 : ℚ) ^ (23 : ℤ) ≤ ((round_half_even (y / (2 : ℚ) ^ (binade y - 23)) : ℤ) : ℚ) := by
    have : (((2 : ℤ) ^ 23 : ℤ) : ℚ) ≤ ((round_half_even (y / (2 : ℚ) ^ (binade y - 23)) : ℤ) : ℚ) := by
      exact_mod_cast h4
    refine le_trans ?_ this
    norm_num
  calc (2 : ℚ) ^ binade y = (2 : ℚ) ^ (binade y - 23) * (2 : ℚ) ^ (23 : ℤ) := by
        rw [← zpow_add₀ (by norm_num)]; congr 1; ring
    _ ≤ _ := mul_le_mul_of_nonneg_left h5 hu.le

theorem binade_mono {x y : ℚ} (hx : 0 < x) (h : x ≤ y) : binade x ≤ binade y := by
  unfold binade
  exact max_le_max (Int.log_mono_right hx h) le_rfl

theorem round32_abs_mono {x y : ℚ} (hx : 0 ≤ x) (h : x ≤ y) :
    round32_abs x ≤ round32_abs y := by
  rcases eq_or_lt_of_le hx with h0 | hpos
  · rw [← h0, round32_abs_zero]
    exact round32_abs_nonneg (le_trans hx h)
  have hy : 0 < y := lt_of_lt_of_le hpos h
  unfold round32_abs
  refine min_le_min ?_ le_rfl
  rcases eq_or_lt_of_le (binade_mono hpos h) with he | hlt
  · rw [← he]
    refine mul_le_mul_of_nonneg_left ?_ (two_zpow_pos _).le
    have := round_half_even_mono
      (div_le_div_of_nonneg_right h (two_zpow_pos (binade x - 23)).le)
    exact_mod_cast this
  · refine le_trans (grid_le_upper x) (le_trans ?_ (grid_ge_lower hy ?_))
    · exact zpow_le_zpow_right₀ (by norm_num) (by omega)
    · have : -126 ≤ binade x := by unfold binade; exact le_max_right _ _
      omega

theorem round32_of_nonneg {q : ℚ} (h : 0 ≤ q) : round32 q = round32_abs q := by
  unfold round32
  rw [if_neg (not_lt.mpr h)]

theorem round32_of_neg {q : ℚ} (h : q < 0) : round32 q = -round32_abs (-q) := by
  unfold round32
  rw [if_pos h]

/-- Rounding commutes with the absolute value. -/
theorem abs_round32 (q : ℚ) : |round32 q| = round32 |q| := by
  rcases lt_or_le q 0 with h | h
  · rw [round32_of_neg h, abs_neg, abs_of_neg h, round32_of_nonneg (by linarith),
      abs_of_nonneg (round32_abs_nonneg (by linarith))]
  · rw [round32_of_nonneg h, abs_of_nonneg h, round32_of_nonneg h,
      abs_of_nonneg (round32_abs_nonneg h)]

/-- Rounding is monotone. -/
theorem round32_mono {x y : ℚ} (h : x ≤ y) : round32 x ≤ round32 y := by
  rcases lt_or_le x 0 with hx | hx <;> rcases lt_or_le y 0 with hy | hy
  · rw [round32_of_neg hx, round32_of_neg hy]
    exact neg_le_neg (round32_abs_mono (by linarith) (by linarith))
  · rw [round32_of_neg hx, round32_of_nonneg hy]
    have := round32_abs_nonneg (x := -x) (by linarith)
    have := round32_abs_nonneg hy
    linarith
  · exfalso; linarith
  · rw [round32_of_nonneg hx, round32_of_nonneg hy]
    exact round32_abs_mono hx h

theorem collides_with_f32_iff (a b : sprite) :
    a.collides_with_f32 b = true ↔
      |round32 (b.x - a.x)| < round32 (a.halfWidth + b.halfWidth) ∧
      |round32 (b.y - a.y)| < round32 (a.halfHeight + b.halfHeight) := by
  simp [sprite.collides_with_f32]

/-- A rounded comparison that succeeds also succeeds on the exact values. -/
theorem lt_of_round32_lt {d r : ℚ} (h : |round32 d| < round32 r) : |d| < r := by
  by_contra hc
  rw [abs_round32] at h
  exact absurd (round32_mono (not_lt.mp hc)) (not_le.mpr h)

/-- C2: `collides_with` as the code computes it, in binary32. It returns true exactly
when `|fl(dx)| < fl(halfWidth(self) + halfWidth(other))` and
`|fl(dy)| < fl(halfHeight(self) + halfHeight(other))`, where `fl` rounds to binary32.
When it returns true the exact inequalities `|dx| < halfWidth(self) + halfWidth(other)`
and `|dy| < halfHeight(self) + halfHeight(other)` hold, and for sprites with positive
half-extents the two open rectangles (centre plus or minus half-extents) share a point.
Rectangles that only touch along an edge (the distance of the centres equals the sum of
the half-extents on one axis) do not collide. When the two differences and the two sums
are binary32 values, so that no operation rounds, the result is true exactly when the
exact inequalities hold, and exactly when the open rectangles share a point. -/
theorem collides_with_f32_open_overlap (a b : sprite)
    (haw : 0 < a.halfWidth) (hah : 0 < a.halfHeight)
    (hbw : 0 < b.halfWidth) (hbh : 0 < b.halfHeight) :
    (a.collides_with_f32 b = true ↔
      |round32 (b.x - a.x)| < round32 (a.halfWidth + b.halfWidth) ∧
      |round32 (b.y - a.y)| < round32 (a.halfHeight + b.halfHeight)) ∧
    (a.collides_with_f32 b = true →
      |b.x - a.x| < a.halfWidth + b.halfWidth ∧ |b.y - a.y| < a.halfHeight + b.halfHeight) ∧
    (a.collides_with_f32 b = true → ∃ px py, a.in_open_rect px py ∧ b.in_open_rect px py) ∧
    (|b.x - a.x| = a.halfWidth + b.halfWidth → a.collides_with_f32 b = false) ∧
    (|b.y - a.y| = a.halfHeight + b.halfHeight → a.collides_with_f32 b = false) ∧
    (round32 (b.x - a.x) = b.x - a.x → round32 (b.y - a.y) = b.y - a.y →
      round32 (a.halfWidth + b.halfWidth) = a.halfWidth + b.halfWidth →
      round32 (a.halfHeight + b.halfHeight) = a.halfHeight + b.halfHeight →
      (a.collides_with_f32 b = true ↔
        |b.x - a.x| < a.halfWidth + b.halfWidth ∧
        |b.y - a.y| < a.halfHeight + b.halfHeight) ∧
      (a.collides_with_f32 b = true ↔
        ∃ px py, a.in_open_rect px py ∧ b.in_open_rect px py)) := by
  have hexact : a.collides_with_f32 b = true →
      |b.x - a.x| < a.halfWidth + b.halfWidth ∧
      |b.y - a.y| < a.halfHeight + b.halfHeight := by
    intro h
    obtain ⟨h1, h2⟩ := (collides_with_f32_iff a b).mp h
    exact ⟨lt_of_round32_lt h1, lt_of_round32_lt h2⟩
  have hpoint : (|b.x - a.x| < a.halfWidth + b.halfWidth ∧
      |b.y - a.y| < a.halfHeight + b.halfHeight) ↔
      ∃ px py, a.in_open_rect px py ∧ b.in_open_rect px py := by
    rw [open_interval_overlap a.x b.x _ _ haw hbw, open_interval_overlap a.y b.y _ _ hah hbh]
    constructor
    · rintro ⟨⟨px, h1, h2, h3, h4⟩, ⟨py, h5, h6, h7, h8⟩⟩
      exact ⟨px, py, ⟨h1, h2, h5, h6⟩, ⟨h3, h4, h7, h8⟩⟩
    · rintro ⟨px, py, ⟨h1, h2, h5, h6⟩, ⟨h3, h4, h7, h8⟩⟩
      exact ⟨⟨px, h1, h2, h3, h4⟩, ⟨py, h5, h6, h7, h8⟩⟩
  refine ⟨collides_with_f32_iff a b, hexact, fun h => hpoint.mp (hexact h), ?_, ?_, ?_⟩
  · intro h
    cases hc : a.collides_with_f32 b with
    | false => rfl
    | true => exact absurd h (ne_of_lt (hexact hc).1)
  · intro h
    cases hc : a.collides_with_f32 b with
    | false => rfl
    | true => exact absurd h (ne_of_lt (hexact hc).2)
  · intro e1 e2 e3 e4
    have hiff : a.collides_with_f32 b = true ↔
        |b.x - a.x| < a.halfWidth + b.halfWidth ∧
        |b.y - a.y| < a.halfHeight + b.halfHeight := by
      rw [collides_with_f32_iff, e1, e2, e3, e4]
    exact ⟨hiff, hiff.trans hpoint⟩

/-- The two sprites of the rounding example, evaluated. -/
theorem rounding_checked :
    rounding_box = ⟨0, 0, 1, 1, 0, true⟩ ∧
    rounding_sliver = ⟨1, 0, 1 / 2 ^ 25, 1, 0, true⟩ ∧
    round32 (rounding_sliver.x - rounding_box.x) = 1 ∧
    round32 (rounding_box.halfWidth + rounding_sliver.halfWidth) = 1 ∧
    rounding_box.collides_with_f32 rounding_sliver = false ∧
    rounding_box.collides_with_f32 (unit_box 1 1) = true := by
  decide!

/-- C2, the theorem at the box of half-extents 1 centred at `(0, 0)` and the box of
half-extents 1 centred at `(1, 1)`: the code returns true, and the open rectangles share
a point. -/
theorem collides_with_f32_open_overlap_witness :
    (0 < rounding_box.halfWidth ∧ 0 < rounding_box.halfHeight ∧
      0 < (unit_box 1 1).halfWidth ∧ 0 < (unit_box 1 1).halfHeight) ∧
    rounding_box.collides_with_f32 (unit_box 1 1) = true ∧
    ∃ px py, rounding_box.in_open_rect px py ∧ (unit_box 1 1).in_open_rect px py :=
  ⟨⟨by decide!, by decide!, by decide!, by decide!⟩, rounding_checked.2.2.2.2.2,
    (collides_with_f32_open_overlap rounding_box (unit_box 1 1)
      (by decide!) (by decide!) (by decide!) (by decide!)).2.2.1 rounding_checked.2.2.2.2.2⟩

/-- C2, counterexample: the sprites `init(0, 0, 0, 2, 2)` and `init(0, 1, 0, 2^-24, 2)`
have positive half-extents, centres `(0, 0)` and `(1, 0)` and half-widths 1 and `2^-25`.
Their open rectangles share the point `(1 - 2^-26, 0)`, and `|dx| = 1 < 1 + 2^-25`
and `|dy| = 0 < 2`. In binary32 the sum `1 + 2^-25` rounds to 1, the test `1 < 1` fails
and `collides_with` returns false. -/
theorem collides_with_rounding_counterexample :
    (0 < rounding_box.halfWidth ∧ 0 < rounding_box.halfHeight ∧
      0 < rounding_sliver.halfWidth ∧ 0 < rounding_sliver.halfHeight) ∧
    (|rounding_sliver.x - rounding_box.x| <
        rounding_box.halfWidth + rounding_sliver.halfWidth ∧
      |rounding_sliver.y - rounding_box.y| <
        rounding_box.halfHeight + rounding_sliver.halfHeight) ∧
    (rounding_box.in_open_rect (1 - 1 / 2 ^ 26) 0 ∧
      rounding_sliver.in_open_rect (1 - 1 / 2 ^ 26) 0) ∧
    round32 (rounding_box.halfWidth + rounding_sliver.halfWidth) = 1 ∧
    rounding_box.collides_with_f32 rounding_sliver = false := by
  refine ⟨⟨by decide!, by decide!, by decide!, by decide!⟩, ⟨by decide!, by decide!⟩, ?_,
    rounding_checked.2.2.2.1, rounding_checked.2.2.2.2.1⟩
  rw [rounding_checked.1, rounding_checked.2.1]
  unfold sprite.in_open_rect
  norm_num

end octet
